import Mathlib

/-!
# Verification of the cleansheets ECMAScript front end

A shallow embedding, in Lean 4, of the rune scanner, lexer and parser of the
cleansheets ECMAScript front end (packages `ecmascript/lexer`, `ecmascript/parser`
and `ecmascript/ast`), together with theorems settling the frozen claims about
its natural-language specification.

Modelling conventions, applied uniformly:

* Go runes are modelled as `Option Char`: `some c` is an ordinary code point and
  `none` stands for the sentinel `EOFRune = rune(-1)`.  The character source is a
  fixed list of already-decoded code points, so the `EncodingError` path of
  `Scanner.Read` (I/O decoding failures) has no inhabitant in the model.
* Go panics are modelled with an error monad (`Except Fail`).  The three error
  kinds of `ecmascript/errs` keep their names; Go panics that are *not* one of
  those error values (runtime errors such as calling a method on a nil
  interface, and explicit `panic("unimplemented")` calls) are modelled by the
  distinguished `Fail.crash` constructor, because `Parser.Parse` only recovers
  the three `errs` kinds and re-panics on everything else.
* Unbounded Go `for` loops and the mutual recursion of the parser are given a
  `fuel : Nat` argument; exhausting it yields `Fail.fuel`, which never occurs in
  any of the concrete evaluations below (they use ample fuel).
* Node source spans (`BaseNode`, `SetStart`/`SetEnd`, `ast.Location` inside
  nodes) are bookkeeping that no claim refers to; nodes are modelled without
  their span fields and the span-setting calls are dropped.  All other fields
  and all control flow of the translated functions are kept.
* The Unicode identifier classes (`isIdentifierStart`/`isIdentifierContinue`
  call into Go's `unicode` package tables) are modelled faithfully on the ASCII
  range, which covers every code point exercised here; code points ≥ U+0080 are
  conservatively treated as not being identifier characters.  The explicit
  whitespace and line-terminator tables of `ecmascript/lexer/unicode.go` are
  embedded in full.
-/

set_option maxHeartbeats 4000000
set_option maxRecDepth 1000000

namespace Cleansheets

/-- Source location, from `ast.Location` (column and row; the URI field carries
no information relevant to any claim and is dropped). -/
structure Location where
  column : Int
  row : Int
deriving DecidableEq, Repr

/-- Failure outcomes of the embedded code.  `syntaxErr`, `encodingErr` and
`parserErr` are the three error kinds of `ecmascript/errs` (each carries its
location and message).  `crash` models a Go panic that is not one of those
error values: `Parser.Parse` recovers only the three kinds above, so a `crash`
escapes `Parse` instead of being returned as an error.  `fuel` is the model's
out-of-fuel marker and never occurs in the concrete runs below. -/
inductive Fail where
  | syntaxErr (loc : Location) (msg : String)
  | encodingErr (loc : Location)
  | parserErr (loc : Location) (msg : String)
  | crash (msg : String)
  | fuel
deriving DecidableEq, Repr

/-- A Go rune as delivered by `Scanner.Read`: `some c`, or `none` for the
`EOFRune` sentinel. -/
abbrev Rune := Option Char

/-- The `EOFRune` sentinel (`rune(-1)` in the source). -/
def EOFRune : Rune := none

/-- Wrap an ordinary code point as a rune. -/
def rn (c : Char) : Rune := some c

/-- The explicit whitespace table of `ecmascript/lexer/unicode.go`
(`var whitespace`), embedded in full. -/
def isWhiteSpace (r : Rune) : Bool :=
  match r with
  | none => false
  | some c =>
    c = '\u0009' || c = (Char.ofNat 0x0b) || c = (Char.ofNat 0x0c) ||
    c = ' ' || c = (Char.ofNat 0xa0) || c = (Char.ofNat 0x1680) ||
    c = (Char.ofNat 0x2000) || c = (Char.ofNat 0x2001) || c = (Char.ofNat 0x2002) ||
    c = (Char.ofNat 0x2003) || c = (Char.ofNat 0x2004) || c = (Char.ofNat 0x2005) ||
    c = (Char.ofNat 0x2006) || c = (Char.ofNat 0x2007) || c = (Char.ofNat 0x2008) ||
    c = (Char.ofNat 0x2009) || c = (Char.ofNat 0x200a) || c = (Char.ofNat 0x202f) ||
    c = (Char.ofNat 0x205f) || c = (Char.ofNat 0x3000) || c = (Char.ofNat 0xfeff)

/-- The line-terminator table of `ecmascript/lexer/unicode.go` (`var lineterms`):
LF, CR, U+2028, U+2029. -/
def isLineTerm (r : Rune) : Bool :=
  match r with
  | none => false
  | some c =>
    c = '\u000a' || c = '\u000d' || c = (Char.ofNat 0x2028) || c = (Char.ofNat 0x2029)

/-- `isIdentifierStart` of `ecmascript/lexer/unicode.go`: `$`, `_`, or a letter.
The Unicode-category test (`unicode.In(r, L, Nl, Other_ID_Start)` minus the
pattern classes) is modelled on the ASCII range, where it is exactly the ASCII
letters; see the module comment. -/
def isIdentifierStart (r : Rune) : Bool :=
  match r with
  | none => false
  | some c =>
    c = '$' || c = '_' || ('A' ≤ c && c ≤ 'Z') || ('a' ≤ c && c ≤ 'z')

/-- `isIdentifierContinue` of `ecmascript/lexer/unicode.go`: `$`, `_`, ZWNJ,
ZWJ, or a letter/digit (Unicode categories modelled on the ASCII range, where
they are the ASCII letters and digits). -/
def isIdentifierContinue (r : Rune) : Bool :=
  match r with
  | none => false
  | some c =>
    c = '$' || c = '_' || c = (Char.ofNat 0x200C) || c = (Char.ofNat 0x200D) ||
    ('A' ≤ c && c ≤ 'Z') || ('a' ≤ c && c ≤ 'z') || ('0' ≤ c && c ≤ '9')

/-- `isHexDigit` of `ecmascript/lexer/unicode.go`. -/
def isHexDigit (r : Rune) : Bool :=
  match r with
  | none => false
  | some c =>
    ('0' ≤ c && c ≤ '9') || ('a' ≤ c && c ≤ 'f') || ('A' ≤ c && c ≤ 'F')

/-- `isDecimalDigit` of `ecmascript/lexer/unicode.go`. -/
def isDecimalDigit (r : Rune) : Bool :=
  match r with
  | none => false
  | some c => '0' ≤ c && c ≤ '9'

/-- `isOctalDigit` of `ecmascript/lexer/unicode.go`. -/
def isOctalDigit (r : Rune) : Bool :=
  match r with
  | none => false
  | some c => '0' ≤ c && c ≤ '7'

/-- `isBinaryDigit` of `ecmascript/lexer/unicode.go`. -/
def isBinaryDigit (r : Rune) : Bool :=
  match r with
  | none => false
  | some c => c = '0' || c = '1'

/-- `isExponentIndicator` of `ecmascript/lexer/unicode.go`: `e` or `E`. -/
def isExponentIndicator (r : Rune) : Bool :=
  match r with
  | none => false
  | some c => c = 'e' || c = 'E'

/-- `isNumericLiteralSeparator` of `ecmascript/lexer/unicode.go`: `_`. -/
def isNumericLiteralSeparator (r : Rune) : Bool :=
  match r with
  | none => false
  | some c => c = '_'

/-- Positional lookup in the decoded source (the cursor read of the underlying
`io.RuneScanner`), by structural recursion so that it reduces on a source with
a known prefix. -/
def listNth {α : Type} : List α → Nat → Option α
  | [], _ => Option.none
  | c :: _, 0 => some c
  | _ :: l, i+1 => listNth l i

/-- State of the rune scanner (`lexer.Scanner`): the fixed decoded source, a
cursor into it (the underlying `io.RuneScanner` with its one-rune pushback),
the column/row bookkeeping with the sign-flip newline encoding, and the `eof`
flag. -/
structure ScannerSt where
  src : List Char
  pos : Nat
  col : Int
  row : Int
  eof : Bool
deriving DecidableEq, Repr

/-- `NewScanner`: cursor at the start, column and row 1, `eof` unset. -/
def ScannerSt.init (src : List Char) : ScannerSt :=
  { src := src, pos := 0, col := 1, row := 1, eof := false }

/-- `Scanner.Location`: the current location; a negative column (the newline
sign-flip state) reports as column 1. -/
def ScannerSt.location (s : ScannerSt) : Location :=
  { column := if s.col < 0 then 1 else s.col, row := s.row }

/-- `Scanner.Read`: read the next rune, or the `EOFRune` sentinel at the end of
input (setting the `eof` flag).  On a line terminator the row increments and
the column flips sign (or becomes `-1` if it was already negative); on any
other rune a negative column first resets to 1, then the column increments. -/
def ScannerSt.read (s : ScannerSt) : Rune × ScannerSt :=
  match listNth s.src s.pos with
  | none => (EOFRune, { s with eof := true })
  | some c =>
    let s := { s with pos := s.pos + 1 }
    if isLineTerm (rn c) then
      (rn c, { s with
        row := s.row + 1
        col := if s.col > 0 then -s.col else if s.col < 0 then -1 else s.col })
    else
      (rn c, { s with col := (if s.col < 0 then 1 else s.col) + 1 })

/-- `Scanner.Unread`: push the last rune back.  When the `eof` flag is set the
underlying `UnreadRune` is *not* called (the cursor stays put); otherwise a
pushback at position 0 is the underlying reader's error, surfaced as a
`ParserError` panic.  The column/row bookkeeping always runs: a negative
column flips back positive and the row decrements, otherwise the column just
decrements. -/
def ScannerSt.unread (s : ScannerSt) : Except Fail ScannerSt := do
  let s ←
    if s.eof then pure s
    else if s.pos = 0 then
      throw (Fail.parserErr s.location "pushback at bad position")
    else pure { s with pos := s.pos - 1 }
  if s.col < 0 then
    pure { s with col := -s.col, row := s.row - 1 }
  else
    pure { s with col := s.col - 1 }

/-- `lexer.TokenType`: the enumeration of token kinds, with the Go constant
names kept as constructor names. -/
inductive TokenType where
  | TokenNone
  | TokenIdentifier
  | TokenPrivateIdentifier
  | TokenKeywordAs
  | TokenKeywordAsync
  | TokenKeywordAwait
  | TokenKeywordBreak
  | TokenKeywordCase
  | TokenKeywordCatch
  | TokenKeywordClass
  | TokenKeywordConst
  | TokenKeywordContinue
  | TokenKeywordDebugger
  | TokenKeywordDefault
  | TokenKeywordDelete
  | TokenKeywordDo
  | TokenKeywordElse
  | TokenKeywordEnum
  | TokenKeywordExport
  | TokenKeywordExtends
  | TokenKeywordFalse
  | TokenKeywordFinally
  | TokenKeywordFor
  | TokenKeywordFrom
  | TokenKeywordFunction
  | TokenKeywordGet
  | TokenKeywordIf
  | TokenKeywordImplements
  | TokenKeywordImport
  | TokenKeywordIn
  | TokenKeywordInstanceOf
  | TokenKeywordInterface
  | TokenKeywordLet
  | TokenKeywordNew
  | TokenKeywordNull
  | TokenKeywordMeta
  | TokenKeywordOf
  | TokenKeywordPackage
  | TokenKeywordPrivate
  | TokenKeywordProtected
  | TokenKeywordPublic
  | TokenKeywordReturn
  | TokenKeywordSet
  | TokenKeywordStatic
  | TokenKeywordSuper
  | TokenKeywordSwitch
  | TokenKeywordTarget
  | TokenKeywordThis
  | TokenKeywordThrow
  | TokenKeywordTrue
  | TokenKeywordTry
  | TokenKeywordTypeOf
  | TokenKeywordVar
  | TokenKeywordVoid
  | TokenKeywordWhile
  | TokenKeywordWith
  | TokenKeywordYield
  | TokenPunctuatorOptionalChain
  | TokenPunctuatorOpenBrace
  | TokenPunctuatorOpenParen
  | TokenPunctuatorOpenBracket
  | TokenPunctuatorCloseBracket
  | TokenPunctuatorCloseParen
  | TokenPunctuatorCloseBrace
  | TokenPunctuatorDot
  | TokenPunctuatorEllipsis
  | TokenPunctuatorSemicolon
  | TokenPunctuatorComma
  | TokenPunctuatorLessThan
  | TokenPunctuatorGreaterThan
  | TokenPunctuatorLessThanEqual
  | TokenPunctuatorGreaterThanEqual
  | TokenPunctuatorEqual
  | TokenPunctuatorNotEqual
  | TokenPunctuatorStrictEqual
  | TokenPunctuatorStrictNotEqual
  | TokenPunctuatorPlus
  | TokenPunctuatorMinus
  | TokenPunctuatorMult
  | TokenPunctuatorDiv
  | TokenPunctuatorMod
  | TokenPunctuatorExponent
  | TokenPunctuatorIncrement
  | TokenPunctuatorDecrement
  | TokenPunctuatorLShift
  | TokenPunctuatorRShift
  | TokenPunctuatorUnsignedRShift
  | TokenPunctuatorBitAnd
  | TokenPunctuatorBitOr
  | TokenPunctuatorBitXor
  | TokenPunctuatorNot
  | TokenPunctuatorBitNot
  | TokenPunctuatorLogicalAnd
  | TokenPunctuatorLogicalOr
  | TokenPunctuatorNullCoalesce
  | TokenPunctuatorQuestionMark
  | TokenPunctuatorColon
  | TokenPunctuatorAssign
  | TokenPunctuatorPlusAssign
  | TokenPunctuatorMinusAssign
  | TokenPunctuatorMultAssign
  | TokenPunctuatorDivAssign
  | TokenPunctuatorModAssign
  | TokenPunctuatorExponentAssign
  | TokenPunctuatorLShiftAssign
  | TokenPunctuatorRShiftAssign
  | TokenPunctuatorUnsignedRShiftAssign
  | TokenPunctuatorBitAndAssign
  | TokenPunctuatorBitOrAssign
  | TokenPunctuatorBitXorAssign
  | TokenPunctuatorLogicalAndAssign
  | TokenPunctuatorLogicalOrAssign
  | TokenPunctuatorNullCoalesceAssign
  | TokenPunctuatorFatArrow
  | TokenLiteralNumber
  | TokenLiteralString
  | TokenLiteralRegExp
  | TokenLiteralTemplate
deriving DecidableEq, Repr

/-- `lexer.Token`: a token kind, its raw literal text, and the
"preceded by a line terminator" flag.  Defaults give Go's zero value. -/
structure Token where
  type : TokenType := .TokenNone
  literal : String := ""
  newLine : Bool := false
deriving DecidableEq, Repr

/-- `lexer.ReToken`: a regular-expression token with its pattern body and flag
string. -/
structure ReToken where
  token : Token
  pattern : String := ""
  flags : String := ""
deriving DecidableEq, Repr

/-- `lexer.strToKeywordType`: the keyword table mapping identifier text to
keyword token kinds. -/
def strToKeywordType (s : String) : Option TokenType :=
  match s with
  | "as" => some .TokenKeywordAs
  | "async" => some .TokenKeywordAsync
  | "await" => some .TokenKeywordAwait
  | "break" => some .TokenKeywordBreak
  | "case" => some .TokenKeywordCase
  | "catch" => some .TokenKeywordCatch
  | "class" => some .TokenKeywordClass
  | "const" => some .TokenKeywordConst
  | "continue" => some .TokenKeywordContinue
  | "debugger" => some .TokenKeywordDebugger
  | "default" => some .TokenKeywordDefault
  | "delete" => some .TokenKeywordDelete
  | "do" => some .TokenKeywordDo
  | "else" => some .TokenKeywordElse
  | "enum" => some .TokenKeywordEnum
  | "export" => some .TokenKeywordExport
  | "extends" => some .TokenKeywordExtends
  | "false" => some .TokenKeywordFalse
  | "finally" => some .TokenKeywordFinally
  | "for" => some .TokenKeywordFor
  | "from" => some .TokenKeywordFrom
  | "function" => some .TokenKeywordFunction
  | "get" => some .TokenKeywordGet
  | "if" => some .TokenKeywordIf
  | "implements" => some .TokenKeywordImplements
  | "import" => some .TokenKeywordImport
  | "in" => some .TokenKeywordIn
  | "instanceof" => some .TokenKeywordInstanceOf
  | "interface" => some .TokenKeywordInterface
  | "let" => some .TokenKeywordLet
  | "meta" => some .TokenKeywordMeta
  | "new" => some .TokenKeywordNew
  | "null" => some .TokenKeywordNull
  | "of" => some .TokenKeywordOf
  | "package" => some .TokenKeywordPackage
  | "private" => some .TokenKeywordPrivate
  | "protected" => some .TokenKeywordProtected
  | "public" => some .TokenKeywordPublic
  | "return" => some .TokenKeywordReturn
  | "set" => some .TokenKeywordSet
  | "static" => some .TokenKeywordStatic
  | "super" => some .TokenKeywordSuper
  | "switch" => some .TokenKeywordSwitch
  | "target" => some .TokenKeywordTarget
  | "this" => some .TokenKeywordThis
  | "throw" => some .TokenKeywordThrow
  | "true" => some .TokenKeywordTrue
  | "try" => some .TokenKeywordTry
  | "typeof" => some .TokenKeywordTypeOf
  | "var" => some .TokenKeywordVar
  | "void" => some .TokenKeywordVoid
  | "while" => some .TokenKeywordWhile
  | "with" => some .TokenKeywordWith
  | "yield" => some .TokenKeywordYield
  | _ => Option.none

/-- The generated `TokenType` stringer (`TokenType.String()`), which renders a
token type as its Go constant name.  Used only inside error-message text. -/
def TokenType.goName (t : TokenType) : String :=
  match t with
  | .TokenNone => "TokenNone"
  | .TokenIdentifier => "TokenIdentifier"
  | .TokenPrivateIdentifier => "TokenPrivateIdentifier"
  | .TokenKeywordAs => "TokenKeywordAs"
  | .TokenKeywordAsync => "TokenKeywordAsync"
  | .TokenKeywordAwait => "TokenKeywordAwait"
  | .TokenKeywordBreak => "TokenKeywordBreak"
  | .TokenKeywordCase => "TokenKeywordCase"
  | .TokenKeywordCatch => "TokenKeywordCatch"
  | .TokenKeywordClass => "TokenKeywordClass"
  | .TokenKeywordConst => "TokenKeywordConst"
  | .TokenKeywordContinue => "TokenKeywordContinue"
  | .TokenKeywordDebugger => "TokenKeywordDebugger"
  | .TokenKeywordDefault => "TokenKeywordDefault"
  | .TokenKeywordDelete => "TokenKeywordDelete"
  | .TokenKeywordDo => "TokenKeywordDo"
  | .TokenKeywordElse => "TokenKeywordElse"
  | .TokenKeywordEnum => "TokenKeywordEnum"
  | .TokenKeywordExport => "TokenKeywordExport"
  | .TokenKeywordExtends => "TokenKeywordExtends"
  | .TokenKeywordFalse => "TokenKeywordFalse"
  | .TokenKeywordFinally => "TokenKeywordFinally"
  | .TokenKeywordFor => "TokenKeywordFor"
  | .TokenKeywordFrom => "TokenKeywordFrom"
  | .TokenKeywordFunction => "TokenKeywordFunction"
  | .TokenKeywordGet => "TokenKeywordGet"
  | .TokenKeywordIf => "TokenKeywordIf"
  | .TokenKeywordImplements => "TokenKeywordImplements"
  | .TokenKeywordImport => "TokenKeywordImport"
  | .TokenKeywordIn => "TokenKeywordIn"
  | .TokenKeywordInstanceOf => "TokenKeywordInstanceOf"
  | .TokenKeywordInterface => "TokenKeywordInterface"
  | .TokenKeywordLet => "TokenKeywordLet"
  | .TokenKeywordNew => "TokenKeywordNew"
  | .TokenKeywordNull => "TokenKeywordNull"
  | .TokenKeywordMeta => "TokenKeywordMeta"
  | .TokenKeywordOf => "TokenKeywordOf"
  | .TokenKeywordPackage => "TokenKeywordPackage"
  | .TokenKeywordPrivate => "TokenKeywordPrivate"
  | .TokenKeywordProtected => "TokenKeywordProtected"
  | .TokenKeywordPublic => "TokenKeywordPublic"
  | .TokenKeywordReturn => "TokenKeywordReturn"
  | .TokenKeywordSet => "TokenKeywordSet"
  | .TokenKeywordStatic => "TokenKeywordStatic"
  | .TokenKeywordSuper => "TokenKeywordSuper"
  | .TokenKeywordSwitch => "TokenKeywordSwitch"
  | .TokenKeywordTarget => "TokenKeywordTarget"
  | .TokenKeywordThis => "TokenKeywordThis"
  | .TokenKeywordThrow => "TokenKeywordThrow"
  | .TokenKeywordTrue => "TokenKeywordTrue"
  | .TokenKeywordTry => "TokenKeywordTry"
  | .TokenKeywordTypeOf => "TokenKeywordTypeOf"
  | .TokenKeywordVar => "TokenKeywordVar"
  | .TokenKeywordVoid => "TokenKeywordVoid"
  | .TokenKeywordWhile => "TokenKeywordWhile"
  | .TokenKeywordWith => "TokenKeywordWith"
  | .TokenKeywordYield => "TokenKeywordYield"
  | .TokenPunctuatorOptionalChain => "TokenPunctuatorOptionalChain"
  | .TokenPunctuatorOpenBrace => "TokenPunctuatorOpenBrace"
  | .TokenPunctuatorOpenParen => "TokenPunctuatorOpenParen"
  | .TokenPunctuatorOpenBracket => "TokenPunctuatorOpenBracket"
  | .TokenPunctuatorCloseBracket => "TokenPunctuatorCloseBracket"
  | .TokenPunctuatorCloseParen => "TokenPunctuatorCloseParen"
  | .TokenPunctuatorCloseBrace => "TokenPunctuatorCloseBrace"
  | .TokenPunctuatorDot => "TokenPunctuatorDot"
  | .TokenPunctuatorEllipsis => "TokenPunctuatorEllipsis"
  | .TokenPunctuatorSemicolon => "TokenPunctuatorSemicolon"
  | .TokenPunctuatorComma => "TokenPunctuatorComma"
  | .TokenPunctuatorLessThan => "TokenPunctuatorLessThan"
  | .TokenPunctuatorGreaterThan => "TokenPunctuatorGreaterThan"
  | .TokenPunctuatorLessThanEqual => "TokenPunctuatorLessThanEqual"
  | .TokenPunctuatorGreaterThanEqual => "TokenPunctuatorGreaterThanEqual"
  | .TokenPunctuatorEqual => "TokenPunctuatorEqual"
  | .TokenPunctuatorNotEqual => "TokenPunctuatorNotEqual"
  | .TokenPunctuatorStrictEqual => "TokenPunctuatorStrictEqual"
  | .TokenPunctuatorStrictNotEqual => "TokenPunctuatorStrictNotEqual"
  | .TokenPunctuatorPlus => "TokenPunctuatorPlus"
  | .TokenPunctuatorMinus => "TokenPunctuatorMinus"
  | .TokenPunctuatorMult => "TokenPunctuatorMult"
  | .TokenPunctuatorDiv => "TokenPunctuatorDiv"
  | .TokenPunctuatorMod => "TokenPunctuatorMod"
  | .TokenPunctuatorExponent => "TokenPunctuatorExponent"
  | .TokenPunctuatorIncrement => "TokenPunctuatorIncrement"
  | .TokenPunctuatorDecrement => "TokenPunctuatorDecrement"
  | .TokenPunctuatorLShift => "TokenPunctuatorLShift"
  | .TokenPunctuatorRShift => "TokenPunctuatorRShift"
  | .TokenPunctuatorUnsignedRShift => "TokenPunctuatorUnsignedRShift"
  | .TokenPunctuatorBitAnd => "TokenPunctuatorBitAnd"
  | .TokenPunctuatorBitOr => "TokenPunctuatorBitOr"
  | .TokenPunctuatorBitXor => "TokenPunctuatorBitXor"
  | .TokenPunctuatorNot => "TokenPunctuatorNot"
  | .TokenPunctuatorBitNot => "TokenPunctuatorBitNot"
  | .TokenPunctuatorLogicalAnd => "TokenPunctuatorLogicalAnd"
  | .TokenPunctuatorLogicalOr => "TokenPunctuatorLogicalOr"
  | .TokenPunctuatorNullCoalesce => "TokenPunctuatorNullCoalesce"
  | .TokenPunctuatorQuestionMark => "TokenPunctuatorQuestionMark"
  | .TokenPunctuatorColon => "TokenPunctuatorColon"
  | .TokenPunctuatorAssign => "TokenPunctuatorAssign"
  | .TokenPunctuatorPlusAssign => "TokenPunctuatorPlusAssign"
  | .TokenPunctuatorMinusAssign => "TokenPunctuatorMinusAssign"
  | .TokenPunctuatorMultAssign => "TokenPunctuatorMultAssign"
  | .TokenPunctuatorDivAssign => "TokenPunctuatorDivAssign"
  | .TokenPunctuatorModAssign => "TokenPunctuatorModAssign"
  | .TokenPunctuatorExponentAssign => "TokenPunctuatorExponentAssign"
  | .TokenPunctuatorLShiftAssign => "TokenPunctuatorLShiftAssign"
  | .TokenPunctuatorRShiftAssign => "TokenPunctuatorRShiftAssign"
  | .TokenPunctuatorUnsignedRShiftAssign => "TokenPunctuatorUnsignedRShiftAssign"
  | .TokenPunctuatorBitAndAssign => "TokenPunctuatorBitAndAssign"
  | .TokenPunctuatorBitOrAssign => "TokenPunctuatorBitOrAssign"
  | .TokenPunctuatorBitXorAssign => "TokenPunctuatorBitXorAssign"
  | .TokenPunctuatorLogicalAndAssign => "TokenPunctuatorLogicalAndAssign"
  | .TokenPunctuatorLogicalOrAssign => "TokenPunctuatorLogicalOrAssign"
  | .TokenPunctuatorNullCoalesceAssign => "TokenPunctuatorNullCoalesceAssign"
  | .TokenPunctuatorFatArrow => "TokenPunctuatorFatArrow"
  | .TokenLiteralNumber => "TokenLiteralNumber"
  | .TokenLiteralString => "TokenLiteralString"
  | .TokenLiteralRegExp => "TokenLiteralRegExp"
  | .TokenLiteralTemplate => "TokenLiteralTemplate"

/-- `Token.Source`: the source-code rendering of a token.  Identifiers,
keywords and literals render as their literal text; punctuators as fixed
strings.  The two rendering typos of the source (`TokenPunctuatorNotEqual` as
`===`, `TokenPunctuatorModAssign` as `*=`) are reproduced faithfully.  The
fallthrough for kinds without a case defers to the stringer. -/
def Token.source (t : Token) : String :=
  match t.type with
  | .TokenIdentifier => t.literal
  | .TokenPrivateIdentifier => "#" ++ t.literal
  | .TokenKeywordAs | .TokenKeywordAsync | .TokenKeywordAwait
  | .TokenKeywordBreak | .TokenKeywordCase | .TokenKeywordCatch
  | .TokenKeywordClass | .TokenKeywordConst | .TokenKeywordContinue
  | .TokenKeywordDebugger | .TokenKeywordDefault | .TokenKeywordDelete
  | .TokenKeywordDo | .TokenKeywordElse | .TokenKeywordEnum
  | .TokenKeywordExport | .TokenKeywordExtends | .TokenKeywordFalse
  | .TokenKeywordFinally | .TokenKeywordFor | .TokenKeywordFrom
  | .TokenKeywordFunction | .TokenKeywordGet | .TokenKeywordIf
  | .TokenKeywordImplements | .TokenKeywordImport | .TokenKeywordIn
  | .TokenKeywordInstanceOf | .TokenKeywordInterface | .TokenKeywordLet
  | .TokenKeywordNew | .TokenKeywordNull | .TokenKeywordMeta
  | .TokenKeywordOf | .TokenKeywordPackage | .TokenKeywordPrivate
  | .TokenKeywordProtected | .TokenKeywordPublic | .TokenKeywordReturn
  | .TokenKeywordSet | .TokenKeywordStatic | .TokenKeywordSuper
  | .TokenKeywordSwitch | .TokenKeywordTarget | .TokenKeywordThis
  | .TokenKeywordThrow | .TokenKeywordTrue | .TokenKeywordTry
  | .TokenKeywordTypeOf | .TokenKeywordVar | .TokenKeywordVoid
  | .TokenKeywordWhile | .TokenKeywordWith | .TokenKeywordYield
  | .TokenLiteralNumber | .TokenLiteralString | .TokenLiteralRegExp
  | .TokenLiteralTemplate => t.literal
  | .TokenPunctuatorOptionalChain => ".?"
  | .TokenPunctuatorOpenBrace => "\x7b"
  | .TokenPunctuatorOpenParen => "("
  | .TokenPunctuatorOpenBracket => "["
  | .TokenPunctuatorCloseBracket => "]"
  | .TokenPunctuatorCloseParen => ")"
  | .TokenPunctuatorCloseBrace => "\x7d"
  | .TokenPunctuatorDot => "."
  | .TokenPunctuatorEllipsis => "..."
  | .TokenPunctuatorSemicolon => ";"
  | .TokenPunctuatorComma => ","
  | .TokenPunctuatorLessThan => "<"
  | .TokenPunctuatorGreaterThan => ">"
  | .TokenPunctuatorLessThanEqual => "<="
  | .TokenPunctuatorGreaterThanEqual => ">="
  | .TokenPunctuatorEqual => "=="
  | .TokenPunctuatorNotEqual => "==="
  | .TokenPunctuatorStrictEqual => "==="
  | .TokenPunctuatorStrictNotEqual => "!=="
  | .TokenPunctuatorPlus => "+"
  | .TokenPunctuatorMinus => "-"
  | .TokenPunctuatorMult => "*"
  | .TokenPunctuatorDiv => "/"
  | .TokenPunctuatorMod => "%"
  | .TokenPunctuatorExponent => "**"
  | .TokenPunctuatorIncrement => "++"
  | .TokenPunctuatorDecrement => "--"
  | .TokenPunctuatorLShift => "<<"
  | .TokenPunctuatorRShift => ">>"
  | .TokenPunctuatorUnsignedRShift => ">>>"
  | .TokenPunctuatorBitAnd => "&"
  | .TokenPunctuatorBitOr => "|"
  | .TokenPunctuatorBitXor => "^"
  | .TokenPunctuatorNot => "!"
  | .TokenPunctuatorBitNot => "~"
  | .TokenPunctuatorLogicalAnd => "&&"
  | .TokenPunctuatorLogicalOr => "||"
  | .TokenPunctuatorNullCoalesce => "??"
  | .TokenPunctuatorQuestionMark => "?"
  | .TokenPunctuatorColon => ":"
  | .TokenPunctuatorAssign => "="
  | .TokenPunctuatorPlusAssign => "+="
  | .TokenPunctuatorMinusAssign => "-="
  | .TokenPunctuatorMultAssign => "*="
  | .TokenPunctuatorDivAssign => "/="
  | .TokenPunctuatorModAssign => "*="
  | .TokenPunctuatorExponentAssign => "**="
  | .TokenPunctuatorLShiftAssign => "<<="
  | .TokenPunctuatorRShiftAssign => ">>="
  | .TokenPunctuatorUnsignedRShiftAssign => ">>>="
  | .TokenPunctuatorBitAndAssign => "&="
  | .TokenPunctuatorBitOrAssign => "|="
  | .TokenPunctuatorBitXorAssign => "^="
  | .TokenPunctuatorLogicalAndAssign => "&&="
  | .TokenPunctuatorLogicalOrAssign => "||="
  | .TokenPunctuatorNullCoalesceAssign => "??="
  | .TokenPunctuatorFatArrow => "=>"
  | .TokenNone => TokenType.goName .TokenNone

/-- `Token.StringConstant`: the parsed value of a string-literal token, which
is currently just the literal with its delimiting quotes stripped (a non-string
token is a Go panic, modelled as the empty string; every call site guards the
token kind). -/
def Token.stringConstant (t : Token) : String :=
  (t.literal.drop 1).dropRight 1

/-- Rendering of a rune inside an error message (Go's `%q` verb; the escaping
of special characters is immaterial to every claim and is not reproduced). -/
def quoteRune (r : Rune) : String :=
  match r with
  | some c => "'" ++ String.singleton c ++ "'"
  | none => "'\\uFFFD'"

/-- State of the lexer (`lexer.Lexer`): the rune scanner, the most recently
produced token (for `ReLex`), and the pending "saw a line terminator" flag. -/
structure LexerSt where
  s : ScannerSt
  lastToken : Token := {}
  newLine : Bool := false
deriving DecidableEq, Repr

/-- `NewLexer`: a lexer over the given source, with Go zero values for the
last token and the line-terminator flag. -/
def LexerSt.init (src : List Char) : LexerSt :=
  { s := ScannerSt.init src }

/-- The lexer's effect monad: state threading for the mutable `Lexer` receiver
plus the panic channel. -/
abbrev LexM (α : Type) := StateT LexerSt (Except Fail) α

/-- `l.s.Read()` lifted into the lexer monad. -/
def sRead : LexM Rune := fun l =>
  let (r, s) := l.s.read
  .ok (r, { l with s := s })

/-- `l.s.Unread()` lifted into the lexer monad (its `ParserError` panic
propagates). -/
def sUnread : LexM Unit := fun l =>
  match l.s.unread with
  | .error e => .error e
  | .ok s => .ok ((), { l with s := s })

/-- `panic(&errs.SyntaxError{Location: l.s.Location(), ...})`. -/
def syntaxPanic {α : Type} (msg : String) : LexM α := fun l =>
  .error (.syntaxErr l.s.location msg)

/-- A bare Go `panic("...")` (not an `errs` error value). -/
def crashPanic {α : Type} (msg : String) : LexM α := fun _ =>
  .error (.crash msg)

/-- The model's out-of-fuel escape; never reached in the concrete runs below. -/
def fuelOut {α : Type} : LexM α := fun _ => .error .fuel

/-- `l.newLine = true`. -/
def setNewLine : LexM Unit := fun l => .ok ((), { l with newLine := true })

/-- `strings.Builder.WriteRune`: append a code point to an accumulating
literal.  Every live call site passes an ordinary rune; the handful of Go call
sites that could pass the EOF sentinel are immediately followed by a panic
that discards the builder, so the sentinel case is a no-op here. -/
def pushRune (s : String) : Rune → String
  | some c => s.push c
  | none => s

/-- The character-class loop of `Lexer.consumeRegex` (the `[`…`]` scanner
inside `patternLoop`): `/` does not end the pattern inside a class, `\`
escapes one rune, `]` closes, end-of-input is a syntax error. -/
def consumeRegexClassLoop (fuel0 : Nat) : String → String → LexM (String × String) :=
  Nat.rec (motive := fun _ => String → String → LexM (String × String))
    (fun _ _ => fuelOut)
    (fun _fuel ih lit pat => do
    let r ← sRead
    let lit := pushRune lit r
    let pat := pushRune pat r
    if r = rn '\\' then do
      let r2 ← sRead
      ih (pushRune lit r2) (pushRune pat r2)
    else if r = rn ']' then
      pure (lit, pat)
    else if r = EOFRune then
      syntaxPanic "unexpected EOF"
    else
      ih lit pat)
    fuel0

/-- `patternLoop` of `Lexer.consumeRegex`: `/` ends the pattern, `[` opens a
character class, `\` escapes one rune (kept bare for `/` and `\`, re-escaped
otherwise), end-of-input is a syntax error. -/
def consumeRegexPatternLoop (fuel0 : Nat) : String → String → LexM (String × String) :=
  Nat.rec (motive := fun _ => String → String → LexM (String × String))
    (fun _ _ => fuelOut)
    (fun fuel ih lit pat => do
    let r ← sRead
    let lit := pushRune lit r
    if r = rn '/' then
      pure (lit, pat)
    else if r = rn '[' then do
      let (lit, pat) ← consumeRegexClassLoop fuel lit (pat.push '[')
      ih lit pat
    else if r = rn '\\' then do
      let r2 ← sRead
      let lit := pushRune lit r2
      let pat :=
        if r2 = rn '/' || r2 = rn '\\' then pushRune pat r2
        else pushRune (pat.push '\\') r2
      ih lit pat
    else if r = EOFRune then
      syntaxPanic "unexpected EOF"
    else
      ih lit (pushRune pat r))
    fuel0

/-- The flag loop of `Lexer.consumeRegex`: identifier-continue runes after the
closing `/` form the flag string; the first other rune is pushed back. -/
def consumeRegexFlagLoop (fuel0 : Nat) : String → String → LexM (String × String) :=
  Nat.rec (motive := fun _ => String → String → LexM (String × String))
    (fun _ _ => fuelOut)
    (fun _fuel ih lit flg => do
    let r ← sRead
    if !(isIdentifierContinue r) then do
      sUnread
      pure (lit, flg)
    else
      ih (pushRune lit r) (pushRune flg r))
    fuel0

/-- `Lexer.consumeRegex`: relex a regex, seeding the literal and pattern from
the passed token's source text (the pattern drops the leading `/`). -/
def consumeRegex (fuel : Nat) (t : Token) : LexM ReToken := do
  let lit := t.source
  let pat := t.source.drop 1
  let (lit, pat) ← consumeRegexPatternLoop fuel lit pat
  let (lit, flg) ← consumeRegexFlagLoop fuel lit ""
  pure { token := { type := .TokenLiteralRegExp, literal := lit }, pattern := pat, flags := flg }

/-- `Lexer.consumeMultiLineComment`: eat until after the next `*/`;
end-of-input is a syntax error. -/
def consumeMultiLineComment (fuel0 : Nat) : LexM Unit :=
  Nat.rec (motive := fun _ => LexM Unit)
    fuelOut
    (fun _fuel ih => do
    let r ← sRead
    if r = rn '*' then do
      let r2 ← sRead
      if r2 = rn '/' then pure ()
      else if r2 = EOFRune then syntaxPanic "unexpected EOF"
      else ih
    else if r = EOFRune then
      syntaxPanic "unexpected EOF"
    else
      ih)
    fuel0

/-- `Lexer.consumeSingleLineComment`: eat until after the next line terminator
(or end of input).  Note that the terminating line terminator is consumed here,
inside the comment handler. -/
def consumeSingleLineComment (fuel0 : Nat) : LexM Unit :=
  Nat.rec (motive := fun _ => LexM Unit)
    fuelOut
    (fun _fuel ih => do
    let r ← sRead
    if isLineTerm r || r = EOFRune then pure ()
    else ih)
    fuel0

/-- The accumulation loop of `Lexer.consumeIdentifier`: identifier-continue
runes extend the literal; at the first other rune it is pushed back and the
finished text is checked against the keyword table (for plain identifiers). -/
def consumeIdentifierLoop (fuel0 : Nat) : TokenType → String → LexM Token :=
  Nat.rec (motive := fun _ => TokenType → String → LexM Token)
    (fun _ _ => fuelOut)
    (fun _fuel ih typ lit => do
    let r ← sRead
    if !(isIdentifierContinue r) then do
      sUnread
      let s := lit
      if typ = .TokenIdentifier then
        match strToKeywordType s with
        | some t => pure { type := t, literal := s }
        | none => pure { type := typ, literal := s }
      else
        pure { type := typ, literal := s }
    else
      ih typ (pushRune lit r))
    fuel0

/-- `Lexer.consumeIdentifier`: the first rune must be identifier-start, then
the loop above runs. -/
def consumeIdentifier (fuel : Nat) (typ : TokenType) : LexM Token := do
  let r ← sRead
  if !(isIdentifierStart r) then
    syntaxPanic ("expected IdentifierStart, got " ++ quoteRune r)
  else
    consumeIdentifierLoop fuel typ (pushRune "" r)

/-- The digit loop of `Lexer.consumeBinaryPart`: digits extend the literal, a
numeric separator must be followed by a digit, anything else is pushed back. -/
def consumeBinaryPartLoop (fuel0 : Nat) : String → LexM String :=
  Nat.rec (motive := fun _ => String → LexM String)
    (fun _ => fuelOut)
    (fun _fuel ih lit => do
    let r ← sRead
    if isBinaryDigit r then
      ih (pushRune lit r)
    else if isNumericLiteralSeparator r then do
      let r ← sRead
      if isBinaryDigit r then
        ih (pushRune lit r)
      else
        syntaxPanic ("expected BinaryDigit, got " ++ quoteRune r)
    else do
      sUnread
      pure lit)
    fuel0

/-- `Lexer.consumeBinaryPart`: at least one binary digit, then the loop. -/
def consumeBinaryPart (fuel : Nat) (lit : String) : LexM String := do
  let r ← sRead
  if isBinaryDigit r then
    consumeBinaryPartLoop fuel (pushRune lit r)
  else
    syntaxPanic ("expected BinaryDigit, got " ++ quoteRune r)

/-- The digit loop of `Lexer.consumeOctalPart`. -/
def consumeOctalPartLoop (fuel0 : Nat) : String → LexM String :=
  Nat.rec (motive := fun _ => String → LexM String)
    (fun _ => fuelOut)
    (fun _fuel ih lit => do
    let r ← sRead
    if isOctalDigit r then
      ih (pushRune lit r)
    else if isNumericLiteralSeparator r then do
      let r ← sRead
      if isOctalDigit r then
        ih (pushRune lit r)
      else
        syntaxPanic ("expected OctalDigit, got " ++ quoteRune r)
    else do
      sUnread
      pure lit)
    fuel0

/-- `Lexer.consumeOctalPart`: at least one octal digit, then the loop. -/
def consumeOctalPart (fuel : Nat) (lit : String) : LexM String := do
  let r ← sRead
  if isOctalDigit r then
    consumeOctalPartLoop fuel (pushRune lit r)
  else
    syntaxPanic ("expected OctalDigit, got " ++ quoteRune r)

/-- The digit loop of `Lexer.consumeHexPart`. -/
def consumeHexPartLoop (fuel0 : Nat) : String → LexM String :=
  Nat.rec (motive := fun _ => String → LexM String)
    (fun _ => fuelOut)
    (fun _fuel ih lit => do
    let r ← sRead
    if isHexDigit r then
      ih (pushRune lit r)
    else if isNumericLiteralSeparator r then do
      let r ← sRead
      if isHexDigit r then
        ih (pushRune lit r)
      else
        syntaxPanic ("expected HexDigit, got " ++ quoteRune r)
    else do
      sUnread
      pure lit)
    fuel0

/-- `Lexer.consumeHexPart`: at least one hex digit, then the loop. -/
def consumeHexPart (fuel : Nat) (lit : String) : LexM String := do
  let r ← sRead
  if isHexDigit r then
    consumeHexPartLoop fuel (pushRune lit r)
  else
    syntaxPanic ("expected HexDigit, got " ++ quoteRune r)

/-- The trailing digit loop that `Lexer.consumeDecimalPart` runs after an
exponent indicator.  As in the source, the indicator itself is *not* written to
the literal, and a sign is not accepted: the first non-digit rune is pushed
back and the loop ends. -/
def consumeDecimalExpDigits (fuel0 : Nat) : String → LexM String :=
  Nat.rec (motive := fun _ => String → LexM String)
    (fun _ => fuelOut)
    (fun _fuel ih lit => do
    let r ← sRead
    if isDecimalDigit r then
      ih (pushRune lit r)
    else do
      sUnread
      pure lit)
    fuel0

/-- The digit loop of `Lexer.consumeFractionalPart` (digits and separators of
the fractional part, first other rune pushed back). -/
def consumeFractionalDigitsLoop (fuel0 : Nat) : String → LexM String :=
  Nat.rec (motive := fun _ => String → LexM String)
    (fun _ => fuelOut)
    (fun _fuel ih lit => do
    let r ← sRead
    if isDecimalDigit r then
      ih (pushRune lit r)
    else if isNumericLiteralSeparator r then do
      let r ← sRead
      if isDecimalDigit r then
        ih (pushRune lit r)
      else
        syntaxPanic ("expected DecimalDigit, got " ++ quoteRune r)
    else do
      sUnread
      pure lit)
    fuel0

/-- The digit run that `Lexer.consumeFractionalPart` consumes after a *second*
exponent indicator inside its exponent loop (first non-digit pushed back). -/
def consumeFractionalExpDigits (fuel0 : Nat) : String → LexM String :=
  Nat.rec (motive := fun _ => String → LexM String)
    (fun _ => fuelOut)
    (fun _fuel ih lit => do
    let r ← sRead
    if isDecimalDigit r then
      ih (pushRune lit r)
    else do
      sUnread
      pure lit)
    fuel0

/-- The exponent loop of `Lexer.consumeFractionalPart`: digits extend the
literal, a further exponent indicator consumes one more digit run and then
ends, anything else is pushed back and ends the literal. -/
def consumeFractionalExpLoop (fuel0 : Nat) : String → LexM String :=
  Nat.rec (motive := fun _ => String → LexM String)
    (fun _ => fuelOut)
    (fun fuel ih lit => do
    let r ← sRead
    if isDecimalDigit r then
      ih (pushRune lit r)
    else if isExponentIndicator r then
      consumeFractionalExpDigits fuel lit
    else do
      sUnread
      pure lit)
    fuel0

/-- `Lexer.consumeFractionalPart`: at least one digit, the fractional digit
loop, then an optional exponent part whose indicator and sign *are* written to
the literal (contrast `consumeDecimalPart`). -/
def consumeFractionalPart (fuel : Nat) (lit : String) : LexM String := do
  let r ← sRead
  if !(isDecimalDigit r) then
    syntaxPanic ("expected DecimalDigit, got " ++ quoteRune r)
  else do
  let lit ← consumeFractionalDigitsLoop fuel (pushRune lit r)
  let r ← sRead
  if !(isExponentIndicator r) then do
    sUnread
    pure lit
  else do
  let lit := pushRune lit r
  let r ← sRead
  if r ≠ rn '+' && r ≠ rn '-' && !(isDecimalDigit r) then
    syntaxPanic ("expected DecimalDigit, +, or -, got " ++ quoteRune r)
  else
    consumeFractionalExpLoop fuel (pushRune lit r)

/-- The main loop of `Lexer.consumeDecimalPart`: digits and separators extend
the literal; `.` hands over to the fractional part; an exponent indicator runs
a bare digit loop (without writing the indicator — see claim C6); anything else
is pushed back and ends the literal. -/
def consumeDecimalPartLoop (fuel0 : Nat) : String → LexM String :=
  Nat.rec (motive := fun _ => String → LexM String)
    (fun _ => fuelOut)
    (fun fuel ih lit => do
    let r ← sRead
    if isDecimalDigit r then
      ih (pushRune lit r)
    else if isNumericLiteralSeparator r then do
      let r ← sRead
      if isDecimalDigit r then
        ih (pushRune lit r)
      else
        syntaxPanic ("expected DecimalDigit, got " ++ quoteRune r)
    else if r = rn '.' then
      consumeFractionalPart fuel (lit.push '.')
    else if isExponentIndicator r then
      consumeDecimalExpDigits fuel lit
    else do
      sUnread
      pure lit)
    fuel0

/-- `Lexer.consumeDecimalPart`: at least one decimal digit, then the loop. -/
def consumeDecimalPart (fuel : Nat) (lit : String) : LexM String := do
  let r ← sRead
  if !(isDecimalDigit r) then
    syntaxPanic ("expected DecimalDigit, got " ++ quoteRune r)
  else
    consumeDecimalPartLoop fuel (pushRune lit r)

/-- The accumulation loop of `Lexer.consumeStringLiteral`: every rune is
appended; the matching quote ends the literal, `\` escapes the following rune
in place, end-of-input is a syntax error. -/
def consumeStringLiteralLoop (fuel0 : Nat) : Char → String → LexM Token :=
  Nat.rec (motive := fun _ => Char → String → LexM Token)
    (fun _ _ => fuelOut)
    (fun _fuel ih quo c => do
    let r ← sRead
    let c := pushRune c r
    if r = rn quo then
      pure { type := .TokenLiteralString, literal := c }
    else do
      let (r, c) ←
        if r = rn '\\' then do
          let r2 ← sRead
          pure (r2, pushRune c r2)
        else
          pure (r, c)
      if r = EOFRune then
        syntaxPanic "unexpected EOF"
      else
        ih quo c)
    fuel0

/-- `Lexer.consumeStringLiteral`: the opening quote must be `'` or `"` (a bare
panic otherwise), then the loop above. -/
def consumeStringLiteral (fuel : Nat) : LexM Token := do
  let quo ← sRead
  match quo with
  | some q =>
    if q = '\'' || q = '"' then
      consumeStringLiteralLoop fuel q (String.singleton q)
    else
      crashPanic "unexpected string literal quote"
  | none => crashPanic "unexpected string literal quote"

/-- `Lexer.consumeNextToken`: skip whitespace (recording line terminators in
the `newLine` flag) and comments, then dispatch on the first significant rune
exactly as the source's switch does.  Note the `<` branch: after `<<`, a third
`<` produces the *unsigned right shift* tokens (see claim C10), and comments
are consumed by the comment handlers without touching the `newLine` flag (see
claim C3). -/
def consumeNextTokenStep (fuel : Nat) (ih : LexM Token) : LexM Token := do
    let r ← sRead
    if isLineTerm r then do
      setNewLine
      ih
    else if isWhiteSpace r then
      ih
    else
      match r with
      | none => pure { type := .TokenNone }
      | some c =>
        if c = Char.ofNat 0x7b then pure { type := .TokenPunctuatorOpenBrace }
        else if c = '(' then pure { type := .TokenPunctuatorOpenParen }
        else if c = '[' then pure { type := .TokenPunctuatorOpenBracket }
        else if c = ']' then pure { type := .TokenPunctuatorCloseBracket }
        else if c = ')' then pure { type := .TokenPunctuatorCloseParen }
        else if c = Char.ofNat 0x7d then pure { type := .TokenPunctuatorCloseBrace }
        else if c = '.' then do
          let r1 ← sRead
          if r1 = rn '.' then do
            let r2 ← sRead
            if r2 = rn '.' then pure { type := .TokenPunctuatorEllipsis }
            else syntaxPanic ("expected ., got " ++ quoteRune r)
          else if isDecimalDigit r1 then do
            sUnread
            let lit := String.singleton '.'
            let lit ← consumeFractionalPart fuel lit
            pure { type := .TokenLiteralNumber, literal := lit }
          else do
            sUnread
            pure { type := .TokenPunctuatorDot }
        else if c = '0' then do
          let lit := String.singleton '0'
          let r1 ← sRead
          if r1 = rn 'n' then pure { type := .TokenLiteralNumber, literal := "0n" }
          else if r1 = rn 'b' || r1 = rn 'B' then do
            let lit ← consumeBinaryPart fuel (pushRune lit r1)
            pure { type := .TokenLiteralNumber, literal := lit }
          else if r1 = rn 'o' || r1 = rn 'O' then do
            let lit ← consumeOctalPart fuel (pushRune lit r1)
            pure { type := .TokenLiteralNumber, literal := lit }
          else if r1 = rn 'x' || r1 = rn 'X' then do
            let lit ← consumeHexPart fuel (pushRune lit r1)
            pure { type := .TokenLiteralNumber, literal := lit }
          else if r1 = rn '_' then
            syntaxPanic "numeric separator can not be used after leading 0"
          else if isDecimalDigit r1 then do
            sUnread
            let lit ← consumeDecimalPart fuel lit
            pure { type := .TokenLiteralNumber, literal := lit }
          else do
            sUnread
            pure { type := .TokenLiteralNumber, literal := "0" }
        else if isDecimalDigit (rn c) then do
          sUnread
          let lit ← consumeDecimalPart fuel ""
          pure { type := .TokenLiteralNumber, literal := lit }
        else if c = ';' then pure { type := .TokenPunctuatorSemicolon }
        else if c = ',' then pure { type := .TokenPunctuatorComma }
        else if c = '<' then do
          let r1 ← sRead
          if r1 = rn '<' then do
            let r2 ← sRead
            if r2 = rn '<' then do
              let r3 ← sRead
              if r3 = rn '=' then pure { type := .TokenPunctuatorUnsignedRShiftAssign }
              else do sUnread; pure { type := .TokenPunctuatorUnsignedRShift }
            else if r2 = rn '=' then pure { type := .TokenPunctuatorLShiftAssign }
            else do sUnread; pure { type := .TokenPunctuatorLShift }
          else if r1 = rn '=' then pure { type := .TokenPunctuatorLessThanEqual }
          else do sUnread; pure { type := .TokenPunctuatorLessThan }
        else if c = '>' then do
          let r1 ← sRead
          if r1 = rn '>' then do
            let r2 ← sRead
            if r2 = rn '>' then do
              let r3 ← sRead
              if r3 = rn '=' then pure { type := .TokenPunctuatorUnsignedRShiftAssign }
              else do sUnread; pure { type := .TokenPunctuatorUnsignedRShift }
            else if r2 = rn '=' then pure { type := .TokenPunctuatorRShiftAssign }
            else do sUnread; pure { type := .TokenPunctuatorRShift }
          else if r1 = rn '=' then pure { type := .TokenPunctuatorGreaterThanEqual }
          else do sUnread; pure { type := .TokenPunctuatorGreaterThan }
        else if c = '=' then do
          let r1 ← sRead
          if r1 = rn '=' then do
            let r2 ← sRead
            if r2 = rn '=' then pure { type := .TokenPunctuatorStrictEqual }
            else do sUnread; pure { type := .TokenPunctuatorEqual }
          else if r1 = rn '>' then pure { type := .TokenPunctuatorFatArrow }
          else do sUnread; pure { type := .TokenPunctuatorAssign }
        else if c = '!' then do
          let r1 ← sRead
          if r1 = rn '=' then do
            let r2 ← sRead
            if r2 = rn '=' then pure { type := .TokenPunctuatorStrictNotEqual }
            else do sUnread; pure { type := .TokenPunctuatorNotEqual }
          else do sUnread; pure { type := .TokenPunctuatorNot }
        else if c = '+' then do
          let r1 ← sRead
          if r1 = rn '+' then pure { type := .TokenPunctuatorIncrement }
          else if r1 = rn '=' then pure { type := .TokenPunctuatorPlusAssign }
          else do sUnread; pure { type := .TokenPunctuatorPlus }
        else if c = '-' then do
          let r1 ← sRead
          if r1 = rn '-' then pure { type := .TokenPunctuatorDecrement }
          else if r1 = rn '=' then pure { type := .TokenPunctuatorMinusAssign }
          else do sUnread; pure { type := .TokenPunctuatorMinus }
        else if c = '&' then do
          let r1 ← sRead
          if r1 = rn '&' then do
            let r2 ← sRead
            if r2 = rn '=' then pure { type := .TokenPunctuatorLogicalAndAssign }
            else do sUnread; pure { type := .TokenPunctuatorLogicalAnd }
          else if r1 = rn '=' then pure { type := .TokenPunctuatorBitAndAssign }
          else do sUnread; pure { type := .TokenPunctuatorBitAnd }
        else if c = '|' then do
          let r1 ← sRead
          if r1 = rn '|' then do
            let r2 ← sRead
            if r2 = rn '=' then pure { type := .TokenPunctuatorLogicalOrAssign }
            else do sUnread; pure { type := .TokenPunctuatorLogicalOr }
          else if r1 = rn '=' then pure { type := .TokenPunctuatorBitOrAssign }
          else do sUnread; pure { type := .TokenPunctuatorBitOr }
        else if c = '^' then do
          let r1 ← sRead
          if r1 = rn '=' then pure { type := .TokenPunctuatorBitXorAssign }
          else do sUnread; pure { type := .TokenPunctuatorBitXor }
        else if c = '~' then pure { type := .TokenPunctuatorBitNot }
        else if c = '?' then do
          let r1 ← sRead
          if r1 = rn '?' then do
            let r2 ← sRead
            if r2 = rn '=' then pure { type := .TokenPunctuatorNullCoalesceAssign }
            else do sUnread; pure { type := .TokenPunctuatorNullCoalesce }
          else do sUnread; pure { type := .TokenPunctuatorQuestionMark }
        else if c = ':' then pure { type := .TokenPunctuatorColon }
        else if c = '*' then do
          let r1 ← sRead
          if r1 = rn '*' then do
            let r2 ← sRead
            if r2 = rn '=' then pure { type := .TokenPunctuatorExponentAssign }
            else do sUnread; pure { type := .TokenPunctuatorExponent }
          else if r1 = rn '=' then pure { type := .TokenPunctuatorMultAssign }
          else do sUnread; pure { type := .TokenPunctuatorMult }
        else if c = '%' then do
          let r1 ← sRead
          if r1 = rn '=' then pure { type := .TokenPunctuatorModAssign }
          else do sUnread; pure { type := .TokenPunctuatorMod }
        else if c = '/' then do
          let r1 ← sRead
          if r1 = rn '/' then do
            consumeSingleLineComment fuel
            ih
          else if r1 = rn '*' then do
            consumeMultiLineComment fuel
            ih
          else if r1 = rn '=' then pure { type := .TokenPunctuatorDivAssign }
          else do sUnread; pure { type := .TokenPunctuatorDiv }
        else if c = '"' || c = '\'' then do
          sUnread
          consumeStringLiteral fuel
        else if c = '#' then
          consumeIdentifier fuel .TokenPrivateIdentifier
        else if isIdentifierStart (rn c) then do
          sUnread
          consumeIdentifier fuel .TokenIdentifier
        else
          syntaxPanic ("unexpected rune " ++ quoteRune (rn c))

/-- `Lexer.consumeNextToken` tied by fuel: `Nat.rec` keeps the one-step
unfolding `consumeNextToken_succ` definitional. -/
def consumeNextToken (fuel0 : Nat) : LexM Token :=
  Nat.rec (motive := fun _ => LexM Token)
    fuelOut
    (fun fuel ih => consumeNextTokenStep fuel ih)
    fuel0

/-- `Lexer.Lex`: produce the next token; a pending line-terminator flag is
moved onto the token and cleared, and the token is recorded as `lastToken`
for a later `ReLex`. -/
def LexerSt.lex (fuel : Nat) : LexM Token := fun l =>
  match consumeNextToken fuel l with
  | .error e => .error e
  | .ok (t, l) =>
    let (t, l) :=
      if l.newLine then ({ t with newLine := true }, { l with newLine := false })
      else (t, l)
    .ok (t, { l with lastToken := t })

/-- `Lexer.ReLex`: rescan the most recently produced token as a regular
expression, recording the regex token as the new `lastToken`. -/
def LexerSt.reLex (fuel : Nat) : LexM ReToken := fun l =>
  match consumeRegex fuel l.lastToken l with
  | .error e => .error e
  | .ok (t, l) => .ok (t, { l with lastToken := t.token })

/-- `Lexer.Location`. -/
def LexerSt.loc (l : LexerSt) : Location := l.s.location

/-- The `lexAll` driver of the lexer tests: call `Lex` until `TokenNone`.
Used to state whole-input tokenisation claims. -/
def lexAll (fuel0 : Nat) : LexM (List Token) :=
  Nat.rec (motive := fun _ => LexM (List Token))
    fuelOut
    (fun fuel ih => do
    let t ← LexerSt.lex fuel
    if t.type = .TokenNone then
      pure []
    else do
      let ts ← ih
      pure (t :: ts))
    fuel0

/-- Run the lexer's `lexAll` on a source string with the given fuel, returning
just the token list (or the failure). -/
def lexAllOf (fuel : Nat) (src : String) : Except Fail (List Token) :=
  match lexAll fuel (LexerSt.init src.data) with
  | .error e => .error e
  | .ok (ts, _) => .ok ts

/-- Run a single `Lex` call on a source string, returning the token. -/
def lexFirst (fuel : Nat) (src : String) : Except Fail Token :=
  match LexerSt.lex fuel (LexerSt.init src.data) with
  | .error e => .error e
  | .ok (t, _) => .ok t

/-- `ast.VarKind`. -/
inductive VarKind where
  | VarDeclaration
  | LetDeclaration
  | ConstDeclaration
deriving DecidableEq, Repr

/-- `ast.PropertyKind`. -/
inductive PropertyKind where
  | InitProperty
  | GetProperty
  | SetProperty
deriving DecidableEq, Repr

/-- `ast.MethodKind`. -/
inductive MethodKind where
  | Method
  | GetMethod
  | SetMethod
deriving DecidableEq, Repr

/-- `ast.BinaryOperator`. -/
inductive BinaryOperator where
  | BinaryExponentOp
  | BinaryMultOp
  | BinaryDivOp
  | BinaryModOp
  | BinaryAddOp
  | BinarySubOp
  | BinaryLShiftOp
  | BinaryRShiftOp
  | BinaryUnsignedRShiftOp
  | BinaryLessThanOp
  | BinaryGreaterThanOp
  | BinaryLessThanEqualOp
  | BinaryGreaterThanEqualOp
  | BinaryInstanceOfOp
  | BinaryInOp
  | BinaryEqualOp
  | BinaryNotEqualOp
  | BinaryStrictEqualOp
  | BinaryStrictNotEqualOp
  | BinaryBitAndOp
  | BinaryBitXorOp
  | BinaryBitOrOp
  | BinaryLogicalAndOp
  | BinaryLogicalOrOp
  | BinaryCoalesceOp
deriving DecidableEq, Repr

/-- `ast.AssignmentOperator`. -/
inductive AssignmentOperator where
  | AssignmentOp
  | AssignmentMultOp
  | AssignmentDivOp
  | AssignmentModOp
  | AssignmentAddOp
  | AssignmentSubOp
  | AssignmentLShiftOp
  | AssignmentRShiftOp
  | AssignmentUnsignedRShiftOp
  | AssignmentBitAndOp
  | AssignmentBitXorOp
  | AssignmentBitOrOp
  | AssignmentExponentOp
  | AssignmentLogicalAndOp
  | AssignmentLogicalOr
  | AssignmentCoalesceOp
deriving DecidableEq, Repr

/-- `ast.UpdateOperator`. -/
inductive UpdateOperator where
  | UpdatePreIncrementOp
  | UpdatePreDecrementOp
  | UpdatePostIncrementOp
  | UpdatePostDecrementOp
deriving DecidableEq, Repr

/-- `ast.UnaryOperator`. -/
inductive UnaryOperator where
  | UnaryDeleteOp
  | UnaryVoidOp
  | UnaryTypeOfOp
  | UnaryPlusOp
  | UnaryMinusOp
  | UnaryBitNotOp
  | UnaryNotOp
deriving DecidableEq, Repr

/-- `ast.NamedImport`. -/
structure NamedImport where
  identifier : String := ""
  asBinding : String := ""
deriving DecidableEq, Repr

/-!
The AST node family.  Each Go struct implementing `ast.Node` becomes a `Node`
constructor named after it; Go interface-typed fields (which may hold the nil
interface) become `Option Node`; Go struct-typed aggregates that are not
themselves nodes (`Property`, the binding-pattern family, `FormalParameters`,
`VariableDeclarator`, `SwitchCase`) become single-constructor inductives in the
same mutual block.  `BaseNode` spans are dropped (no claim concerns spans), and
`NumberLiteral` keeps only its raw text (its `float64` value is irrelevant to
every claim).
-/
mutual

inductive Node where
  | ScriptNode (body : List Node)
  | ModuleNode (body : List Node)
  | ImportDeclNode (defaultBinding : Option String) (nameSpace : Option String)
      (namedImports : Option (List NamedImport)) (moduleName : String)
  | BlockStatement (body : List Node)
  | EmptyStatement
  | ExpressionStatement (expression : Option Node) (directive : String)
  | VariableDeclaration (declarations : List VariableDeclarator) (kind : VarKind)
  | IfStatement (test : Option Node) (consequent : Option Node) (alternate : Option Node)
  | WhileStatement (test : Option Node) (body : Option Node)
  | DoWhileStatement (body : Option Node) (test : Option Node)
  | ForStatement (init : Option Node) (test : Option Node) (update : Option Node)
      (body : Option Node)
  | ForInStatement (left : Option Node) (right : Option Node) (body : Option Node)
  | ForOfStatement (left : Option Node) (right : Option Node) (body : Option Node)
  | SwitchStatement (discriminant : Option Node) (cases : List SwitchCase)
  | ContinueStatement (label : String)
  | BreakStatement (label : String)
  | ReturnStatement (argument : Option Node)
  | ThrowStatement (argument : Option Node)
  | TryStatement (block : Option Node) (handler : Option Node) (finalizer : Option Node)
  | CatchClause (param : BindingPattern) (body : Option Node)
  | LabeledStatement (label : String) (body : Option Node)
  | FunctionDeclaration (id : String) (params : FormalParameters) (body : Node)
      (generator : Bool) (expression : Bool) (async : Bool)
  | ClassDeclaration (id : String) (superClass : Option Node) (body : List Node)
  | MethodDefinition (key : Option Node) (computed : Bool) (value : Node)
      (kind : MethodKind) (static : Bool)
  | ThisExpression
  | Identifier (name : String)
  | NullLiteral
  | BooleanLiteral (value : Bool) (raw : String)
  | NumberLiteral (raw : String)
  | StringLiteral (value : String) (raw : String)
  | RegExpLiteral (pattern : String) (flags : String) (raw : String)
  | ArrayExpression (elements : List (Option Node))
  | ObjectExpression (properties : List Property)
  | FunctionExpression (id : String) (params : FormalParameters) (body : Option Node)
      (generator : Bool) (expression : Bool) (async : Bool) (arrow : Bool)
  | MemberExpression (computed : Bool) (object : Option Node) (property : Option Node)
      (optional : Bool)
  | ParenthesizedExpression (expression : Option Node)
  | SpreadElement (argument : Option Node)
  | CallExpression (callee : Option Node) (optional : Bool) (arguments : List Node)
  | NewExpression (callee : Option Node) (arguments : List Node)
  | ConditionalExpression (test : Option Node) (consequent : Option Node)
      (alternate : Option Node)
  | BinaryExpression (operator : BinaryOperator) (left : Option Node) (right : Option Node)
  | AssignmentExpression (operator : AssignmentOperator) (left : Option Node)
      (right : Option Node)
  | UpdateExpression (operator : UpdateOperator) (argument : Option Node)
  | UnaryExpression (operator : UnaryOperator) (argument : Option Node)
  | SequenceExpression (expressions : List Node)
  | ClassExpression (id : String) (superClass : Option Node) (body : List Node)
  | TemporalEmptyArrowHead
  | TemporalArrayRestElement (bindingPattern : BindingPattern)
  | TemporalObjectRestElement (identifier : String)
  | TemporalFloatingRestElement (identifier : String)

/-- `ast.Property` (a single property of an object expression). -/
inductive Property where
  | mk (key : Option Node) (computed : Bool) (value : Option Node)
      (destructureInit : Option Node) (method : Bool) (kind : PropertyKind)

/-- `ast.BindingPattern` (identifier / object pattern / array pattern). -/
inductive BindingPattern where
  | mk (identifier : String) (objectPattern : Option ObjectBindingPattern)
      (arrayPattern : Option ArrayBindingPattern)

/-- `ast.ObjectBindingPattern`. -/
inductive ObjectBindingPattern where
  | mk (properties : List BindingProperty) (restElement : String)

/-- `ast.ArrayBindingPattern`. -/
inductive ArrayBindingPattern where
  | mk (elements : List BindingElement) (restElement : BindingPattern)

/-- `ast.BindingProperty`. -/
inductive BindingProperty where
  | mk (propertyName : String) (value : BindingPattern) (init : Option Node)

/-- `ast.BindingElement`. -/
inductive BindingElement where
  | mk (value : BindingPattern) (init : Option Node)

/-- `ast.FormalParameters`. -/
inductive FormalParameters where
  | mk (parameters : List BindingElement) (restParameter : String)

/-- `ast.VariableDeclarator`. -/
inductive VariableDeclarator where
  | mk (id : BindingPattern) (init : Option Node)

/-- `ast.SwitchCase`. -/
inductive SwitchCase where
  | mk (test : Option Node) (consequent : List (Option Node))

end

/-- The Go zero value of `ast.BindingPattern`. -/
def BindingPattern.empty : BindingPattern := .mk "" Option.none Option.none

/-- `Property.Key`. -/
def Property.key : Property → Option Node
  | .mk k _ _ _ _ _ => k

/-- `Property.Computed`. -/
def Property.computed : Property → Bool
  | .mk _ c _ _ _ _ => c

/-- `Property.Value`. -/
def Property.value : Property → Option Node
  | .mk _ _ v _ _ _ => v

/-- `Property.DestructureInit`. -/
def Property.destructureInit : Property → Option Node
  | .mk _ _ _ d _ _ => d

/-- `Property.Method`. -/
def Property.method : Property → Bool
  | .mk _ _ _ _ m _ => m

/-- `Property.Kind`. -/
def Property.kind : Property → PropertyKind
  | .mk _ _ _ _ _ k => k

/-- The mutually recursive `ContainsTemporalNodes` procedures, gathered as one
record of functions; the recursion is tied by `temporalFns` below, with each
recursive call one fuel level down. -/
structure TemporalFns where
  optContains : Option Node → Except Fail Bool
  contains : Node → Except Fail Bool
  nodesContain : List (Option Node) → Except Fail Bool
  propsContain : List Property → Except Fail Bool
  exprsContain : List Node → Except Fail Bool

/-- One fuel level of the `ContainsTemporalNodes` family.
`optContains` is the dispatch on a possibly-nil `ast.Node` interface value: a
Go method call on the nil interface is a runtime panic, modelled as a `crash`.
`contains` is the method on a non-nil node: `ArrayExpression`,
`ObjectExpression` and `SequenceExpression` define it by recursing into their
children (`ecmascript/ast/expressions.go`); the four temporal node types return
true (`ecmascript/ast/temporal.go`); every other node type answers through the
embedded `BaseNode` default, which returns false (the default method is not
among the files under `src/`, but it is forced by the node types that define no
override and by the parser call sites).  `nodesContain` is the element loop of
`ArrayExpression.ContainsTemporalNodes` (elements are interface values and may
be nil elisions, which crash); `propsContain` the property loop of
`ObjectExpression.ContainsTemporalNodes`, which evaluates
`prop.Key.ContainsTemporalNodes() || prop.Value.ContainsTemporalNodes()` — both
on possibly-nil interface values; `exprsContain` the expression loop of
`SequenceExpression.ContainsTemporalNodes`. -/
def temporalFnsStep (rec : TemporalFns) : TemporalFns where
  optContains
    | Option.none =>
      .error (.crash "runtime error: invalid memory address or nil pointer dereference")
    | some n => rec.contains n
  contains n :=
    match n with
    | .ArrayExpression elems => rec.nodesContain elems
    | .ObjectExpression props => rec.propsContain props
    | .SequenceExpression exprs => rec.exprsContain exprs
    | .TemporalEmptyArrowHead => .ok true
    | .TemporalArrayRestElement _ => .ok true
    | .TemporalObjectRestElement _ => .ok true
    | .TemporalFloatingRestElement _ => .ok true
    | _ => .ok false
  nodesContain
    | [] => .ok false
    | e :: es => do
      let b ← rec.optContains e
      if b then .ok true else rec.nodesContain es
  propsContain
    | [] => .ok false
    | p :: ps => do
      let bk ← rec.optContains p.key
      let b ← if bk then pure true else rec.optContains p.value
      if b then .ok true else rec.propsContain ps
  exprsContain
    | [] => .ok false
    | e :: es => do
      let b ← rec.contains e
      if b then .ok true else rec.exprsContain es

/-- The fuelled `ContainsTemporalNodes` record. -/
def temporalFns : Nat → TemporalFns :=
  Nat.rec
    { optContains := fun _ => .error .fuel
      contains := fun _ => .error .fuel
      nodesContain := fun _ => .error .fuel
      propsContain := fun _ => .error .fuel
      exprsContain := fun _ => .error .fuel }
    (fun _ ih => temporalFnsStep ih)

/-- `ContainsTemporalNodes` on a possibly-nil interface value, at the given
fuel (projection of `temporalFns`). -/
def optContainsTemporalNodes (fuel : Nat) (n : Option Node) : Except Fail Bool :=
  (temporalFns fuel).optContains n

/-- `ContainsTemporalNodes` on a non-nil node, at the given fuel (projection of
`temporalFns`). -/
def containsTemporalNodes (fuel : Nat) (n : Node) : Except Fail Bool :=
  (temporalFns fuel).contains n

/-- The array-element loop of `ContainsTemporalNodes`, at the given fuel
(projection of `temporalFns`). -/
def nodesContainTemporal (fuel : Nat) (ns : List (Option Node)) : Except Fail Bool :=
  (temporalFns fuel).nodesContain ns

/-- The object-property loop of `ContainsTemporalNodes`, at the given fuel
(projection of `temporalFns`). -/
def propsContainTemporal (fuel : Nat) (ps : List Property) : Except Fail Bool :=
  (temporalFns fuel).propsContain ps

/-- The sequence-expression loop of `ContainsTemporalNodes`, at the given fuel
(projection of `temporalFns`). -/
def exprsContainTemporal (fuel : Nat) (es : List Node) : Except Fail Bool :=
  (temporalFns fuel).exprsContain es

/-- `estreeBinaryOpMap`: the ESTree operator string of a binary operator. -/
def estreeBinaryOpMap : BinaryOperator → String
  | .BinaryExponentOp => "**"
  | .BinaryMultOp => "*"
  | .BinaryDivOp => "/"
  | .BinaryModOp => "%"
  | .BinaryAddOp => "+"
  | .BinarySubOp => "-"
  | .BinaryLShiftOp => "<<"
  | .BinaryRShiftOp => ">>"
  | .BinaryUnsignedRShiftOp => ">>>"
  | .BinaryLessThanOp => "<"
  | .BinaryGreaterThanOp => ">"
  | .BinaryLessThanEqualOp => "<="
  | .BinaryGreaterThanEqualOp => ">="
  | .BinaryInstanceOfOp => "instanceof"
  | .BinaryInOp => "in"
  | .BinaryEqualOp => "=="
  | .BinaryNotEqualOp => "!="
  | .BinaryStrictEqualOp => "==="
  | .BinaryStrictNotEqualOp => "!=="
  | .BinaryBitAndOp => "&"
  | .BinaryBitXorOp => "^"
  | .BinaryBitOrOp => "|"
  | .BinaryLogicalAndOp => "&&"
  | .BinaryLogicalOrOp => "||"
  | .BinaryCoalesceOp => "??"

/-- The `type` tag chosen by `BinaryExpression.ESTree`: `LogicalExpression` for
`&&` and `||`, `BinaryExpression` otherwise. -/
def binaryESTreeType (op : BinaryOperator) : String :=
  if op = .BinaryLogicalAndOp || op = .BinaryLogicalOrOp then "LogicalExpression"
  else "BinaryExpression"

/-- `parser.reservedType`. -/
inductive ReservedType where
  | reservedNever
  | reservedAsync
  | reservedGenerator
  | reservedStrict
  | reservedAlways
deriving DecidableEq, Repr

/-- `parser.reservedWords`: the reservation class of each keyword token kind
(absent for non-keyword kinds). -/
def reservedWords (t : TokenType) : Option ReservedType :=
  match t with
  | .TokenKeywordAs => some .reservedNever
  | .TokenKeywordAsync => some .reservedNever
  | .TokenKeywordFrom => some .reservedNever
  | .TokenKeywordGet => some .reservedNever
  | .TokenKeywordMeta => some .reservedNever
  | .TokenKeywordOf => some .reservedNever
  | .TokenKeywordSet => some .reservedNever
  | .TokenKeywordTarget => some .reservedNever
  | .TokenKeywordAwait => some .reservedAsync
  | .TokenKeywordYield => some .reservedGenerator
  | .TokenKeywordImplements => some .reservedStrict
  | .TokenKeywordInterface => some .reservedStrict
  | .TokenKeywordLet => some .reservedStrict
  | .TokenKeywordPackage => some .reservedStrict
  | .TokenKeywordPrivate => some .reservedStrict
  | .TokenKeywordProtected => some .reservedStrict
  | .TokenKeywordPublic => some .reservedStrict
  | .TokenKeywordStatic => some .reservedStrict
  | .TokenKeywordBreak => some .reservedAlways
  | .TokenKeywordCase => some .reservedAlways
  | .TokenKeywordCatch => some .reservedAlways
  | .TokenKeywordClass => some .reservedAlways
  | .TokenKeywordConst => some .reservedAlways
  | .TokenKeywordContinue => some .reservedAlways
  | .TokenKeywordDebugger => some .reservedAlways
  | .TokenKeywordDefault => some .reservedAlways
  | .TokenKeywordDelete => some .reservedAlways
  | .TokenKeywordDo => some .reservedAlways
  | .TokenKeywordElse => some .reservedAlways
  | .TokenKeywordEnum => some .reservedAlways
  | .TokenKeywordExport => some .reservedAlways
  | .TokenKeywordExtends => some .reservedAlways
  | .TokenKeywordFalse => some .reservedAlways
  | .TokenKeywordFinally => some .reservedAlways
  | .TokenKeywordFor => some .reservedAlways
  | .TokenKeywordFunction => some .reservedAlways
  | .TokenKeywordIf => some .reservedAlways
  | .TokenKeywordImport => some .reservedAlways
  | .TokenKeywordIn => some .reservedAlways
  | .TokenKeywordInstanceOf => some .reservedAlways
  | .TokenKeywordNew => some .reservedAlways
  | .TokenKeywordNull => some .reservedAlways
  | .TokenKeywordReturn => some .reservedAlways
  | .TokenKeywordSuper => some .reservedAlways
  | .TokenKeywordSwitch => some .reservedAlways
  | .TokenKeywordThis => some .reservedAlways
  | .TokenKeywordThrow => some .reservedAlways
  | .TokenKeywordTrue => some .reservedAlways
  | .TokenKeywordTry => some .reservedAlways
  | .TokenKeywordTypeOf => some .reservedAlways
  | .TokenKeywordVar => some .reservedAlways
  | .TokenKeywordVoid => some .reservedAlways
  | .TokenKeywordWhile => some .reservedAlways
  | .TokenKeywordWith => some .reservedAlways
  | _ => Option.none

/-- `parser.parseContext`: the strict/async/generator flags. -/
structure ParseContext where
  strictMode : Bool := false
  async : Bool := false
  generator : Bool := false
deriving DecidableEq, Repr

/-- `parseContext.keywordToIdentifier`: demote a keyword token to an identifier
token when it is not reserved in the current context (or unconditionally when
forced).  The demoted token carries only the literal text — in particular its
line-terminator flag is Go's zero value. -/
def ParseContext.keywordToIdentifier (ctx : ParseContext) (token : Token) (force : Bool) :
    Token :=
  match reservedWords token.type with
  | Option.none => token
  | some reservation =>
    if !force then
      match reservation with
      | .reservedAlways => token
      | .reservedAsync =>
        if ctx.async then token
        else { type := .TokenIdentifier, literal := token.literal }
      | .reservedGenerator =>
        if ctx.generator then token
        else { type := .TokenIdentifier, literal := token.literal }
      | .reservedStrict =>
        if ctx.strictMode then token
        else { type := .TokenIdentifier, literal := token.literal }
      | .reservedNever =>
        { type := .TokenIdentifier, literal := token.literal }
    else
      { type := .TokenIdentifier, literal := token.literal }

/-- State of the parser (`parser.Parser` together with its token-lookahead
`parser.Scanner`): the lexer, the buffered token queue `last` with the
matching pre-lex locations `loc`, and the parse context. -/
structure ParserSt where
  lx : LexerSt
  last : List Token := []
  loc : List Location := []
  ctx : ParseContext := {}
deriving DecidableEq, Repr

/-- `NewParser(NewLexer(NewScanner(src)))`. -/
def ParserSt.init (src : List Char) : ParserSt :=
  { lx := LexerSt.init src }

/-- The parser's effect monad. -/
abbrev PM (α : Type) := StateT ParserSt (Except Fail) α

/-- `Scanner.Location` (parser scanner): the front-of-queue location when
tokens are buffered, else the lexer's location. -/
def ParserSt.location (p : ParserSt) : Location :=
  match p.loc with
  | l :: _ => l
  | [] => p.lx.loc

/-- The model's out-of-fuel escape for the parser monad. -/
def pmFuel {α : Type} : PM α := fun _ => .error .fuel

/-- `Scanner.SyntaxError`: panic with a syntax error at the scanner's current
location. -/
def pmSyntaxError {α : Type} (msg : String) : PM α := fun p =>
  .error (.syntaxErr p.location msg)

/-- A bare Go `panic("...")` inside the parser. -/
def pmCrash {α : Type} (msg : String) : PM α := fun _ =>
  .error (.crash msg)

/-- `Scanner.PeekAt`: drain tokens from the lexer (recording the location
before each `Lex` call) until `i+1` are buffered, then return the i-th. -/
def pmPeekAtStep (fuel : Nat) (ih : Nat → PM Token) (i : Nat) : PM Token := fun p =>
  if h : i < p.last.length then
    .ok (p.last.get ⟨i, h⟩, p)
  else
    match LexerSt.lex fuel p.lx with
    | .error e => .error e
    | .ok (t, lx) =>
      ih i { p with lx := lx, last := p.last ++ [t], loc := p.loc ++ [p.location] }

/-- `Scanner.PeekAt` tied by fuel: `Nat.rec` keeps the one-step unfolding
`pmPeekAt_succ` definitional. -/
def pmPeekAt (fuel0 : Nat) (i : Nat) : PM Token :=
  Nat.rec (motive := fun _ => Nat → PM Token)
    (fun _ => pmFuel)
    (fun fuel ih => pmPeekAtStep fuel ih)
    fuel0 i

/-- `Scanner.Scan`: pop the front of the queue, or lex directly when empty. -/
def pmScan (fuel : Nat) : PM Token := fun p =>
  match p.last, p.loc with
  | t :: rest, _ :: locRest => .ok (t, { p with last := rest, loc := locRest })
  | t :: rest, [] => .ok (t, { p with last := rest, loc := [] })
  | [], _ =>
    match LexerSt.lex fuel p.lx with
    | .error e => .error e
    | .ok (t, lx) => .ok (t, { p with lx := lx })

/-- `Scanner.ReScan`: relex the last token as a regex; a hard (non-`errs`)
panic if tokens are buffered, because relex would change the already-copied
future. -/
def pmReScan (fuel : Nat) : PM ReToken := fun p =>
  if p.last.length > 0 then
    .error (.crash "internal error")
  else
    match LexerSt.reLex fuel p.lx with
    | .error e => .error e
    | .ok (t, lx) => .ok (t, { p with lx := lx })

/-- Go's `%q` rendering of a string inside an error message (escaping of
special characters is immaterial to every claim and is not reproduced). -/
def quoteStr (s : String) : String := "\"" ++ s ++ "\""

/-- `Scanner.ScanExpect`: scan and fail with a syntax error when the token is
not of the expected kind. -/
def pmScanExpect (fuel : Nat) (typ : TokenType) (err : String) : PM Token := do
  let t ← pmScan fuel
  if t.type ≠ typ then
    if t.type = .TokenNone then
      pmSyntaxError ("expected " ++ typ.goName ++ ", got eof: " ++ err)
    else
      pmSyntaxError ("expected " ++ typ.goName ++ ", got " ++ quoteStr t.source ++ ": " ++ err)
  else
    pure t

/-- Read the current context. -/
def pmCtx : PM ParseContext := fun p => .ok (p.ctx, p)

/-- Write the context (used for the save/restore pairs of the source). -/
def pmSetCtx (ctx : ParseContext) : PM Unit := fun p => .ok ((), { p with ctx := ctx })

/-- `p.ctx.strictMode = true` (from `parseModule`). -/
def pmSetStrict : PM Unit := fun p =>
  .ok ((), { p with ctx := { p.ctx with strictMode := true } })

/-- `Parser.expectIdent`: demote, then require an identifier token. -/
def expectIdent (t : Token) (err : String) : PM String := do
  let ctx ← pmCtx
  let t := ctx.keywordToIdentifier t false
  if t.type ≠ .TokenIdentifier then
    pmSyntaxError ("expected identifier, got " ++ t.source ++ ": " ++ err)
  else
    pure t.literal

/-- `Parser.forceIdent`: force-demote, then require an identifier token. -/
def forceIdent (t : Token) (err : String) : PM String := do
  let ctx ← pmCtx
  let t := ctx.keywordToIdentifier t true
  if t.type ≠ .TokenIdentifier then
    pmSyntaxError ("expected identifier, got " ++ t.source ++ ": " ++ err)
  else
    pure t.literal

/-- `Parser.scanIdent`. -/
def scanIdent (fuel : Nat) (err : String) : PM String := do
  let t ← pmScan fuel
  expectIdent t err

/-- `Parser.forceScanIdent`. -/
def forceScanIdent (fuel : Nat) (err : String) : PM String := do
  let t ← pmScan fuel
  forceIdent t err

/-- `Parser.expectSemicolon`: the automatic-semicolon-insertion acceptor.  A
peeked `;` is consumed via `ScanExpect`; a token with the line-terminator flag,
a `}` or end-of-input succeed without consuming; anything else reaches
`ScanExpect` and fails with a message ending in "did you forget a
semicolon?". -/
def expectSemicolon (fuel : Nat) : PM Unit := do
  let t ← pmPeekAt fuel 0
  if t.type ≠ .TokenPunctuatorSemicolon &&
      (t.newLine || t.type = .TokenPunctuatorCloseBrace || t.type = .TokenNone) then
    pure ()
  else do
    let _ ← pmScanExpect fuel .TokenPunctuatorSemicolon "did you forget a semicolon?"
    pure ()

/-- Go's `%T` rendering of a node value (its `ast` type name); used only
inside error-message text. -/
def Node.goType : Node → String
  | .ScriptNode _ => "ast.ScriptNode"
  | .ModuleNode _ => "ast.ModuleNode"
  | .ImportDeclNode _ _ _ _ => "ast.ImportDeclNode"
  | .BlockStatement _ => "ast.BlockStatement"
  | .EmptyStatement => "ast.EmptyStatement"
  | .ExpressionStatement _ _ => "ast.ExpressionStatement"
  | .VariableDeclaration _ _ => "ast.VariableDeclaration"
  | .IfStatement _ _ _ => "ast.IfStatement"
  | .WhileStatement _ _ => "ast.WhileStatement"
  | .DoWhileStatement _ _ => "ast.DoWhileStatement"
  | .ForStatement _ _ _ _ => "ast.ForStatement"
  | .ForInStatement _ _ _ => "ast.ForInStatement"
  | .ForOfStatement _ _ _ => "ast.ForOfStatement"
  | .SwitchStatement _ _ => "ast.SwitchStatement"
  | .ContinueStatement _ => "ast.ContinueStatement"
  | .BreakStatement _ => "ast.BreakStatement"
  | .ReturnStatement _ => "ast.ReturnStatement"
  | .ThrowStatement _ => "ast.ThrowStatement"
  | .TryStatement _ _ _ => "ast.TryStatement"
  | .CatchClause _ _ => "ast.CatchClause"
  | .LabeledStatement _ _ => "ast.LabeledStatement"
  | .FunctionDeclaration _ _ _ _ _ _ => "ast.FunctionDeclaration"
  | .ClassDeclaration _ _ _ => "ast.ClassDeclaration"
  | .MethodDefinition _ _ _ _ _ => "ast.MethodDefinition"
  | .ThisExpression => "ast.ThisExpression"
  | .Identifier _ => "ast.Identifier"
  | .NullLiteral => "ast.NullLiteral"
  | .BooleanLiteral _ _ => "ast.BooleanLiteral"
  | .NumberLiteral _ => "ast.NumberLiteral"
  | .StringLiteral _ _ => "ast.StringLiteral"
  | .RegExpLiteral _ _ _ => "ast.RegExpLiteral"
  | .ArrayExpression _ => "ast.ArrayExpression"
  | .ObjectExpression _ => "ast.ObjectExpression"
  | .FunctionExpression _ _ _ _ _ _ _ => "ast.FunctionExpression"
  | .MemberExpression _ _ _ _ => "ast.MemberExpression"
  | .ParenthesizedExpression _ => "ast.ParenthesizedExpression"
  | .SpreadElement _ => "ast.SpreadElement"
  | .CallExpression _ _ _ => "ast.CallExpression"
  | .NewExpression _ _ => "ast.NewExpression"
  | .ConditionalExpression _ _ _ => "ast.ConditionalExpression"
  | .BinaryExpression _ _ _ => "ast.BinaryExpression"
  | .AssignmentExpression _ _ _ => "ast.AssignmentExpression"
  | .UpdateExpression _ _ => "ast.UpdateExpression"
  | .UnaryExpression _ _ => "ast.UnaryExpression"
  | .SequenceExpression _ => "ast.SequenceExpression"
  | .ClassExpression _ _ _ => "ast.ClassExpression"
  | .TemporalEmptyArrowHead => "ast.TemporalEmptyArrowHead"
  | .TemporalArrayRestElement _ => "ast.TemporalArrayRestElement"
  | .TemporalObjectRestElement _ => "ast.TemporalObjectRestElement"
  | .TemporalFloatingRestElement _ => "ast.TemporalFloatingRestElement"

/-- The element loop of the `ast.ArrayExpression` case of `convarg` (inside
`Parser.convertExprToArrowParams`): convert each covered array element to a
binding element; a temporal array rest element becomes the pattern's rest and
ends the conversion immediately. -/
def convargArrayLoop (elems : List (Option Node)) (acc : List BindingElement) :
    PM (Sum (List BindingElement) ArrayBindingPattern) :=
  match elems with
  | [] => pure (Sum.inl acc)
  | e :: rest =>
    match e with
    | Option.none => convargArrayLoop rest (acc ++ [BindingElement.mk BindingPattern.empty Option.none])
    | some (.Identifier name) =>
      convargArrayLoop rest
        (acc ++ [BindingElement.mk (BindingPattern.mk name Option.none Option.none) Option.none])
    | some (.AssignmentExpression _ left right) =>
      match left with
      | some (.Identifier name) =>
        convargArrayLoop rest
          (acc ++ [BindingElement.mk (BindingPattern.mk name Option.none Option.none) right])
      | _ => pmSyntaxError "expected identifier in argument list"
    | some (.TemporalArrayRestElement bp) => pure (Sum.inr (ArrayBindingPattern.mk acc bp))
    | some other =>
      pmSyntaxError ("unexpected production in array destructuring: " ++ other.goType)

/-- The property loop of the `ast.ObjectExpression` case of `convarg`: convert
each covered property to a binding property; a temporal object rest element in
key position becomes the pattern's rest and stops the loop.  (The stray debug
`fmt.Printf` of the source has no semantic effect and is dropped.) -/
def convargObjectLoop (props : List Property) (acc : List BindingProperty) :
    PM ObjectBindingPattern :=
  match props with
  | [] => pure (.mk acc "")
  | prop :: rest =>
    match prop.key with
    | some (.TemporalObjectRestElement restId) => pure (.mk acc restId)
    | _ => do
      let pname :=
        match prop.key with
        | some (.Identifier name) => name
        | _ => ""
      let (valueIdent, init) ←
        match prop.value with
        | some (.Identifier name) => pure (name, (Option.none : Option Node))
        | some (.AssignmentExpression _ left right) =>
          (match left with
           | some (.Identifier name) => pure (name, right)
           | _ => pmSyntaxError "expected identifier in argument list")
        | Option.none => pure ("", (Option.none : Option Node))
        | some other =>
          pmSyntaxError ("unexpected production in object destructuring: " ++ other.goType)
      let init :=
        match prop.destructureInit with
        | some d => some d
        | Option.none => init
      convargObjectLoop rest
        (acc ++ [BindingProperty.mk pname (BindingPattern.mk valueIdent Option.none Option.none) init])

/-- `convarg` of `Parser.convertExprToArrowParams`: convert one element of the
covered expression into the parameter list under construction. -/
def convarg (n : Node) (params : FormalParameters) : PM FormalParameters := do
  match params with
  | .mk ps rest =>
    match n with
    | .Identifier name =>
      pure (.mk (ps ++ [BindingElement.mk (BindingPattern.mk name Option.none Option.none) Option.none]) rest)
    | .AssignmentExpression _ left right =>
      (match left with
       | some (.Identifier name) =>
         pure (.mk (ps ++ [BindingElement.mk (BindingPattern.mk name Option.none Option.none) right]) rest)
       | _ => pmSyntaxError "expected identifier in argument list")
    | .ArrayExpression elems => do
      (match ← convargArrayLoop elems [] with
       | Sum.inl converted =>
         pure (.mk (ps ++ [BindingElement.mk
           (BindingPattern.mk "" Option.none (some (ArrayBindingPattern.mk converted BindingPattern.empty))) Option.none]) rest)
       | Sum.inr pat =>
         pure (.mk (ps ++ [BindingElement.mk (BindingPattern.mk "" Option.none (some pat)) Option.none]) rest))
    | .ObjectExpression props => do
      let pat ← convargObjectLoop props []
      pure (.mk (ps ++ [BindingElement.mk (BindingPattern.mk "" (some pat) Option.none) Option.none]) rest)
    | .TemporalFloatingRestElement id => pure (.mk ps id)
    | other =>
      pmSyntaxError ("unexpected production " ++ other.goType ++ " in arrow function parameter list")

/-- The element fold of the `ast.SequenceExpression` case of
`Parser.convertExprToArrowParams`. -/
def convargSeq (ns : List Node) (params : FormalParameters) : PM FormalParameters :=
  match ns with
  | [] => pure params
  | n :: rest => do
    let params ← convarg n params
    convargSeq rest params

/-- `Parser.convertExprToArrowParams`: reinterpret the covered expression of
the cover grammar as a formal parameter list. -/
def convertExprToArrowParams (inner : Node) : PM FormalParameters :=
  match inner with
  | .TemporalEmptyArrowHead => pure (.mk [] "")
  | .SequenceExpression exprs => convargSeq exprs (.mk [] "")
  | other => convarg other (.mk [] "")

/-- `Parser.convertExprToCallParams`: the comma-split covered expression as an
argument list. -/
def convertExprToCallParams (inner : Node) : List Node :=
  match inner with
  | .SequenceExpression exprs => exprs
  | other => [other]

/-- Lift a pure `Except` computation (such as `ContainsTemporalNodes`) into
the parser monad. -/
def pmLift {α : Type} (e : Except Fail α) : PM α := fun p =>
  match e with
  | .ok a => .ok (a, p)
  | .error e => .error e

/-! Expression precedence levels (`parser.exprOrder`, numerically ordered from
comma, the lowest, to primary, the highest) and the expression flags
(`parser.exprFlags`). -/

def exprOrderComma : Nat := 0
def exprOrderAssign : Nat := 1
def exprOrderConditional : Nat := 2
def exprOrderLogicalOr : Nat := 3
def exprOrderLogicalAnd : Nat := 4
def exprOrderBitwiseOr : Nat := 5
def exprOrderBitwiseXor : Nat := 6
def exprOrderBitwiseAnd : Nat := 7
def exprOrderEqualityExpr : Nat := 8
def exprOrderRelationalExpr : Nat := 9
def exprOrderShiftExpr : Nat := 10
def exprOrderAdditiveExpr : Nat := 11
def exprOrderMultiplicativeExpr : Nat := 12
def exprOrderExponentExpr : Nat := 13
def exprOrderUnaryExpr : Nat := 14
def exprOrderLHSExpr : Nat := 15
def exprOrderCallExpr : Nat := 16
def exprOrderMemberExpr : Nat := 17
def exprOrderPrimaryExpr : Nat := 18

/-- `parser.exprFlags`: the `DisallowIn` and `MaybeArrow` bits. -/
structure ExprFlags where
  disallowIn : Bool := false
  maybeArrow : Bool := false
deriving DecidableEq, Repr

/-- The flag value `0`. -/
def eflagsNone : ExprFlags := {}

/-- The flag value `exprFlagMaybeArrow`. -/
def eflagsMaybeArrow : ExprFlags := { maybeArrow := true }

/-- The flag value `exprFlagDisallowIn`. -/
def eflagsDisallowIn : ExprFlags := { disallowIn := true }

/-- The flag expression `flags & exprFlagMaybeArrow` (strips `DisallowIn`). -/
def ExprFlags.maybeArrowOnly (f : ExprFlags) : ExprFlags := { maybeArrow := f.maybeArrow }

/-- `invalidprimary` of `Parser.parseExpression`: the syntax error raised when
the scanned token cannot begin a primary expression at the requested
precedence. -/
def invalidPrimary {α : Type} (t : Token) : PM α :=
  pmSyntaxError ("unexpected token `" ++ t.source ++ "`, expected primary expression")

/-- `Parser.parseEmptyExpression`: an empty statement is just (A)SI. -/
def parseEmptyExpression (fuel : Nat) : PM Node := do
  expectSemicolon fuel
  pure .EmptyStatement

/-- `Parser.parseContinueStatement`: `continue`, an optional same-line label
(after contextual demotion), then ASI. -/
def parseContinueStatement (fuel : Nat) : PM Node := do
  let _ ← pmScanExpect fuel .TokenKeywordContinue "expected continue statement"
  let ctx ← pmCtx
  let t := ctx.keywordToIdentifier (← pmPeekAt fuel 0) false
  if t.newLine || t.type ≠ .TokenIdentifier then do
    expectSemicolon fuel
    pure (.ContinueStatement "")
  else do
    let label ← scanIdent fuel "expected identifier"
    expectSemicolon fuel
    pure (.ContinueStatement label)

/-- `Parser.parseBreakStatement`: `break`, an optional same-line label, ASI. -/
def parseBreakStatement (fuel : Nat) : PM Node := do
  let _ ← pmScanExpect fuel .TokenKeywordBreak "expected break statement"
  let ctx ← pmCtx
  let t := ctx.keywordToIdentifier (← pmPeekAt fuel 0) false
  if t.newLine || t.type ≠ .TokenIdentifier then do
    expectSemicolon fuel
    pure (.BreakStatement "")
  else do
    let label ← scanIdent fuel "expected identifier"
    expectSemicolon fuel
    pure (.BreakStatement label)

/-- `Parser.parseWithStatement`: stubbed with a bare panic in the source. -/
def parseWithStatement (_fuel : Nat) : PM Node := pmCrash "unimplemented"

/-- `Parser.parseDebuggerStatement`: stubbed with a bare panic in the source. -/
def parseDebuggerStatement (_fuel : Nat) : PM Node := pmCrash "unimplemented"

/-- `Parser.parseExportDecl`: stubbed with a bare panic in the source. -/
def parseExportDecl (_fuel : Nat) : PM Node := pmCrash "unimplemented"

/-- The `importList` loop of `Parser.parseImportDecl`: named import specifiers
with optional `as` rebinding, separated by commas, ended by `}`.  As in the
source, a specifier followed by an unexpected token is silently dropped and
the loop rescans. -/
def parseImportList (fuel : Nat) (iter0 : Nat) : List NamedImport → PM (List NamedImport) :=
  Nat.rec (motive := fun _ => List NamedImport → PM (List NamedImport))
    (fun _ => pmFuel)
    (fun _iter ih acc => do
    let t ← pmScan fuel
    if t.type = .TokenPunctuatorCloseBrace then
      pure acc
    else do
      let id ← expectIdent t "expected import specifier in import list"
      let t ← pmScan fuel
      if t.type = .TokenPunctuatorCloseBrace then
        pure (acc ++ [{ identifier := id }])
      else if t.type = .TokenPunctuatorComma then
        ih (acc ++ [{ identifier := id }])
      else if t.type = .TokenKeywordAs then do
        let asB ← scanIdent fuel "expected import binding after `as` in import list"
        let t ← pmScan fuel
        if t.type = .TokenPunctuatorCloseBrace then
          pure (acc ++ [{ identifier := id, asBinding := asB }])
        else if t.type = .TokenPunctuatorComma then
          ih (acc ++ [{ identifier := id, asBinding := asB }])
        else
          ih acc
      else
        ih acc)
    iter0

/-- The shared tail of `Parser.parseImportDecl`: the `from` clause, the module
specifier, and ASI. -/
def parseImportDeclFinish (fuel : Nat) (db ns : Option String)
    (ni : Option (List NamedImport)) : PM Node := do
  let _ ← pmScanExpect fuel .TokenKeywordFrom "expected `from` clause in import declaration"
  let t ← pmScanExpect fuel .TokenLiteralString "expected module specifier after `from`"
  expectSemicolon fuel
  pure (.ImportDeclNode db ns ni t.stringConstant)

/-- The second dispatch of `Parser.parseImportDecl`: a `*` namespace binding or
a `{…}` named import list, then the shared tail. -/
def parseImportDeclTail (fuel : Nat) (db : Option String) (t : Token) : PM Node := do
  if t.type = .TokenPunctuatorMult then do
    let _ ← pmScanExpect fuel .TokenKeywordAs "expected `as` after namespace binding operator `*`"
    let ns ← scanIdent fuel "expected namespace binding after `* as`"
    parseImportDeclFinish fuel db (some ns) Option.none
  else if t.type = .TokenPunctuatorOpenBrace then do
    let items ← parseImportList fuel fuel []
    parseImportDeclFinish fuel db Option.none (some items)
  else
    pmSyntaxError "expected namespace or named imports in import statement"

/-- `Parser.parseImportDecl`: a bare module import, or a default binding
optionally followed by a namespace or named imports, per the source's nested
switches. -/
def parseImportDecl (fuel : Nat) : PM Node := do
  let _ ← pmScanExpect fuel .TokenKeywordImport "expected `import` declaration"
  let ctx ← pmCtx
  let t0 := ctx.keywordToIdentifier (← pmScan fuel) false
  if t0.type = .TokenLiteralString then do
    expectSemicolon fuel
    pure (.ImportDeclNode Option.none Option.none Option.none t0.stringConstant)
  else if t0.type = .TokenIdentifier then do
    let db := some t0.literal
    let t1 ← pmScan fuel
    if t1.type = .TokenPunctuatorComma then do
      let t2 ← pmScan fuel
      parseImportDeclTail fuel db t2
    else if t1.type = .TokenKeywordFrom then do
      let t2 ← pmScanExpect fuel .TokenLiteralString "expected module specifier after `from`"
      expectSemicolon fuel
      pure (.ImportDeclNode db Option.none Option.none t2.stringConstant)
    else
      pmSyntaxError ("expected `,` or `from` after default import in import declaration, got " ++
        quoteStr t1.source)
  else
    parseImportDeclTail fuel Option.none t0

/-- `atEndOfPropertyKey` of `Parser.parseObjectTail`: the token kinds that end
a property key (`=` additionally, when parsing a possible arrow head). -/
def atEndOfPropertyKey (flags : ExprFlags) (t : TokenType) : Bool :=
  (flags.maybeArrow && t = .TokenPunctuatorAssign) ||
  (t = .TokenPunctuatorColon || t = .TokenPunctuatorComma ||
   t = .TokenPunctuatorCloseBrace || t = .TokenPunctuatorOpenParen)

/-- `parseRest` of `Parser.parseObjectTail`: the object-rest temporal binding
after `...` at property position. -/
def parseObjectRestTemporal (fuel : Nat) : PM Node := do
  let pk ← pmPeekAt fuel 0
  if pk.type = .TokenPunctuatorCloseBrace then
    pmSyntaxError "expected expression, got '\x7d'"
  else if pk.type = .TokenIdentifier then do
    let id ← forceScanIdent fuel "unexpected token"
    pure (.TemporalObjectRestElement id)
  else
    pmSyntaxError "missing variable name"

/-- The parser's mutually recursive procedures, gathered as one record of
functions.  The source's mutual recursion is tied by `parserFns`, which builds
the record by plain recursion on fuel: at each level, every recursive call
(`rec.…`) runs with one unit of fuel less, and at fuel 0 everything yields the
model's out-of-fuel marker.  Each `…F` definition below is the translation of
the corresponding `Parser` method, with `rec.foo` in place of a recursive call
to `foo`. -/
structure ParserFns where
  parseExpression : Nat → ExprFlags → PM Node
  parseExpressionMain : Nat → ExprFlags → PM Node
  parseExpressionPrimary : Nat → ExprFlags → Token → ReToken → PM (Bool × Node)
  parseExpressionPost : Nat → ExprFlags → Node → PM Node
  parseExpressionLoop : Nat → ExprFlags → Node → PM Node
  parseFunctionExpressionTail : Bool → PM Node
  parseArguments : PM (List Node)
  parseArgumentsLoop : List Node → PM (List Node)
  parseParameters : PM FormalParameters
  parseParametersTail : PM FormalParameters
  parseParametersTailLoop : List BindingElement → PM FormalParameters
  parseArrayTail : ExprFlags → PM Node
  parseArrayTailLoop : ExprFlags → List (Option Node) → PM Node
  parseArrayElisions : List (Option Node) → PM (List (Option Node))
  parseObjectTail : ExprFlags → PM Node
  parseObjectTailLoop : ExprFlags → List Property → PM Node
  parseObjectTailProperty : ExprFlags → List Property → Token → Bool → Bool → PropertyKind → PM Node
  parseBlockOrShorthand : PM Node
  parseBlock : PM Node
  parseBlockLoop : List Node → PM (List Node)
  parseStatementItem : PM Node
  parseStatement : PM (Option Node)
  parseExpressionStatement : PM Node
  parseVariableStatement : PM Node
  parseVariableStatementNoSemicolon : PM Node
  parseVariableDeclarations : PM (List VariableDeclarator)
  parseVariableDeclarationsLoop : List VariableDeclarator → PM (List VariableDeclarator)
  parseVariableDeclaration : PM VariableDeclarator
  parseArrayBindingPattern : PM ArrayBindingPattern
  parseArrayBindingPatternTail : PM ArrayBindingPattern
  parseArrayBindingPatternTailLoop : List BindingElement → PM ArrayBindingPattern
  parseObjectBindingPattern : PM ObjectBindingPattern
  parseObjectBindingPatternTail : PM ObjectBindingPattern
  parseObjectBindingPatternTailLoop : List BindingProperty → PM ObjectBindingPattern
  parseIfStatement : PM Node
  parseDoWhileStatement : PM Node
  parseWhileStatement : PM Node
  parseForStatement : PM Node
  parseForClassicTail : Option Node → PM Node
  parseSwitchStatement : PM Node
  parseSwitchLoop : List SwitchCase → PM (List SwitchCase)
  parseSwitchCaseStatements : List (Option Node) → PM (List (Option Node))
  parseReturnStatement : PM Node
  parseThrowStatement : PM Node
  parseTryStatement : PM Node
  parseCatchParameter : PM BindingPattern
  parseLabelledStatement : PM Node
  parseDeclaration : PM (Option Node)
  parseFunctionDeclaration : PM Node
  parseLexicalDeclaration : PM Node
  parseLexicalDeclarationNoSemicolon : PM Node
  parseClassDeclaration : PM Node
  parseClassBody : PM (List Node)
  parseClassBodyLoop : List Node → PM (List Node)
  parseScriptLoop : List Node → PM (List Node)
  parseModuleLoop : List Node → PM (List Node)
  parseModuleItem : PM (Option Node)

/-- `Parser.parseExpression`: precedence-climbing expression parsing.  Under
`MaybeArrow`, an immediate `)` or a leading `...identifier` produce the
corresponding temporal nodes before anything is scanned. -/
def parseExpressionF (fuel : Nat) (rec : ParserFns) (order : Nat) (flags : ExprFlags) : PM Node := do
    if flags.maybeArrow then do
      let pk ← pmPeekAt fuel 0
      if pk.type = .TokenPunctuatorCloseParen then
        pure .TemporalEmptyArrowHead
      else if pk.type = .TokenPunctuatorEllipsis then do
        let _ ← pmScanExpect fuel .TokenPunctuatorEllipsis "expected `...`"
        let id ← forceScanIdent fuel "unexpected token"
        pure (.TemporalFloatingRestElement id)
      else
        rec.parseExpressionMain order flags
    else
      rec.parseExpressionMain order flags

/-- The body of `Parser.parseExpression` after the `MaybeArrow` front checks:
scan (with contextual keyword demotion and the div-to-regex relex), run the
primary switch, then the operator loop. -/
def parseExpressionMainF (fuel : Nat) (rec : ParserFns) (order : Nat) (flags : ExprFlags) : PM Node := do
    let ctx ← pmCtx
    let t ← pmScan fuel
    let t := ctx.keywordToIdentifier t false
    let (t, re) ←
      if t.type = .TokenPunctuatorDiv || t.type = .TokenPunctuatorDivAssign then do
        let re ← pmReScan fuel
        pure (re.token, re)
      else
        pure (t, ({ token := {} } : ReToken))
    let (early, n) ← rec.parseExpressionPrimary order flags t re
    if early then
      pure n
    else
      rec.parseExpressionPost order flags n

/-- The primary-expression switch of `Parser.parseExpression`.  Returns the
parsed node, plus a flag marking the one case that returns from the function
directly (the bare-parameter async arrow). -/
def parseExpressionPrimaryF (fuel : Nat) (rec : ParserFns) (order : Nat) (flags : ExprFlags) (t : Token) (re : ReToken) : PM (Bool × Node) := do
    match t.type with
    | .TokenPunctuatorIncrement => do
      let arg ← rec.parseExpression exprOrderLHSExpr flags
      if order > exprOrderUnaryExpr then invalidPrimary t
      else pure (false, .UpdateExpression .UpdatePreIncrementOp (some arg))
    | .TokenPunctuatorDecrement => do
      let arg ← rec.parseExpression exprOrderLHSExpr flags
      if order > exprOrderUnaryExpr then invalidPrimary t
      else pure (false, .UpdateExpression .UpdatePreDecrementOp (some arg))
    | .TokenKeywordDelete => do
      let arg ← rec.parseExpression exprOrderUnaryExpr flags
      if order > exprOrderUnaryExpr then invalidPrimary t
      else pure (false, .UnaryExpression .UnaryDeleteOp (some arg))
    | .TokenKeywordVoid => do
      let arg ← rec.parseExpression exprOrderUnaryExpr flags
      if order > exprOrderUnaryExpr then invalidPrimary t
      else pure (false, .UnaryExpression .UnaryVoidOp (some arg))
    | .TokenKeywordTypeOf => do
      let arg ← rec.parseExpression exprOrderUnaryExpr flags
      if order > exprOrderUnaryExpr then invalidPrimary t
      else pure (false, .UnaryExpression .UnaryTypeOfOp (some arg))
    | .TokenPunctuatorPlus => do
      let arg ← rec.parseExpression exprOrderUnaryExpr flags
      if order > exprOrderUnaryExpr then invalidPrimary t
      else pure (false, .UnaryExpression .UnaryPlusOp (some arg))
    | .TokenPunctuatorMinus => do
      let arg ← rec.parseExpression exprOrderUnaryExpr flags
      if order > exprOrderUnaryExpr then invalidPrimary t
      else pure (false, .UnaryExpression .UnaryMinusOp (some arg))
    | .TokenPunctuatorBitNot => do
      let arg ← rec.parseExpression exprOrderUnaryExpr flags
      if order > exprOrderUnaryExpr then invalidPrimary t
      else pure (false, .UnaryExpression .UnaryBitNotOp (some arg))
    | .TokenPunctuatorNot => do
      let arg ← rec.parseExpression exprOrderUnaryExpr flags
      if order > exprOrderUnaryExpr then invalidPrimary t
      else pure (false, .UnaryExpression .UnaryNotOp (some arg))
    | .TokenKeywordThis => pure (false, .ThisExpression)
    | .TokenIdentifier =>
      if t.literal = "async" then do
        let peek ← pmPeekAt fuel 0
        let ctx ← pmCtx
        let ident := ctx.keywordToIdentifier peek true
        if peek.type = .TokenKeywordFunction then do
          let _ ← pmScan fuel
          let n ← rec.parseFunctionExpressionTail false
          pure (false, n)
        else if ident.type = .TokenIdentifier then do
          let _ ← pmScan fuel
          let _ ← pmScanExpect fuel .TokenPunctuatorFatArrow "expected '=>'"
          let body ← rec.parseBlockOrShorthand
          pure (true, .FunctionExpression ""
            (.mk [BindingElement.mk (BindingPattern.mk ident.literal Option.none Option.none) Option.none] "")
            (some body) false false true true)
        else if peek.type = .TokenPunctuatorOpenParen then do
          let _ ← pmScan fuel
          let inner ← rec.parseExpression exprOrderComma eflagsMaybeArrow
          let _ ← pmScanExpect fuel .TokenPunctuatorCloseParen "expected `)` operator"
          if (← pmPeekAt fuel 0).type = .TokenPunctuatorFatArrow then do
            let _ ← pmScanExpect fuel .TokenPunctuatorFatArrow "expected `=>` operator"
            let params ← convertExprToArrowParams inner
            let body ← rec.parseBlockOrShorthand
            pure (false, .FunctionExpression "" params (some body) false false true true)
          else
            pure (false, .CallExpression (some (.Identifier t.literal)) false
              (convertExprToCallParams inner))
        else
          pure (false, .Identifier t.literal)
      else
        pure (false, .Identifier t.literal)
    | .TokenKeywordNull => pure (false, .NullLiteral)
    | .TokenKeywordTrue => pure (false, .BooleanLiteral true t.literal)
    | .TokenKeywordFalse => pure (false, .BooleanLiteral false t.literal)
    | .TokenLiteralNumber => pure (false, .NumberLiteral t.literal)
    | .TokenLiteralString => pure (false, .StringLiteral t.stringConstant t.literal)
    | .TokenPunctuatorOpenBracket => do
      let n ← rec.parseArrayTail flags.maybeArrowOnly
      pure (false, n)
    | .TokenPunctuatorOpenBrace => do
      let n ← rec.parseObjectTail flags.maybeArrowOnly
      pure (false, n)
    | .TokenKeywordFunction => do
      let n ← rec.parseFunctionExpressionTail false
      pure (false, n)
    | .TokenKeywordNew => do
      let ctor ← rec.parseExpression exprOrderMemberExpr flags
      let args ←
        if (← pmPeekAt fuel 0).type = .TokenPunctuatorOpenParen then
          rec.parseArguments
        else
          pure []
      pure (false, .NewExpression (some ctor) args)
    | .TokenKeywordClass => pmCrash "unimplemented: class expression"
    | .TokenLiteralRegExp =>
      pure (false, .RegExpLiteral re.pattern re.flags t.literal)
    | .TokenLiteralTemplate => pmCrash "unimplemented: template literal"
    | .TokenPunctuatorOpenParen => do
      let inner ← rec.parseExpression exprOrderComma eflagsMaybeArrow
      let _ ← pmScanExpect fuel .TokenPunctuatorCloseParen "expected `)` operator"
      if (← pmPeekAt fuel 0).type = .TokenPunctuatorFatArrow then do
        let _ ← pmScanExpect fuel .TokenPunctuatorFatArrow "expected `=>` operator"
        let params ← convertExprToArrowParams inner
        let body ← rec.parseBlockOrShorthand
        pure (false, .FunctionExpression "" params (some body) false false false true)
      else
        match inner with
        | .TemporalEmptyArrowHead => pmSyntaxError "expected `=>` operator"
        | _ => do
          let temporal ← pmLift (containsTemporalNodes fuel inner)
          if temporal then
            pmSyntaxError "expected `=>` operator"
          else
            pure (false, .ParenthesizedExpression (some inner))
    | _ => invalidPrimary t

/-- The continuation of `Parser.parseExpression` after the primary switch: the
bare single-identifier arrow head, the order cut-off at primary precedence,
then the operator loop. -/
def parseExpressionPostF (fuel : Nat) (rec : ParserFns) (order : Nat) (flags : ExprFlags) (n : Node) : PM Node := do
    match n with
    | .Identifier name =>
      if (← pmPeekAt fuel 0).type = .TokenPunctuatorFatArrow then do
        let _ ← pmScanExpect fuel .TokenPunctuatorFatArrow "expected `=>` operator"
        let body ←
          if (← pmPeekAt fuel 0).type = .TokenPunctuatorOpenBrace then
            rec.parseBlock
          else
            rec.parseExpression exprOrderConditional eflagsNone
        pure (.FunctionExpression ""
          (.mk [BindingElement.mk (BindingPattern.mk name Option.none Option.none) Option.none] "")
          (some body) false false false true)
      else if order ≥ exprOrderPrimaryExpr then
        pure n
      else
        rec.parseExpressionLoop order flags n
    | _ =>
      if order ≥ exprOrderPrimaryExpr then
        pure n
      else
        rec.parseExpressionLoop order flags n

/-- The operator loop of `Parser.parseExpression`: member access, calls,
optional chains, postfix updates, then the binary/conditional/assignment/comma
levels in the source's order, each guarded by an order cut-off.  Note the
bitwise-or branch, which consumes `|` but constructs `BinaryBitXorOp` (claim
C1), and the optional-chain branch, which expects a `.` token it can never
see. -/
def parseExpressionLoopF (fuel : Nat) (rec : ParserFns) (order : Nat) (flags : ExprFlags) (n : Node) : PM Node := do
    let t ← pmPeekAt fuel 0
    if t.type = .TokenPunctuatorDot then do
      let _ ← pmScanExpect fuel .TokenPunctuatorDot "expected `.` operator"
      let name ← forceScanIdent fuel "expected property name after `.` operator"
      rec.parseExpressionLoop order flags
        (.MemberExpression false (some n) (some (.Identifier name)) false)
    else if t.type = .TokenPunctuatorOpenBracket then do
      let _ ← pmScanExpect fuel .TokenPunctuatorOpenBracket "expected `[` operator"
      let prop ← rec.parseExpression exprOrderAssign eflagsNone
      let _ ← pmScanExpect fuel .TokenPunctuatorCloseBracket "expected `]` operator"
      rec.parseExpressionLoop order flags
        (.MemberExpression true (some n) (some prop) false)
    else if order ≥ exprOrderMemberExpr then
      pure n
    else if t.type = .TokenPunctuatorOpenParen then do
      let args ← rec.parseArguments
      rec.parseExpressionLoop order flags (.CallExpression (some n) false args)
    else if order ≥ exprOrderCallExpr then
      pure n
    else if t.type = .TokenPunctuatorOptionalChain then do
      let _ ← pmScanExpect fuel .TokenPunctuatorDot "expected `?.` operator"
      if (← pmPeekAt fuel 0).type = .TokenPunctuatorOpenBracket then do
        let _ ← pmScanExpect fuel .TokenPunctuatorOpenBracket "expected `[` operator"
        let prop ← rec.parseExpression exprOrderAssign eflagsNone
        let _ ← pmScanExpect fuel .TokenPunctuatorCloseBracket "expected `]` operator"
        rec.parseExpressionLoop order flags
          (.MemberExpression true (some n) (some prop) true)
      else if (← pmPeekAt fuel 0).type = .TokenPunctuatorOpenParen then do
        let args ← rec.parseArguments
        rec.parseExpressionLoop order flags (.CallExpression (some n) true args)
      else do
        let name ← forceScanIdent fuel "expected property name after `.` operator"
        rec.parseExpressionLoop order flags
          (.MemberExpression false (some n) (some (.Identifier name)) true)
    else if order ≥ exprOrderLHSExpr then
      pure n
    else if t.type = .TokenPunctuatorIncrement then do
      let _ ← pmScanExpect fuel .TokenPunctuatorIncrement "expected `++` operator"
      if order > exprOrderUnaryExpr then invalidPrimary t
      else rec.parseExpressionLoop order flags (.UpdateExpression .UpdatePostIncrementOp (some n))
    else if t.type = .TokenPunctuatorDecrement then do
      let _ ← pmScanExpect fuel .TokenPunctuatorDecrement "expected `--` operator"
      if order > exprOrderUnaryExpr then invalidPrimary t
      else rec.parseExpressionLoop order flags (.UpdateExpression .UpdatePostDecrementOp (some n))
    else if order ≥ exprOrderUnaryExpr then
      pure n
    else if t.type = .TokenPunctuatorExponent then do
      let _ ← pmScanExpect fuel .TokenPunctuatorExponent "expected `**` operator"
      let right ← rec.parseExpression exprOrderUnaryExpr flags
      rec.parseExpressionLoop order flags (.BinaryExpression .BinaryExponentOp (some n) (some right))
    else if order ≥ exprOrderExponentExpr then
      pure n
    else if t.type = .TokenPunctuatorMult then do
      let _ ← pmScanExpect fuel .TokenPunctuatorMult "expected `*` operator"
      let right ← rec.parseExpression exprOrderExponentExpr flags
      rec.parseExpressionLoop order flags (.BinaryExpression .BinaryMultOp (some n) (some right))
    else if t.type = .TokenPunctuatorDiv then do
      let _ ← pmScanExpect fuel .TokenPunctuatorDiv "expected `/` operator"
      let right ← rec.parseExpression exprOrderExponentExpr flags
      rec.parseExpressionLoop order flags (.BinaryExpression .BinaryDivOp (some n) (some right))
    else if t.type = .TokenPunctuatorMod then do
      let _ ← pmScanExpect fuel .TokenPunctuatorMod "expected `%` operator"
      let right ← rec.parseExpression exprOrderExponentExpr flags
      rec.parseExpressionLoop order flags (.BinaryExpression .BinaryModOp (some n) (some right))
    else if order ≥ exprOrderMultiplicativeExpr then
      pure n
    else if t.type = .TokenPunctuatorPlus then do
      let _ ← pmScanExpect fuel .TokenPunctuatorPlus "expected `+` operator"
      let right ← rec.parseExpression exprOrderMultiplicativeExpr flags
      rec.parseExpressionLoop order flags (.BinaryExpression .BinaryAddOp (some n) (some right))
    else if t.type = .TokenPunctuatorMinus then do
      let _ ← pmScanExpect fuel .TokenPunctuatorMinus "expected `-` operator"
      let right ← rec.parseExpression exprOrderMultiplicativeExpr flags
      rec.parseExpressionLoop order flags (.BinaryExpression .BinarySubOp (some n) (some right))
    else if order ≥ exprOrderAdditiveExpr then
      pure n
    else if t.type = .TokenPunctuatorLShift then do
      let _ ← pmScanExpect fuel .TokenPunctuatorLShift "expected `<<` operator"
      let right ← rec.parseExpression exprOrderAdditiveExpr flags
      rec.parseExpressionLoop order flags (.BinaryExpression .BinaryLShiftOp (some n) (some right))
    else if t.type = .TokenPunctuatorRShift then do
      let _ ← pmScanExpect fuel .TokenPunctuatorRShift "expected `>>` operator"
      let right ← rec.parseExpression exprOrderAdditiveExpr flags
      rec.parseExpressionLoop order flags (.BinaryExpression .BinaryRShiftOp (some n) (some right))
    else if t.type = .TokenPunctuatorUnsignedRShift then do
      let _ ← pmScanExpect fuel .TokenPunctuatorUnsignedRShift "expected `>>>` operator"
      let right ← rec.parseExpression exprOrderAdditiveExpr flags
      rec.parseExpressionLoop order flags
        (.BinaryExpression .BinaryUnsignedRShiftOp (some n) (some right))
    else if order ≥ exprOrderShiftExpr then
      pure n
    else if t.type = .TokenPunctuatorLessThan then do
      let _ ← pmScanExpect fuel .TokenPunctuatorLessThan "expected `<` operator"
      let right ← rec.parseExpression exprOrderShiftExpr flags
      rec.parseExpressionLoop order flags (.BinaryExpression .BinaryLessThanOp (some n) (some right))
    else if t.type = .TokenPunctuatorGreaterThan then do
      let _ ← pmScanExpect fuel .TokenPunctuatorGreaterThan "expected `>` operator"
      let right ← rec.parseExpression exprOrderShiftExpr flags
      rec.parseExpressionLoop order flags (.BinaryExpression .BinaryGreaterThanOp (some n) (some right))
    else if t.type = .TokenPunctuatorLessThanEqual then do
      let _ ← pmScanExpect fuel .TokenPunctuatorLessThanEqual "expected `<=` operator"
      let right ← rec.parseExpression exprOrderShiftExpr flags
      rec.parseExpressionLoop order flags
        (.BinaryExpression .BinaryLessThanEqualOp (some n) (some right))
    else if t.type = .TokenPunctuatorGreaterThanEqual then do
      let _ ← pmScanExpect fuel .TokenPunctuatorGreaterThanEqual "expected `>=` operator"
      let right ← rec.parseExpression exprOrderShiftExpr flags
      rec.parseExpressionLoop order flags
        (.BinaryExpression .BinaryGreaterThanEqualOp (some n) (some right))
    else if t.type = .TokenKeywordInstanceOf then do
      let _ ← pmScanExpect fuel .TokenKeywordInstanceOf "expected `instanceof` operator"
      let right ← rec.parseExpression exprOrderShiftExpr flags
      rec.parseExpressionLoop order flags
        (.BinaryExpression .BinaryInstanceOfOp (some n) (some right))
    else if !flags.disallowIn && t.type = .TokenKeywordIn then do
      let _ ← pmScanExpect fuel .TokenKeywordIn "expected `in` operator"
      let right ← rec.parseExpression exprOrderShiftExpr flags
      rec.parseExpressionLoop order flags (.BinaryExpression .BinaryInOp (some n) (some right))
    else if order ≥ exprOrderRelationalExpr then
      pure n
    else if t.type = .TokenPunctuatorEqual then do
      let _ ← pmScanExpect fuel .TokenPunctuatorEqual "expected `==` operator"
      let right ← rec.parseExpression exprOrderRelationalExpr flags
      rec.parseExpressionLoop order flags (.BinaryExpression .BinaryEqualOp (some n) (some right))
    else if t.type = .TokenPunctuatorNotEqual then do
      let _ ← pmScanExpect fuel .TokenPunctuatorNotEqual "expected `!=` operator"
      let right ← rec.parseExpression exprOrderRelationalExpr flags
      rec.parseExpressionLoop order flags (.BinaryExpression .BinaryNotEqualOp (some n) (some right))
    else if t.type = .TokenPunctuatorStrictEqual then do
      let _ ← pmScanExpect fuel .TokenPunctuatorStrictEqual "expected `===` operator"
      let right ← rec.parseExpression exprOrderRelationalExpr flags
      rec.parseExpressionLoop order flags
        (.BinaryExpression .BinaryStrictEqualOp (some n) (some right))
    else if t.type = .TokenPunctuatorStrictNotEqual then do
      let _ ← pmScanExpect fuel .TokenPunctuatorStrictNotEqual "expected `!==` operator"
      let right ← rec.parseExpression exprOrderRelationalExpr flags
      rec.parseExpressionLoop order flags
        (.BinaryExpression .BinaryStrictNotEqualOp (some n) (some right))
    else if order ≥ exprOrderEqualityExpr then
      pure n
    else if t.type = .TokenPunctuatorBitAnd then do
      let _ ← pmScanExpect fuel .TokenPunctuatorBitAnd "expected `&` operator"
      let right ← rec.parseExpression exprOrderEqualityExpr flags
      rec.parseExpressionLoop order flags (.BinaryExpression .BinaryBitAndOp (some n) (some right))
    else if order ≥ exprOrderBitwiseAnd then
      pure n
    else if t.type = .TokenPunctuatorBitXor then do
      let _ ← pmScanExpect fuel .TokenPunctuatorBitXor "expected `^` operator"
      let right ← rec.parseExpression exprOrderBitwiseAnd flags
      rec.parseExpressionLoop order flags (.BinaryExpression .BinaryBitXorOp (some n) (some right))
    else if order ≥ exprOrderBitwiseXor then
      pure n
    else if t.type = .TokenPunctuatorBitOr then do
      let _ ← pmScanExpect fuel .TokenPunctuatorBitOr "expected `|` operator"
      let right ← rec.parseExpression exprOrderBitwiseXor flags
      rec.parseExpressionLoop order flags (.BinaryExpression .BinaryBitXorOp (some n) (some right))
    else if order ≥ exprOrderBitwiseOr then
      pure n
    else if t.type = .TokenPunctuatorLogicalAnd then do
      let _ ← pmScanExpect fuel .TokenPunctuatorLogicalAnd "expected `&&` operator"
      let right ← rec.parseExpression exprOrderBitwiseOr flags
      rec.parseExpressionLoop order flags
        (.BinaryExpression .BinaryLogicalAndOp (some n) (some right))
    else if order ≥ exprOrderLogicalAnd then
      pure n
    else if t.type = .TokenPunctuatorLogicalOr then do
      let _ ← pmScanExpect fuel .TokenPunctuatorLogicalOr "expected `||` operator"
      let right ← rec.parseExpression exprOrderLogicalAnd flags
      rec.parseExpressionLoop order flags
        (.BinaryExpression .BinaryLogicalOrOp (some n) (some right))
    else if t.type = .TokenPunctuatorNullCoalesce then do
      let _ ← pmScanExpect fuel .TokenPunctuatorNullCoalesce "expected `??` operator"
      let right ← rec.parseExpression exprOrderLogicalAnd flags
      rec.parseExpressionLoop order flags
        (.BinaryExpression .BinaryCoalesceOp (some n) (some right))
    else if order ≥ exprOrderLogicalOr then
      pure n
    else if t.type = .TokenPunctuatorQuestionMark then do
      let _ ← pmScanExpect fuel .TokenPunctuatorQuestionMark
        "expected `?` operator in conditional expression"
      let a ← rec.parseExpression exprOrderAssign eflagsNone
      let _ ← pmScanExpect fuel .TokenPunctuatorColon
        "expected `:` operator in conditional expression"
      let b ← rec.parseExpression exprOrderAssign eflagsNone
      rec.parseExpressionLoop order flags
        (.ConditionalExpression (some n) (some a) (some b))
    else if order ≥ exprOrderConditional then
      pure n
    else if t.type = .TokenPunctuatorAssign then do
      let _ ← pmScanExpect fuel .TokenPunctuatorAssign "expected `=` operator"
      let right ← rec.parseExpression exprOrderAssign flags
      rec.parseExpressionLoop order flags (.AssignmentExpression .AssignmentOp (some n) (some right))
    else if t.type = .TokenPunctuatorMultAssign then do
      let _ ← pmScanExpect fuel .TokenPunctuatorMultAssign "expected `*=` operator"
      let right ← rec.parseExpression exprOrderAssign flags
      rec.parseExpressionLoop order flags
        (.AssignmentExpression .AssignmentMultOp (some n) (some right))
    else if t.type = .TokenPunctuatorDivAssign then do
      let _ ← pmScanExpect fuel .TokenPunctuatorDivAssign "expected `/=` operator"
      let right ← rec.parseExpression exprOrderAssign flags
      rec.parseExpressionLoop order flags
        (.AssignmentExpression .AssignmentDivOp (some n) (some right))
    else if t.type = .TokenPunctuatorModAssign then do
      let _ ← pmScanExpect fuel .TokenPunctuatorModAssign "expected `%=` operator"
      let right ← rec.parseExpression exprOrderAssign flags
      rec.parseExpressionLoop order flags
        (.AssignmentExpression .AssignmentModOp (some n) (some right))
    else if t.type = .TokenPunctuatorPlusAssign then do
      let _ ← pmScanExpect fuel .TokenPunctuatorPlusAssign "expected `+=` operator"
      let right ← rec.parseExpression exprOrderAssign flags
      rec.parseExpressionLoop order flags
        (.AssignmentExpression .AssignmentAddOp (some n) (some right))
    else if t.type = .TokenPunctuatorMinusAssign then do
      let _ ← pmScanExpect fuel .TokenPunctuatorMinusAssign "expected `-=` operator"
      let right ← rec.parseExpression exprOrderAssign flags
      rec.parseExpressionLoop order flags
        (.AssignmentExpression .AssignmentSubOp (some n) (some right))
    else if t.type = .TokenPunctuatorLShiftAssign then do
      let _ ← pmScanExpect fuel .TokenPunctuatorLShiftAssign "expected `<<=` operator"
      let right ← rec.parseExpression exprOrderAssign flags
      rec.parseExpressionLoop order flags
        (.AssignmentExpression .AssignmentLShiftOp (some n) (some right))
    else if t.type = .TokenPunctuatorRShiftAssign then do
      let _ ← pmScanExpect fuel .TokenPunctuatorRShiftAssign "expected `>>=` operator"
      let right ← rec.parseExpression exprOrderAssign flags
      rec.parseExpressionLoop order flags
        (.AssignmentExpression .AssignmentRShiftOp (some n) (some right))
    else if t.type = .TokenPunctuatorUnsignedRShiftAssign then do
      let _ ← pmScanExpect fuel .TokenPunctuatorUnsignedRShiftAssign "expected `>>>=` operator"
      let right ← rec.parseExpression exprOrderAssign flags
      rec.parseExpressionLoop order flags
        (.AssignmentExpression .AssignmentUnsignedRShiftOp (some n) (some right))
    else if t.type = .TokenPunctuatorBitAndAssign then do
      let _ ← pmScanExpect fuel .TokenPunctuatorBitAndAssign "expected `&=` operator"
      let right ← rec.parseExpression exprOrderAssign flags
      rec.parseExpressionLoop order flags
        (.AssignmentExpression .AssignmentBitAndOp (some n) (some right))
    else if t.type = .TokenPunctuatorBitXorAssign then do
      let _ ← pmScanExpect fuel .TokenPunctuatorBitXorAssign "expected `^=` operator"
      let right ← rec.parseExpression exprOrderAssign flags
      rec.parseExpressionLoop order flags
        (.AssignmentExpression .AssignmentBitXorOp (some n) (some right))
    else if t.type = .TokenPunctuatorBitOrAssign then do
      let _ ← pmScanExpect fuel .TokenPunctuatorBitOrAssign "expected `|=` operator"
      let right ← rec.parseExpression exprOrderAssign flags
      rec.parseExpressionLoop order flags
        (.AssignmentExpression .AssignmentBitOrOp (some n) (some right))
    else if t.type = .TokenPunctuatorExponentAssign then do
      let _ ← pmScanExpect fuel .TokenPunctuatorExponentAssign "expected `**=` operator"
      let right ← rec.parseExpression exprOrderAssign flags
      rec.parseExpressionLoop order flags
        (.AssignmentExpression .AssignmentExponentOp (some n) (some right))
    else if t.type = .TokenPunctuatorLogicalAndAssign then do
      let _ ← pmScanExpect fuel .TokenPunctuatorLogicalAndAssign "expected `&&=` operator"
      let right ← rec.parseExpression exprOrderAssign flags
      rec.parseExpressionLoop order flags
        (.AssignmentExpression .AssignmentLogicalAndOp (some n) (some right))
    else if t.type = .TokenPunctuatorLogicalOrAssign then do
      let _ ← pmScanExpect fuel .TokenPunctuatorLogicalOrAssign "expected `||=` operator"
      let right ← rec.parseExpression exprOrderAssign flags
      rec.parseExpressionLoop order flags
        (.AssignmentExpression .AssignmentLogicalOr (some n) (some right))
    else if t.type = .TokenPunctuatorNullCoalesceAssign then do
      let _ ← pmScanExpect fuel .TokenPunctuatorNullCoalesceAssign "expected `??=` operator"
      let right ← rec.parseExpression exprOrderAssign flags
      rec.parseExpressionLoop order flags
        (.AssignmentExpression .AssignmentCoalesceOp (some n) (some right))
    else if order ≥ exprOrderAssign then
      pure n
    else if t.type = .TokenPunctuatorComma then do
      let _ ← pmScanExpect fuel .TokenPunctuatorComma "expected `,` operator"
      let next ← rec.parseExpression exprOrderAssign flags
      match n with
      | .SequenceExpression exprs =>
        rec.parseExpressionLoop order flags (.SequenceExpression (exprs ++ [next]))
      | _ =>
        rec.parseExpressionLoop order flags (.SequenceExpression [n, next])
    else
      pure n

/-- `Parser.parseFunctionExpressionTail`: optional name (after demotion),
optional `*`, the parameter list, then the body parsed in generator context. -/
def parseFunctionExpressionTailF (fuel : Nat) (rec : ParserFns) (async : Bool) : PM Node := do
    let ctx ← pmCtx
    let t := ctx.keywordToIdentifier (← pmScan fuel) false
    let (name, t) ←
      if t.type = .TokenIdentifier then do
        let t2 ← pmScan fuel
        pure (t.literal, t2)
      else
        pure ("", t)
    let (generator, t) ←
      if t.type = .TokenPunctuatorMult then do
        let t2 ← pmScan fuel
        pure (true, t2)
      else
        pure (false, t)
    if t.type ≠ .TokenPunctuatorOpenParen then
      pmSyntaxError "expected parameter list following function expression head"
    else do
      let params ← rec.parseParametersTail
      let ctx ← pmCtx
      let wasgen := ctx.generator
      pmSetCtx { ctx with generator := true }
      let body ← rec.parseBlock
      let ctx2 ← pmCtx
      pmSetCtx { ctx2 with generator := wasgen }
      pure (.FunctionExpression name params (some body) generator false async false)

/-- `Parser.parseArguments`: `(`, a possibly empty comma-separated list of
assignment-level expressions with optional `...` spreads and a trailing comma,
then `)`. -/
def parseArgumentsF (fuel : Nat) (rec : ParserFns) : PM (List Node) := do
    let _ ← pmScanExpect fuel .TokenPunctuatorOpenParen "expected `(`"
    if (← pmPeekAt fuel 0).type = .TokenPunctuatorCloseParen then do
      let _ ← pmScanExpect fuel .TokenPunctuatorCloseParen "expected `)`"
      pure []
    else
      rec.parseArgumentsLoop []

/-- The argument loop of `Parser.parseArguments`. -/
def parseArgumentsLoopF (fuel : Nat) (rec : ParserFns) (acc : List Node) : PM (List Node) := do
    let spread ←
      if (← pmPeekAt fuel 0).type = .TokenPunctuatorEllipsis then do
        let _ ← pmScan fuel
        pure true
      else
        pure false
    let m ← rec.parseExpression exprOrderAssign eflagsNone
    let m := if spread then Node.SpreadElement (some m) else m
    let acc := acc ++ [m]
    if (← pmPeekAt fuel 0).type = .TokenPunctuatorComma then do
      let _ ← pmScanExpect fuel .TokenPunctuatorComma "expected `,`"
      pure ()
    if (← pmPeekAt fuel 0).type = .TokenPunctuatorCloseParen then do
      let _ ← pmScanExpect fuel .TokenPunctuatorCloseParen "expected `)`"
      pure acc
    else
      rec.parseArgumentsLoop acc

/-- `Parser.parseParameters`: `(` then the parameter tail. -/
def parseParametersF (fuel : Nat) (rec : ParserFns) : PM FormalParameters := do
    let _ ← pmScanExpect fuel .TokenPunctuatorOpenParen "expected `(`"
    rec.parseParametersTail

/-- `Parser.parseParametersTail`: binding elements (identifier, array or
object pattern) with optional defaults, a `...rest` identifier ending the
list, separated by commas, ended by `)`. -/
def parseParametersTailF (_fuel : Nat) (rec : ParserFns) : PM FormalParameters := rec.parseParametersTailLoop []

/-- The element loop of `Parser.parseParametersTail`. -/
def parseParametersTailLoopF (fuel : Nat) (rec : ParserFns) (acc : List BindingElement) : PM FormalParameters := do
    let ctx ← pmCtx
    let t := ctx.keywordToIdentifier (← pmScan fuel) false
    if t.type = .TokenPunctuatorCloseParen then
      pure (.mk acc "")
    else if t.type = .TokenPunctuatorEllipsis then do
      let rest ← scanIdent fuel "expected identifier for rest parameter"
      let _ ← pmScanExpect fuel .TokenPunctuatorCloseParen "expected closing paren"
      pure (.mk acc rest)
    else do
      let val ←
        if t.type = .TokenIdentifier then
          pure (BindingPattern.mk t.literal Option.none Option.none)
        else if t.type = .TokenPunctuatorOpenBracket then do
          let ap ← rec.parseArrayBindingPatternTail
          pure (BindingPattern.mk "" Option.none (some ap))
        else if t.type = .TokenPunctuatorOpenBrace then do
          let op ← rec.parseObjectBindingPatternTail
          pure (BindingPattern.mk "" (some op) Option.none)
        else do
          let tk ← pmScan fuel
          pmSyntaxError ("unexpected token in formal parameter list: " ++ tk.source)
      let init ←
        if (← pmPeekAt fuel 0).type = .TokenPunctuatorAssign then do
          let _ ← pmScanExpect fuel .TokenPunctuatorAssign "expected default assignment `=`"
          let e ← rec.parseExpression exprOrderAssign eflagsNone
          pure (some e)
        else
          pure (Option.none : Option Node)
      let acc := acc ++ [BindingElement.mk val init]
      let t ← pmScan fuel
      if t.type = .TokenPunctuatorComma then
        rec.parseParametersTailLoop acc
      else if t.type = .TokenPunctuatorCloseParen then
        pure (.mk acc "")
      else
        pmSyntaxError ("expected `,` or `)`, but got: " ++ t.source)

/-- `Parser.parseArrayTail`: array literal elements after `[`, with elisions,
and (under `MaybeArrow`) a trailing `...pattern` producing the array-rest
temporal. -/
def parseArrayTailF (_fuel : Nat) (rec : ParserFns) (flags : ExprFlags) : PM Node := rec.parseArrayTailLoop flags []

/-- The element loop of `Parser.parseArrayTail`. -/
def parseArrayTailLoopF (fuel : Nat) (rec : ParserFns) (flags : ExprFlags) (acc : List (Option Node)) : PM Node := do
    let acc ← rec.parseArrayElisions acc
    if (← pmPeekAt fuel 0).type = .TokenPunctuatorCloseBracket then do
      let _ ← pmScanExpect fuel .TokenPunctuatorCloseBracket "expected `]`"
      pure (.ArrayExpression acc)
    else if flags.maybeArrow && (← pmPeekAt fuel 0).type = .TokenPunctuatorEllipsis then do
      let _ ← pmScanExpect fuel .TokenPunctuatorEllipsis "expected `...`"
      let pk ← pmPeekAt fuel 0
      let rest ←
        if pk.type = .TokenPunctuatorCloseBracket then
          pmSyntaxError "expected expression, got ']'"
        else if pk.type = .TokenPunctuatorOpenBracket then do
          let ap ← rec.parseArrayBindingPattern
          pure (BindingPattern.mk "" Option.none (some ap))
        else if pk.type = .TokenPunctuatorOpenBrace then do
          let op ← rec.parseObjectBindingPattern
          pure (BindingPattern.mk "" (some op) Option.none)
        else if pk.type = .TokenIdentifier then do
          let id ← forceScanIdent fuel "unexpected token"
          pure (BindingPattern.mk id Option.none Option.none)
        else
          pmSyntaxError "missing variable name"
      let acc := acc ++ [some (Node.TemporalArrayRestElement rest)]
      let _ ← pmScanExpect fuel .TokenPunctuatorCloseBracket "expected `]`"
      pure (.ArrayExpression acc)
    else do
      let e ← rec.parseExpression exprOrderAssign flags
      let acc := acc ++ [some e]
      if (← pmPeekAt fuel 0).type = .TokenPunctuatorComma then do
        let _ ← pmScanExpect fuel .TokenPunctuatorComma "expected `,`"
        pure ()
      if (← pmPeekAt fuel 0).type = .TokenPunctuatorCloseBracket then do
        let _ ← pmScanExpect fuel .TokenPunctuatorCloseBracket "expected `]`"
        pure (.ArrayExpression acc)
      else
        rec.parseArrayTailLoop flags acc

/-- The elision loop at the top of `Parser.parseArrayTail`'s element loop:
each leading comma adds a nil element. -/
def parseArrayElisionsF (fuel : Nat) (rec : ParserFns) (acc : List (Option Node)) : PM (List (Option Node)) := do
    if (← pmPeekAt fuel 0).type = .TokenPunctuatorComma then do
      let _ ← pmScanExpect fuel .TokenPunctuatorComma "expected `,`"
      rec.parseArrayElisions (acc ++ [Option.none])
    else
      pure acc

/-- `Parser.parseObjectTail`: object literal properties after `{`. -/
def parseObjectTailF (_fuel : Nat) (rec : ParserFns) (flags : ExprFlags) : PM Node := rec.parseObjectTailLoop flags []

/-- The property loop of `Parser.parseObjectTail`: specifiers (`get`, `set`,
`async`, `*`, and `...` under `MaybeArrow`), then the key and the property
value dispatch. -/
def parseObjectTailLoopF (fuel : Nat) (rec : ParserFns) (flags : ExprFlags) (acc : List Property) : PM Node := do
    if (← pmPeekAt fuel 0).type = .TokenPunctuatorCloseBrace then do
      let _ ← pmScanExpect fuel .TokenPunctuatorCloseBrace "expected `\x7d`"
      pure (.ObjectExpression acc)
    else do
      let t ← pmScan fuel
      let startedOnComputedKey := t.type = .TokenPunctuatorOpenBracket
      if startedOnComputedKey then
        rec.parseObjectTailProperty flags acc t false false .InitProperty
      else do
        let pk ← pmPeekAt fuel 0
        if atEndOfPropertyKey flags pk.type then
          rec.parseObjectTailProperty flags acc t false false .InitProperty
        else if t.type = .TokenKeywordGet then do
          let t ← pmScan fuel
          rec.parseObjectTailProperty flags acc t false false .GetProperty
        else if t.type = .TokenKeywordSet then do
          let t ← pmScan fuel
          rec.parseObjectTailProperty flags acc t false false .SetProperty
        else if t.type = .TokenKeywordAsync then do
          let generator ←
            if (← pmPeekAt fuel 0).type = .TokenPunctuatorMult then do
              let _ ← pmScan fuel
              pure true
            else
              pure false
          let t ← pmScan fuel
          rec.parseObjectTailProperty flags acc t true generator .InitProperty
        else if t.type = .TokenPunctuatorMult then do
          let t ← pmScan fuel
          rec.parseObjectTailProperty flags acc t false true .InitProperty
        else if t.type = .TokenPunctuatorEllipsis && flags.maybeArrow then do
          let rest ← parseObjectRestTemporal fuel
          let acc := acc ++
            [Property.mk (some rest) false Option.none Option.none false .InitProperty]
          let _ ← pmScanExpect fuel .TokenPunctuatorCloseBrace "expected `\x7d`"
          pure (.ObjectExpression acc)
        else
          pmSyntaxError "invalid property syntax"

/-- The key-and-value part of the property loop of `Parser.parseObjectTail`:
demote the key token, read the (possibly computed) key, then dispatch on what
follows — getter/setter body, `:` init, `=` destructure-default (under
`MaybeArrow`), `(` method shorthand, or `,`/`}` shorthand. -/
def parseObjectTailPropertyF (fuel : Nat) (rec : ParserFns) (flags : ExprFlags) (acc : List Property) (t : Token) (async : Bool) (generator : Bool) (kind : PropertyKind) : PM Node := do
    let ctx ← pmCtx
    let t := ctx.keywordToIdentifier t true
    let (key, computed) ←
      if t.type = .TokenIdentifier then
        pure ((some (Node.Identifier t.literal) : Option Node), false)
      else if t.type = .TokenLiteralString then
        pure ((some (Node.StringLiteral t.stringConstant t.literal) : Option Node), false)
      else if t.type = .TokenLiteralNumber then
        pure ((some (Node.NumberLiteral t.literal) : Option Node), false)
      else if t.type = .TokenPunctuatorOpenBracket then do
        let k ← rec.parseExpression exprOrderComma flags
        let _ ← pmScanExpect fuel .TokenPunctuatorCloseBracket "expected `]`"
        pure ((some k : Option Node), true)
      else
        pmSyntaxError "expected property name"
    let peek ← pmPeekAt fuel 0
    let prop ←
      if kind = .GetProperty || kind = .SetProperty then do
        let params ← rec.parseParameters
        let body ← rec.parseBlock
        pure (Property.mk key computed
          (some (.FunctionExpression "" params (some body) false false false false))
          Option.none false kind)
      else if peek.type = .TokenPunctuatorColon then do
        if async || generator then
          pmSyntaxError "expected method"
        else do
          let _ ← pmScanExpect fuel .TokenPunctuatorColon "expected `:`"
          let v ← rec.parseExpression exprOrderAssign flags
          pure (Property.mk key computed (some v) Option.none false kind)
      else if flags.maybeArrow && peek.type = .TokenPunctuatorAssign then do
        let _ ← pmScanExpect fuel .TokenPunctuatorAssign "expected '='"
        let d ← rec.parseExpression exprOrderAssign flags
        pure (Property.mk key computed Option.none (some d) false kind)
      else if peek.type = .TokenPunctuatorOpenParen then do
        let ctx ← pmCtx
        pmSetCtx { ctx with async := async, generator := generator }
        let params ← rec.parseParameters
        let body ← rec.parseBlock
        pmSetCtx ctx
        pure (Property.mk key computed
          (some (.FunctionExpression "" params (some body) generator false async false))
          Option.none true kind)
      else if peek.type = .TokenPunctuatorComma || peek.type = .TokenPunctuatorCloseBrace then do
        if computed then
          pmSyntaxError "shorthand not allowed for computed property"
        else if async || generator then
          pmSyntaxError "expected method"
        else
          pure (Property.mk key computed Option.none Option.none false kind)
      else
        pmSyntaxError "expected `,` or `\x7d`"
    let acc := acc ++ [prop]
    if (← pmPeekAt fuel 0).type = .TokenPunctuatorCloseBrace then do
      let _ ← pmScanExpect fuel .TokenPunctuatorCloseBrace "expected `\x7d`"
      pure (.ObjectExpression acc)
    else do
      let _ ← pmScanExpect fuel .TokenPunctuatorComma "expected `,` or `\x7d`"
      rec.parseObjectTailLoop flags acc

/-- `Parser.parseBlockOrShorthand`: a block body, else a conditional-level
expression (arrow shorthand bodies). -/
def parseBlockOrShorthandF (fuel : Nat) (rec : ParserFns) : PM Node := do
    if (← pmPeekAt fuel 0).type = .TokenPunctuatorOpenBrace then
      rec.parseBlock
    else
      rec.parseExpression exprOrderConditional eflagsNone

/-- `Parser.parseBlock`: `{`, the statements, `}`.  The context is snapshot at
entry and assigned back at exit; a `"use strict"` directive as the first
statement sets the strict flag on that saved snapshot (and marks the
statement), exactly as in the source. -/
def parseBlockF (fuel : Nat) (rec : ParserFns) : PM Node := do
    let _ ← pmScanExpect fuel .TokenPunctuatorOpenBrace "expected block opening brace `\x7b`"
    if (← pmPeekAt fuel 0).type = .TokenPunctuatorCloseBrace then do
      let _ ← pmScanExpect fuel .TokenPunctuatorCloseBrace
        "expected statement, declaration, or closing brace `\x7d`"
      pure (.BlockStatement [])
    else do
      let ctx ← pmCtx
      let stmt ← rec.parseStatementItem
      let (ctx, stmt) :=
        match stmt with
        | .ExpressionStatement (some (.StringLiteral v raw)) dir =>
          if v = "use strict" then
            ({ ctx with strictMode := true },
             Node.ExpressionStatement (some (.StringLiteral v raw)) "use strict")
          else
            (ctx, Node.ExpressionStatement (some (.StringLiteral v raw)) dir)
        | _ => (ctx, stmt)
      let body ← rec.parseBlockLoop [stmt]
      pmSetCtx ctx
      pure (.BlockStatement body)

/-- The statement loop of `Parser.parseBlock`. -/
def parseBlockLoopF (fuel : Nat) (rec : ParserFns) (acc : List Node) : PM (List Node) := do
    if (← pmPeekAt fuel 0).type = .TokenPunctuatorCloseBrace then do
      let _ ← pmScanExpect fuel .TokenPunctuatorCloseBrace
        "expected statement, declaration, or closing brace `\x7d`"
      pure acc
    else do
      let n ← rec.parseStatementItem
      rec.parseBlockLoop (acc ++ [n])

/-- `Parser.parseStatementItem`: a statement, else a declaration, else a
syntax error. -/
def parseStatementItemF (_fuel : Nat) (rec : ParserFns) : PM Node := do
    match ← rec.parseStatement with
    | some n => pure n
    | Option.none =>
      match ← rec.parseDeclaration with
      | some n => pure n
      | Option.none => pmSyntaxError "expected declaration or statement"

/-- `Parser.parseStatement`: one-token dispatch over statement kinds, with the
source's `async function` (no line terminator) and `let` lookahead
heuristics; returns nothing when the token opens a declaration instead. -/
def parseStatementF (fuel : Nat) (rec : ParserFns) : PM (Option Node) := do
    let pk ← pmPeekAt fuel 0
    match pk.type with
    | .TokenPunctuatorOpenBrace => do
      let n ← rec.parseBlock
      pure (some n)
    | .TokenKeywordVar => do
      let n ← rec.parseVariableStatement
      pure (some n)
    | .TokenPunctuatorSemicolon => do
      let n ← parseEmptyExpression fuel
      pure (some n)
    | .TokenKeywordIf => do
      let n ← rec.parseIfStatement
      pure (some n)
    | .TokenPunctuatorIncrement | .TokenPunctuatorDecrement | .TokenKeywordDelete
    | .TokenKeywordVoid | .TokenKeywordTypeOf | .TokenPunctuatorPlus
    | .TokenPunctuatorMinus | .TokenPunctuatorBitNot | .TokenPunctuatorNot
    | .TokenKeywordThis | .TokenKeywordNull | .TokenKeywordTrue
    | .TokenKeywordFalse | .TokenKeywordNew
    | .TokenLiteralNumber | .TokenLiteralString
    | .TokenLiteralTemplate
    | .TokenPunctuatorOpenBracket | .TokenKeywordAsync | .TokenKeywordLet
    | .TokenPunctuatorOpenParen
    | .TokenPunctuatorDiv | .TokenPunctuatorDivAssign => do
      if pk.type = .TokenKeywordAsync then do
        let pk1 ← pmPeekAt fuel 1
        if pk1.type = .TokenKeywordFunction && !pk1.newLine then
          pure Option.none
        else do
          let n ← rec.parseExpressionStatement
          pure (some n)
      else if pk.type = .TokenKeywordLet then do
        let pk1 ← pmPeekAt fuel 1
        if pk1.type = .TokenPunctuatorOpenBracket then
          pure Option.none
        else if pk1.type = .TokenPunctuatorOpenBrace then
          pure Option.none
        else do
          let ctx ← pmCtx
          if (ctx.keywordToIdentifier pk1 true).type = .TokenIdentifier then
            pure Option.none
          else do
            let n ← rec.parseExpressionStatement
            pure (some n)
      else do
        let n ← rec.parseExpressionStatement
        pure (some n)
    | .TokenKeywordDo => do
      let n ← rec.parseDoWhileStatement
      pure (some n)
    | .TokenKeywordWhile => do
      let n ← rec.parseWhileStatement
      pure (some n)
    | .TokenKeywordFor => do
      let n ← rec.parseForStatement
      pure (some n)
    | .TokenKeywordSwitch => do
      let n ← rec.parseSwitchStatement
      pure (some n)
    | .TokenKeywordContinue => do
      let n ← parseContinueStatement fuel
      pure (some n)
    | .TokenKeywordBreak => do
      let n ← parseBreakStatement fuel
      pure (some n)
    | .TokenKeywordReturn => do
      let n ← rec.parseReturnStatement
      pure (some n)
    | .TokenKeywordWith => do
      let n ← parseWithStatement fuel
      pure (some n)
    | .TokenKeywordThrow => do
      let n ← rec.parseThrowStatement
      pure (some n)
    | .TokenKeywordTry => do
      let n ← rec.parseTryStatement
      pure (some n)
    | .TokenKeywordDebugger => do
      let n ← parseDebuggerStatement fuel
      pure (some n)
    | _ => do
      let ctx ← pmCtx
      if (ctx.keywordToIdentifier pk false).type = .TokenIdentifier then do
        if (← pmPeekAt fuel 1).type = .TokenPunctuatorColon then do
          let n ← rec.parseLabelledStatement
          pure (some n)
        else do
          let n ← rec.parseExpressionStatement
          pure (some n)
      else
        pure Option.none

/-- `Parser.parseExpressionStatement`: a comma-level expression then ASI. -/
def parseExpressionStatementF (fuel : Nat) (rec : ParserFns) : PM Node := do
    let expr ← rec.parseExpression exprOrderComma eflagsNone
    expectSemicolon fuel
    pure (.ExpressionStatement (some expr) "")

/-- `Parser.parseVariableStatement`: the declarator list then ASI. -/
def parseVariableStatementF (fuel : Nat) (rec : ParserFns) : PM Node := do
    let n ← rec.parseVariableStatementNoSemicolon
    expectSemicolon fuel
    pure n

/-- `Parser.parseVariableStatementNoSemicolon`: `var` then the declarators
(kind tag is the zero value, `var`). -/
def parseVariableStatementNoSemicolonF (fuel : Nat) (rec : ParserFns) : PM Node := do
    let _ ← pmScanExpect fuel .TokenKeywordVar "expected variable declaration"
    let ds ← rec.parseVariableDeclarations
    pure (.VariableDeclaration ds .VarDeclaration)

/-- `Parser.parseVariableDeclarations`: comma-separated declarators. -/
def parseVariableDeclarationsF (_fuel : Nat) (rec : ParserFns) : PM (List VariableDeclarator) := rec.parseVariableDeclarationsLoop []

/-- The declarator loop of `Parser.parseVariableDeclarations`. -/
def parseVariableDeclarationsLoopF (fuel : Nat) (rec : ParserFns) (acc : List VariableDeclarator) : PM (List VariableDeclarator) := do
    let v ← rec.parseVariableDeclaration
    let acc := acc ++ [v]
    if (← pmPeekAt fuel 0).type ≠ .TokenPunctuatorComma then
      pure acc
    else do
      let _ ← pmScanExpect fuel .TokenPunctuatorComma "expected comma"
      rec.parseVariableDeclarationsLoop acc

/-- `Parser.parseVariableDeclaration`: an identifier (after contextual
demotion) or an array/object binding pattern, with an optional `=`
initialiser. -/
def parseVariableDeclarationF (fuel : Nat) (rec : ParserFns) : PM VariableDeclarator := do
    let ctx ← pmCtx
    let t := ctx.keywordToIdentifier (← pmPeekAt fuel 0) false
    let id ←
      if t.type = .TokenIdentifier then do
        let name ← scanIdent fuel "expected variable identifier"
        pure (BindingPattern.mk name Option.none Option.none)
      else if t.type = .TokenPunctuatorOpenBracket then do
        let ap ← rec.parseArrayBindingPattern
        pure (BindingPattern.mk "" Option.none (some ap))
      else if t.type = .TokenPunctuatorOpenBrace then do
        let op ← rec.parseObjectBindingPattern
        pure (BindingPattern.mk "" (some op) Option.none)
      else do
        let tk ← pmScan fuel
        pmSyntaxError ("unexpected token in variable declaration: " ++ tk.source)
    if (← pmPeekAt fuel 0).type = .TokenPunctuatorAssign then do
      let _ ← pmScanExpect fuel .TokenPunctuatorAssign "expected `=`"
      let init ← rec.parseExpression exprOrderAssign eflagsNone
      pure (.mk id (some init))
    else
      pure (.mk id Option.none)

/-- `Parser.parseArrayBindingPattern`: `[` then the tail. -/
def parseArrayBindingPatternF (fuel : Nat) (rec : ParserFns) : PM ArrayBindingPattern := do
    let _ ← pmScanExpect fuel .TokenPunctuatorOpenBracket "expected array binding pattern"
    rec.parseArrayBindingPatternTail

/-- `Parser.parseArrayBindingPatternTail`. -/
def parseArrayBindingPatternTailF (_fuel : Nat) (rec : ParserFns) : PM ArrayBindingPattern := rec.parseArrayBindingPatternTailLoop []

/-- The element loop of `Parser.parseArrayBindingPatternTail`: identifiers,
elisions, nested patterns, defaults, and a `...rest` pattern ending the
list. -/
def parseArrayBindingPatternTailLoopF (fuel : Nat) (rec : ParserFns) (acc : List BindingElement) : PM ArrayBindingPattern := do
    let ctx ← pmCtx
    let t := ctx.keywordToIdentifier (← pmScan fuel) false
    if t.type = .TokenPunctuatorComma then
      rec.parseArrayBindingPatternTailLoop
        (acc ++ [BindingElement.mk BindingPattern.empty Option.none])
    else if t.type = .TokenPunctuatorCloseBracket then
      pure (.mk acc BindingPattern.empty)
    else if t.type = .TokenPunctuatorEllipsis then do
      let ctx ← pmCtx
      let t2 := ctx.keywordToIdentifier (← pmPeekAt fuel 0) false
      let rest ←
        if t2.type = .TokenIdentifier then do
          let name ← scanIdent fuel "expected variable identifier"
          pure (BindingPattern.mk name Option.none Option.none)
        else if t2.type = .TokenPunctuatorOpenBracket then do
          let ap ← rec.parseArrayBindingPattern
          pure (BindingPattern.mk "" Option.none (some ap))
        else if t2.type = .TokenPunctuatorOpenBrace then do
          let op ← rec.parseObjectBindingPattern
          pure (BindingPattern.mk "" (some op) Option.none)
        else do
          let tk ← pmScan fuel
          pmSyntaxError ("unexpected token in rest pattern: " ++ tk.source)
      let _ ← pmScanExpect fuel .TokenPunctuatorCloseBracket "expected closing braket"
      pure (.mk acc rest)
    else do
      let val ←
        if t.type = .TokenIdentifier then
          pure (BindingPattern.mk t.literal Option.none Option.none)
        else if t.type = .TokenPunctuatorOpenBracket then do
          let ap ← rec.parseArrayBindingPatternTail
          pure (BindingPattern.mk "" Option.none (some ap))
        else if t.type = .TokenPunctuatorOpenBrace then do
          let op ← rec.parseObjectBindingPatternTail
          pure (BindingPattern.mk "" (some op) Option.none)
        else do
          let tk ← pmScan fuel
          pmSyntaxError ("unexpected token in array binding pattern: " ++ tk.source)
      let init ←
        if (← pmPeekAt fuel 0).type = .TokenPunctuatorAssign then do
          let _ ← pmScanExpect fuel .TokenPunctuatorAssign "expected default assignment `=`"
          let e ← rec.parseExpression exprOrderAssign eflagsNone
          pure (some e)
        else
          pure (Option.none : Option Node)
      let acc := acc ++ [BindingElement.mk val init]
      let t ← pmScan fuel
      if t.type = .TokenPunctuatorComma then
        rec.parseArrayBindingPatternTailLoop acc
      else if t.type = .TokenPunctuatorCloseBracket then
        pure (.mk acc BindingPattern.empty)
      else
        pmSyntaxError ("expected `,` or `\x7d`, but got: " ++ t.source)

/-- `Parser.parseObjectBindingPattern`: `{` then the tail. -/
def parseObjectBindingPatternF (fuel : Nat) (rec : ParserFns) : PM ObjectBindingPattern := do
    let _ ← pmScanExpect fuel .TokenPunctuatorOpenBrace "expected object binding pattern"
    rec.parseObjectBindingPatternTail

/-- `Parser.parseObjectBindingPatternTail`. -/
def parseObjectBindingPatternTailF (_fuel : Nat) (rec : ParserFns) : PM ObjectBindingPattern := rec.parseObjectBindingPatternTailLoop []

/-- The property loop of `Parser.parseObjectBindingPatternTail`: property
names with optional `:` binding targets and `=` defaults, and a `...rest`
identifier ending the pattern. -/
def parseObjectBindingPatternTailLoopF (fuel : Nat) (rec : ParserFns) (acc : List BindingProperty) : PM ObjectBindingPattern := do
    let ctx ← pmCtx
    let t := ctx.keywordToIdentifier (← pmScan fuel) false
    if t.type = .TokenPunctuatorEllipsis then do
      let rest ← scanIdent fuel "expected rest identifier"
      let _ ← pmScanExpect fuel .TokenPunctuatorCloseBrace "expected closing brace"
      pure (.mk acc rest)
    else if t.type = .TokenPunctuatorCloseBrace then
      pure (.mk acc "")
    else if t.type ≠ .TokenIdentifier then
      pmSyntaxError ("expected property name, `...`, or `\x7d`, but got: " ++ t.source)
    else do
      let pname := t.literal
      let val ←
        if (← pmPeekAt fuel 0).type = .TokenPunctuatorColon then do
          let _ ← pmScanExpect fuel .TokenPunctuatorColon "expected binding `:`"
          let ctx ← pmCtx
          let t2 := ctx.keywordToIdentifier (← pmScan fuel) false
          if t2.type = .TokenIdentifier then
            pure (BindingPattern.mk t2.literal Option.none Option.none)
          else if t2.type = .TokenPunctuatorOpenBracket then do
            let ap ← rec.parseArrayBindingPatternTail
            pure (BindingPattern.mk "" Option.none (some ap))
          else if t2.type = .TokenPunctuatorOpenBrace then do
            let op ← rec.parseObjectBindingPatternTail
            pure (BindingPattern.mk "" (some op) Option.none)
          else do
            let tk ← pmScan fuel
            pmSyntaxError ("unexpected token in object binding pattern: " ++ tk.source)
        else
          pure BindingPattern.empty
      let init ←
        if (← pmPeekAt fuel 0).type = .TokenPunctuatorAssign then do
          let _ ← pmScanExpect fuel .TokenPunctuatorAssign "expected default assignment `=`"
          let e ← rec.parseExpression exprOrderAssign eflagsNone
          pure (some e)
        else
          pure (Option.none : Option Node)
      let acc := acc ++ [BindingProperty.mk pname val init]
      let t ← pmScan fuel
      if t.type = .TokenPunctuatorComma then
        rec.parseObjectBindingPatternTailLoop acc
      else if t.type = .TokenPunctuatorCloseBrace then
        pure (.mk acc "")
      else
        pmSyntaxError ("expected `,` or `\x7d`, but got: " ++ t.source)

/-- `Parser.parseIfStatement`. -/
def parseIfStatementF (fuel : Nat) (rec : ParserFns) : PM Node := do
    let _ ← pmScanExpect fuel .TokenKeywordIf "expected `if` statement"
    let _ ← pmScanExpect fuel .TokenPunctuatorOpenParen "expected `(` after `if`"
    let test ← rec.parseExpression exprOrderComma eflagsNone
    let _ ← pmScanExpect fuel .TokenPunctuatorCloseParen "expected `)`"
    let consequent ← rec.parseStatement
    let alternate ←
      if (← pmPeekAt fuel 0).type = .TokenKeywordElse then do
        let _ ← pmScanExpect fuel .TokenKeywordElse "expected `else`"
        rec.parseStatement
      else
        pure (Option.none : Option Node)
    pure (.IfStatement (some test) consequent alternate)

/-- `Parser.parseDoWhileStatement`. -/
def parseDoWhileStatementF (fuel : Nat) (rec : ParserFns) : PM Node := do
    let _ ← pmScanExpect fuel .TokenKeywordDo "expected `do` statement"
    let body ← rec.parseStatement
    let _ ← pmScanExpect fuel .TokenKeywordWhile "expected `while` in do/while statement"
    let _ ← pmScanExpect fuel .TokenPunctuatorOpenParen
      "expected `(` in `while` of do/while statement"
    let test ← rec.parseExpression exprOrderComma eflagsNone
    let _ ← pmScanExpect fuel .TokenPunctuatorCloseParen
      "expected `)` in `while` of do/while statement"
    expectSemicolon fuel
    pure (.DoWhileStatement body (some test))

/-- `Parser.parseWhileStatement` (its paren messages are copied from the
do/while parser in the source). -/
def parseWhileStatementF (fuel : Nat) (rec : ParserFns) : PM Node := do
    let _ ← pmScanExpect fuel .TokenKeywordWhile "expected `while` statement"
    let _ ← pmScanExpect fuel .TokenPunctuatorOpenParen
      "expected `(` in `while` of do/while statement"
    let test ← rec.parseExpression exprOrderComma eflagsNone
    let _ ← pmScanExpect fuel .TokenPunctuatorCloseParen
      "expected `)` in `while` of do/while statement"
    let body ← rec.parseStatement
    pure (.WhileStatement (some test) body)

/-- `Parser.parseForStatement`: the head dispatch (`;`, `var`, expression with
`in` disallowed), then for-in / for-of / classical for. -/
def parseForStatementF (fuel : Nat) (rec : ParserFns) : PM Node := do
    let _ ← pmScanExpect fuel .TokenKeywordFor "expected `for` statement"
    let _ ← pmScanExpect fuel .TokenPunctuatorOpenParen "expected `(`"
    let t ← pmPeekAt fuel 0
    if t.type = .TokenPunctuatorSemicolon then do
      expectSemicolon fuel
      rec.parseForClassicTail Option.none
    else do
      let v ←
        if t.type = .TokenKeywordVar then
          rec.parseVariableStatementNoSemicolon
        else
          rec.parseExpression exprOrderComma eflagsDisallowIn
      let pk ← pmPeekAt fuel 0
      if pk.type = .TokenKeywordIn then do
        let _ ← pmScanExpect fuel .TokenKeywordIn "expected `in`"
        let right ← rec.parseExpression exprOrderComma eflagsNone
        let _ ← pmScanExpect fuel .TokenPunctuatorCloseParen "expected `)`"
        let body ← rec.parseStatement
        pure (.ForInStatement (some v) (some right) body)
      else if pk.type = .TokenKeywordOf then do
        let _ ← pmScanExpect fuel .TokenKeywordOf "expected `of`"
        let right ← rec.parseExpression exprOrderComma eflagsNone
        let _ ← pmScanExpect fuel .TokenPunctuatorCloseParen "expected `)`"
        let body ← rec.parseStatement
        pure (.ForOfStatement (some v) (some right) body)
      else do
        expectSemicolon fuel
        rec.parseForClassicTail (some v)

/-- The classical-for tail of `Parser.parseForStatement`: optional test, `;`,
optional update, `)`, body. -/
def parseForClassicTailF (fuel : Nat) (rec : ParserFns) (init : Option Node) : PM Node := do
    let test ←
      if (← pmPeekAt fuel 0).type ≠ .TokenPunctuatorSemicolon then do
        let e ← rec.parseExpression exprOrderComma eflagsNone
        pure (some e)
      else
        pure (Option.none : Option Node)
    expectSemicolon fuel
    let update ←
      if (← pmPeekAt fuel 0).type ≠ .TokenPunctuatorCloseParen then do
        let e ← rec.parseExpression exprOrderComma eflagsNone
        pure (some e)
      else
        pure (Option.none : Option Node)
    let _ ← pmScanExpect fuel .TokenPunctuatorCloseParen "expected `)`"
    let body ← rec.parseStatement
    pure (.ForStatement init test update body)

/-- `Parser.parseSwitchStatement`. -/
def parseSwitchStatementF (fuel : Nat) (rec : ParserFns) : PM Node := do
    let _ ← pmScanExpect fuel .TokenKeywordSwitch "expected `switch` statement"
    let _ ← pmScanExpect fuel .TokenPunctuatorOpenParen "expected `(`"
    let disc ← rec.parseExpression exprOrderComma eflagsNone
    let _ ← pmScanExpect fuel .TokenPunctuatorCloseParen "expected `)`"
    let _ ← pmScanExpect fuel .TokenPunctuatorOpenBrace "expected `\x7b`"
    let cases ← rec.parseSwitchLoop []
    pure (.SwitchStatement (some disc) cases)

/-- The case loop of `Parser.parseSwitchStatement` (a token other than `case`,
`default` or `}` makes the source spin forever; the model's fuel runs out). -/
def parseSwitchLoopF (fuel : Nat) (rec : ParserFns) (acc : List SwitchCase) : PM (List SwitchCase) := do
    let pk ← pmPeekAt fuel 0
    if pk.type = .TokenKeywordCase then do
      let _ ← pmScanExpect fuel .TokenKeywordCase "expected `case`"
      let test ← rec.parseExpression exprOrderComma eflagsNone
      let _ ← pmScanExpect fuel .TokenPunctuatorColon "expected `:`"
      let cons ← rec.parseSwitchCaseStatements []
      rec.parseSwitchLoop (acc ++ [SwitchCase.mk (some test) cons])
    else if pk.type = .TokenKeywordDefault then do
      let _ ← pmScanExpect fuel .TokenKeywordDefault "expected `default`"
      let _ ← pmScanExpect fuel .TokenPunctuatorColon "expected `:`"
      let cons ← rec.parseSwitchCaseStatements []
      rec.parseSwitchLoop (acc ++ [SwitchCase.mk Option.none cons])
    else if pk.type = .TokenPunctuatorCloseBrace then do
      let _ ← pmScanExpect fuel .TokenPunctuatorCloseBrace "expected `\x7d`"
      pure acc
    else
      rec.parseSwitchLoop acc

/-- The per-case statement loop of `Parser.parseSwitchStatement`. -/
def parseSwitchCaseStatementsF (fuel : Nat) (rec : ParserFns) (acc : List (Option Node)) : PM (List (Option Node)) := do
    let pk ← pmPeekAt fuel 0
    if pk.type = .TokenKeywordCase || pk.type = .TokenKeywordDefault ||
        pk.type = .TokenPunctuatorCloseBrace then
      pure acc
    else do
      let s ← rec.parseStatement
      rec.parseSwitchCaseStatements (acc ++ [s])

/-- `Parser.parseReturnStatement`: the argument is omitted when the next token
is newline-led, `;` or `}`. -/
def parseReturnStatementF (fuel : Nat) (rec : ParserFns) : PM Node := do
    let _ ← pmScanExpect fuel .TokenKeywordReturn "expected return statement"
    let t ← pmPeekAt fuel 0
    if t.newLine || t.type = .TokenPunctuatorSemicolon ||
        t.type = .TokenPunctuatorCloseBrace then do
      expectSemicolon fuel
      pure (.ReturnStatement Option.none)
    else do
      let arg ← rec.parseExpression exprOrderComma eflagsNone
      expectSemicolon fuel
      pure (.ReturnStatement (some arg))

/-- `Parser.parseThrowStatement`: a newline directly after `throw` is a syntax
error. -/
def parseThrowStatementF (fuel : Nat) (rec : ParserFns) : PM Node := do
    let _ ← pmScanExpect fuel .TokenKeywordThrow "expected throw statement"
    if (← pmPeekAt fuel 0).newLine then
      pmSyntaxError "illegal newline after throw"
    else do
      let arg ← rec.parseExpression exprOrderComma eflagsNone
      expectSemicolon fuel
      pure (.ThrowStatement (some arg))

/-- `Parser.parseTryStatement`: the `try` block, an optional catch clause
(optionally parenthesised parameter), an optional finally block.  As in the
source, nothing requires at least one of catch/finally to be present (see
claim C5). -/
def parseTryStatementF (fuel : Nat) (rec : ParserFns) : PM Node := do
    let _ ← pmScanExpect fuel .TokenKeywordTry "expected try statement"
    let block ← rec.parseBlock
    let handler ←
      if (← pmPeekAt fuel 0).type = .TokenKeywordCatch then do
        let _ ← pmScanExpect fuel .TokenKeywordCatch "expected catch statement"
        let param ←
          if (← pmPeekAt fuel 0).type = .TokenPunctuatorOpenParen then do
            let _ ← pmScanExpect fuel .TokenPunctuatorOpenParen "expected `(`"
            let pr ← rec.parseCatchParameter
            let _ ← pmScanExpect fuel .TokenPunctuatorCloseParen "expected `)`"
            pure pr
          else
            pure BindingPattern.empty
        let body ← rec.parseBlock
        pure (some (Node.CatchClause param (some body)))
      else
        pure (Option.none : Option Node)
    let finalizer ←
      if (← pmPeekAt fuel 0).type = .TokenKeywordFinally then do
        let _ ← pmScanExpect fuel .TokenKeywordFinally "expected finally statement"
        let f ← rec.parseBlock
        pure (some f)
      else
        pure (Option.none : Option Node)
    pure (.TryStatement (some block) handler finalizer)

/-- `Parser.parseCatchParameter`: an identifier or a nested pattern; any other
token silently yields the zero-valued pattern, as in the source. -/
def parseCatchParameterF (fuel : Nat) (rec : ParserFns) : PM BindingPattern := do
    let ctx ← pmCtx
    let t := ctx.keywordToIdentifier (← pmScan fuel) false
    if t.type = .TokenIdentifier then
      pure (BindingPattern.mk t.literal Option.none Option.none)
    else if t.type = .TokenPunctuatorOpenBracket then do
      let ap ← rec.parseArrayBindingPatternTail
      pure (BindingPattern.mk "" Option.none (some ap))
    else if t.type = .TokenPunctuatorOpenBrace then do
      let op ← rec.parseObjectBindingPatternTail
      pure (BindingPattern.mk "" (some op) Option.none)
    else
      pure BindingPattern.empty

/-- `Parser.parseLabelledStatement`. -/
def parseLabelledStatementF (fuel : Nat) (rec : ParserFns) : PM Node := do
    let label ← scanIdent fuel "expected statement label"
    let _ ← pmScanExpect fuel .TokenPunctuatorColon "expected `:` after statement label"
    let body ← rec.parseStatement
    pure (.LabeledStatement label body)

/-- `Parser.parseDeclaration`: function, lexical or class declarations;
nothing otherwise. -/
def parseDeclarationF (fuel : Nat) (rec : ParserFns) : PM (Option Node) := do
    let pk ← pmPeekAt fuel 0
    if pk.type = .TokenKeywordFunction then do
      let n ← rec.parseFunctionDeclaration
      pure (some n)
    else if pk.type = .TokenKeywordLet || pk.type = .TokenKeywordConst then do
      let n ← rec.parseLexicalDeclaration
      pure (some n)
    else if pk.type = .TokenKeywordClass then do
      let n ← rec.parseClassDeclaration
      pure (some n)
    else
      pure Option.none

/-- `Parser.parseFunctionDeclaration`: `function`, a mandatory identifier, the
parameter list and the body. -/
def parseFunctionDeclarationF (fuel : Nat) (rec : ParserFns) : PM Node := do
    let _ ← pmScanExpect fuel .TokenKeywordFunction "expected function"
    let name ← scanIdent fuel "expected identifier"
    let _ ← pmScanExpect fuel .TokenPunctuatorOpenParen
      "expected parameter list following function declaration"
    let params ← rec.parseParametersTail
    let body ← rec.parseBlock
    pure (.FunctionDeclaration name params body false false false)

/-- `Parser.parseLexicalDeclaration`: the declaration then ASI. -/
def parseLexicalDeclarationF (fuel : Nat) (rec : ParserFns) : PM Node := do
    let n ← rec.parseLexicalDeclarationNoSemicolon
    expectSemicolon fuel
    pure n

/-- `Parser.parseLexicalDeclarationNoSemicolon`: `let` or `const`
declarators. -/
def parseLexicalDeclarationNoSemicolonF (fuel : Nat) (rec : ParserFns) : PM Node := do
    let t ← pmScan fuel
    if t.type = .TokenKeywordLet then do
      let ds ← rec.parseVariableDeclarations
      pure (.VariableDeclaration ds .LetDeclaration)
    else if t.type = .TokenKeywordConst then do
      let ds ← rec.parseVariableDeclarations
      pure (.VariableDeclaration ds .ConstDeclaration)
    else
      pmSyntaxError "expected lexical declaration"

/-- `Parser.parseClassDeclaration`: `class`, a mandatory name, an optional
`extends` clause, then the class body. -/
def parseClassDeclarationF (fuel : Nat) (rec : ParserFns) : PM Node := do
    let _ ← pmScanExpect fuel .TokenKeywordClass "expected class"
    let id ← scanIdent fuel "expected class name"
    let sc ←
      if (← pmPeekAt fuel 0).type = .TokenKeywordExtends then do
        let _ ← pmScan fuel
        let e ← rec.parseExpression exprOrderMemberExpr eflagsNone
        pure (some e)
      else
        pure (Option.none : Option Node)
    let body ← rec.parseClassBody
    pure (.ClassDeclaration id sc body)

/-- `Parser.parseClassBody`: `{` then method definitions until `}`. -/
def parseClassBodyF (fuel : Nat) (rec : ParserFns) : PM (List Node) := do
    let _ ← pmScanExpect fuel .TokenPunctuatorOpenBrace "expected '\x7b'"
    rec.parseClassBodyLoop []

/-- The member loop of `Parser.parseClassBody`: optional `static`, optional
`get`/`set`, an identifier or computed key, then parameters and body. -/
def parseClassBodyLoopF (fuel : Nat) (rec : ParserFns) (acc : List Node) : PM (List Node) := do
    let peek ← pmPeekAt fuel 0
    if peek.type = .TokenPunctuatorCloseBrace then do
      let _ ← pmScan fuel
      pure acc
    else do
      let (static, peek) ←
        if peek.type = .TokenKeywordStatic then do
          let _ ← pmScan fuel
          let pk ← pmPeekAt fuel 0
          pure (true, pk)
        else
          pure (false, peek)
      let kind ←
        if peek.type = .TokenKeywordGet then do
          let _ ← pmScan fuel
          pure MethodKind.GetMethod
        else if peek.type = .TokenKeywordSet then do
          let _ ← pmScan fuel
          pure MethodKind.SetMethod
        else
          pure MethodKind.Method
      let t ← pmScan fuel
      let (key, computed) ←
        if t.type = .TokenIdentifier then
          pure ((some (Node.Identifier t.literal) : Option Node), false)
        else if t.type = .TokenPunctuatorOpenBracket then do
          let k ← rec.parseExpression exprOrderComma eflagsNone
          let _ ← pmScanExpect fuel .TokenPunctuatorCloseBracket "expected `]`"
          pure ((some k : Option Node), true)
        else
          pmSyntaxError "expected method definition"
      let params ← rec.parseParameters
      let body ← rec.parseBlock
      let fn := Node.FunctionExpression "" params (some body) false false false false
      rec.parseClassBodyLoop (acc ++ [.MethodDefinition key computed fn kind static])

/-- The statement loop of `Parser.parseScript`. -/
def parseScriptLoopF (fuel : Nat) (rec : ParserFns) (acc : List Node) : PM (List Node) := do
    if (← pmPeekAt fuel 0).type = .TokenNone then
      pure acc
    else do
      let n ← rec.parseStatementItem
      rec.parseScriptLoop (acc ++ [n])

/-- The item loop of `Parser.parseModule`. -/
def parseModuleLoopF (fuel : Nat) (rec : ParserFns) (acc : List Node) : PM (List Node) := do
    if (← pmPeekAt fuel 0).type = .TokenNone then
      pure acc
    else do
      match ← rec.parseModuleItem with
      | some n => rec.parseModuleLoop (acc ++ [n])
      | Option.none => rec.parseModuleLoop acc

/-- `Parser.parseModuleItem`: import/export declarations or a statement item;
nothing at end of input (unreachable under the loop's guard). -/
def parseModuleItemF (fuel : Nat) (rec : ParserFns) : PM (Option Node) := do
    let pk ← pmPeekAt fuel 0
    if pk.type = .TokenNone then
      pure Option.none
    else if pk.type = .TokenKeywordImport then do
      let n ← parseImportDecl fuel
      pure (some n)
    else if pk.type = .TokenKeywordExport then do
      let n ← parseExportDecl fuel
      pure (some n)
    else do
      let n ← rec.parseStatementItem
      pure (some n)

/-- The fuel-exhausted record: every procedure yields `Fail.fuel`. -/
def parserFnsZero : ParserFns where
  parseExpression := fun _ _ => pmFuel
  parseExpressionMain := fun _ _ => pmFuel
  parseExpressionPrimary := fun _ _ _ _ => pmFuel
  parseExpressionPost := fun _ _ _ => pmFuel
  parseExpressionLoop := fun _ _ _ => pmFuel
  parseFunctionExpressionTail := fun _ => pmFuel
  parseArguments := pmFuel
  parseArgumentsLoop := fun _ => pmFuel
  parseParameters := pmFuel
  parseParametersTail := pmFuel
  parseParametersTailLoop := fun _ => pmFuel
  parseArrayTail := fun _ => pmFuel
  parseArrayTailLoop := fun _ _ => pmFuel
  parseArrayElisions := fun _ => pmFuel
  parseObjectTail := fun _ => pmFuel
  parseObjectTailLoop := fun _ _ => pmFuel
  parseObjectTailProperty := fun _ _ _ _ _ _ => pmFuel
  parseBlockOrShorthand := pmFuel
  parseBlock := pmFuel
  parseBlockLoop := fun _ => pmFuel
  parseStatementItem := pmFuel
  parseStatement := pmFuel
  parseExpressionStatement := pmFuel
  parseVariableStatement := pmFuel
  parseVariableStatementNoSemicolon := pmFuel
  parseVariableDeclarations := pmFuel
  parseVariableDeclarationsLoop := fun _ => pmFuel
  parseVariableDeclaration := pmFuel
  parseArrayBindingPattern := pmFuel
  parseArrayBindingPatternTail := pmFuel
  parseArrayBindingPatternTailLoop := fun _ => pmFuel
  parseObjectBindingPattern := pmFuel
  parseObjectBindingPatternTail := pmFuel
  parseObjectBindingPatternTailLoop := fun _ => pmFuel
  parseIfStatement := pmFuel
  parseDoWhileStatement := pmFuel
  parseWhileStatement := pmFuel
  parseForStatement := pmFuel
  parseForClassicTail := fun _ => pmFuel
  parseSwitchStatement := pmFuel
  parseSwitchLoop := fun _ => pmFuel
  parseSwitchCaseStatements := fun _ => pmFuel
  parseReturnStatement := pmFuel
  parseThrowStatement := pmFuel
  parseTryStatement := pmFuel
  parseCatchParameter := pmFuel
  parseLabelledStatement := pmFuel
  parseDeclaration := pmFuel
  parseFunctionDeclaration := pmFuel
  parseLexicalDeclaration := pmFuel
  parseLexicalDeclarationNoSemicolon := pmFuel
  parseClassDeclaration := pmFuel
  parseClassBody := pmFuel
  parseClassBodyLoop := fun _ => pmFuel
  parseScriptLoop := fun _ => pmFuel
  parseModuleLoop := fun _ => pmFuel
  parseModuleItem := pmFuel

/-- One fuel level of the parser: each procedure body, with `rec` as the
record for the recursive calls. -/
def parserFnsStep (fuel : Nat) (rec : ParserFns) : ParserFns where
  parseExpression := parseExpressionF fuel rec
  parseExpressionMain := parseExpressionMainF fuel rec
  parseExpressionPrimary := parseExpressionPrimaryF fuel rec
  parseExpressionPost := parseExpressionPostF fuel rec
  parseExpressionLoop := parseExpressionLoopF fuel rec
  parseFunctionExpressionTail := parseFunctionExpressionTailF fuel rec
  parseArguments := parseArgumentsF fuel rec
  parseArgumentsLoop := parseArgumentsLoopF fuel rec
  parseParameters := parseParametersF fuel rec
  parseParametersTail := parseParametersTailF fuel rec
  parseParametersTailLoop := parseParametersTailLoopF fuel rec
  parseArrayTail := parseArrayTailF fuel rec
  parseArrayTailLoop := parseArrayTailLoopF fuel rec
  parseArrayElisions := parseArrayElisionsF fuel rec
  parseObjectTail := parseObjectTailF fuel rec
  parseObjectTailLoop := parseObjectTailLoopF fuel rec
  parseObjectTailProperty := parseObjectTailPropertyF fuel rec
  parseBlockOrShorthand := parseBlockOrShorthandF fuel rec
  parseBlock := parseBlockF fuel rec
  parseBlockLoop := parseBlockLoopF fuel rec
  parseStatementItem := parseStatementItemF fuel rec
  parseStatement := parseStatementF fuel rec
  parseExpressionStatement := parseExpressionStatementF fuel rec
  parseVariableStatement := parseVariableStatementF fuel rec
  parseVariableStatementNoSemicolon := parseVariableStatementNoSemicolonF fuel rec
  parseVariableDeclarations := parseVariableDeclarationsF fuel rec
  parseVariableDeclarationsLoop := parseVariableDeclarationsLoopF fuel rec
  parseVariableDeclaration := parseVariableDeclarationF fuel rec
  parseArrayBindingPattern := parseArrayBindingPatternF fuel rec
  parseArrayBindingPatternTail := parseArrayBindingPatternTailF fuel rec
  parseArrayBindingPatternTailLoop := parseArrayBindingPatternTailLoopF fuel rec
  parseObjectBindingPattern := parseObjectBindingPatternF fuel rec
  parseObjectBindingPatternTail := parseObjectBindingPatternTailF fuel rec
  parseObjectBindingPatternTailLoop := parseObjectBindingPatternTailLoopF fuel rec
  parseIfStatement := parseIfStatementF fuel rec
  parseDoWhileStatement := parseDoWhileStatementF fuel rec
  parseWhileStatement := parseWhileStatementF fuel rec
  parseForStatement := parseForStatementF fuel rec
  parseForClassicTail := parseForClassicTailF fuel rec
  parseSwitchStatement := parseSwitchStatementF fuel rec
  parseSwitchLoop := parseSwitchLoopF fuel rec
  parseSwitchCaseStatements := parseSwitchCaseStatementsF fuel rec
  parseReturnStatement := parseReturnStatementF fuel rec
  parseThrowStatement := parseThrowStatementF fuel rec
  parseTryStatement := parseTryStatementF fuel rec
  parseCatchParameter := parseCatchParameterF fuel rec
  parseLabelledStatement := parseLabelledStatementF fuel rec
  parseDeclaration := parseDeclarationF fuel rec
  parseFunctionDeclaration := parseFunctionDeclarationF fuel rec
  parseLexicalDeclaration := parseLexicalDeclarationF fuel rec
  parseLexicalDeclarationNoSemicolon := parseLexicalDeclarationNoSemicolonF fuel rec
  parseClassDeclaration := parseClassDeclarationF fuel rec
  parseClassBody := parseClassBodyF fuel rec
  parseClassBodyLoop := parseClassBodyLoopF fuel rec
  parseScriptLoop := parseScriptLoopF fuel rec
  parseModuleLoop := parseModuleLoopF fuel rec
  parseModuleItem := parseModuleItemF fuel rec

/-- The fuelled parser record (ties the mutual recursion). -/
def parserFns : Nat → ParserFns :=
  Nat.rec parserFnsZero (fun fuel ih => parserFnsStep fuel ih)

/-- The fuelled entry point for `parseExpressionF` (projection of `parserFns`). -/
def parseExpression (fuel : Nat) (order : Nat) (flags : ExprFlags) : PM Node := (parserFns fuel).parseExpression order flags

/-- The fuelled entry point for `parseExpressionMainF` (projection of `parserFns`). -/
def parseExpressionMain (fuel : Nat) (order : Nat) (flags : ExprFlags) : PM Node := (parserFns fuel).parseExpressionMain order flags

/-- The fuelled entry point for `parseExpressionPrimaryF` (projection of `parserFns`). -/
def parseExpressionPrimary (fuel : Nat) (order : Nat) (flags : ExprFlags) (t : Token) (re : ReToken) : PM (Bool × Node) := (parserFns fuel).parseExpressionPrimary order flags t re

/-- The fuelled entry point for `parseExpressionPostF` (projection of `parserFns`). -/
def parseExpressionPost (fuel : Nat) (order : Nat) (flags : ExprFlags) (n : Node) : PM Node := (parserFns fuel).parseExpressionPost order flags n

/-- The fuelled entry point for `parseExpressionLoopF` (projection of `parserFns`). -/
def parseExpressionLoop (fuel : Nat) (order : Nat) (flags : ExprFlags) (n : Node) : PM Node := (parserFns fuel).parseExpressionLoop order flags n

/-- The fuelled entry point for `parseFunctionExpressionTailF` (projection of `parserFns`). -/
def parseFunctionExpressionTail (fuel : Nat) (async : Bool) : PM Node := (parserFns fuel).parseFunctionExpressionTail async

/-- The fuelled entry point for `parseArgumentsF` (projection of `parserFns`). -/
def parseArguments (fuel : Nat) : PM (List Node) := (parserFns fuel).parseArguments

/-- The fuelled entry point for `parseArgumentsLoopF` (projection of `parserFns`). -/
def parseArgumentsLoop (fuel : Nat) (acc : List Node) : PM (List Node) := (parserFns fuel).parseArgumentsLoop acc

/-- The fuelled entry point for `parseParametersF` (projection of `parserFns`). -/
def parseParameters (fuel : Nat) : PM FormalParameters := (parserFns fuel).parseParameters

/-- The fuelled entry point for `parseParametersTailF` (projection of `parserFns`). -/
def parseParametersTail (fuel : Nat) : PM FormalParameters := (parserFns fuel).parseParametersTail

/-- The fuelled entry point for `parseParametersTailLoopF` (projection of `parserFns`). -/
def parseParametersTailLoop (fuel : Nat) (acc : List BindingElement) : PM FormalParameters := (parserFns fuel).parseParametersTailLoop acc

/-- The fuelled entry point for `parseArrayTailF` (projection of `parserFns`). -/
def parseArrayTail (fuel : Nat) (flags : ExprFlags) : PM Node := (parserFns fuel).parseArrayTail flags

/-- The fuelled entry point for `parseArrayTailLoopF` (projection of `parserFns`). -/
def parseArrayTailLoop (fuel : Nat) (flags : ExprFlags) (acc : List (Option Node)) : PM Node := (parserFns fuel).parseArrayTailLoop flags acc

/-- The fuelled entry point for `parseArrayElisionsF` (projection of `parserFns`). -/
def parseArrayElisions (fuel : Nat) (acc : List (Option Node)) : PM (List (Option Node)) := (parserFns fuel).parseArrayElisions acc

/-- The fuelled entry point for `parseObjectTailF` (projection of `parserFns`). -/
def parseObjectTail (fuel : Nat) (flags : ExprFlags) : PM Node := (parserFns fuel).parseObjectTail flags

/-- The fuelled entry point for `parseObjectTailLoopF` (projection of `parserFns`). -/
def parseObjectTailLoop (fuel : Nat) (flags : ExprFlags) (acc : List Property) : PM Node := (parserFns fuel).parseObjectTailLoop flags acc

/-- The fuelled entry point for `parseObjectTailPropertyF` (projection of `parserFns`). -/
def parseObjectTailProperty (fuel : Nat) (flags : ExprFlags) (acc : List Property) (t : Token) (async : Bool) (generator : Bool) (kind : PropertyKind) : PM Node := (parserFns fuel).parseObjectTailProperty flags acc t async generator kind

/-- The fuelled entry point for `parseBlockOrShorthandF` (projection of `parserFns`). -/
def parseBlockOrShorthand (fuel : Nat) : PM Node := (parserFns fuel).parseBlockOrShorthand

/-- The fuelled entry point for `parseBlockF` (projection of `parserFns`). -/
def parseBlock (fuel : Nat) : PM Node := (parserFns fuel).parseBlock

/-- The fuelled entry point for `parseBlockLoopF` (projection of `parserFns`). -/
def parseBlockLoop (fuel : Nat) (acc : List Node) : PM (List Node) := (parserFns fuel).parseBlockLoop acc

/-- The fuelled entry point for `parseStatementItemF` (projection of `parserFns`). -/
def parseStatementItem (fuel : Nat) : PM Node := (parserFns fuel).parseStatementItem

/-- The fuelled entry point for `parseStatementF` (projection of `parserFns`). -/
def parseStatement (fuel : Nat) : PM (Option Node) := (parserFns fuel).parseStatement

/-- The fuelled entry point for `parseExpressionStatementF` (projection of `parserFns`). -/
def parseExpressionStatement (fuel : Nat) : PM Node := (parserFns fuel).parseExpressionStatement

/-- The fuelled entry point for `parseVariableStatementF` (projection of `parserFns`). -/
def parseVariableStatement (fuel : Nat) : PM Node := (parserFns fuel).parseVariableStatement

/-- The fuelled entry point for `parseVariableStatementNoSemicolonF` (projection of `parserFns`). -/
def parseVariableStatementNoSemicolon (fuel : Nat) : PM Node := (parserFns fuel).parseVariableStatementNoSemicolon

/-- The fuelled entry point for `parseVariableDeclarationsF` (projection of `parserFns`). -/
def parseVariableDeclarations (fuel : Nat) : PM (List VariableDeclarator) := (parserFns fuel).parseVariableDeclarations

/-- The fuelled entry point for `parseVariableDeclarationsLoopF` (projection of `parserFns`). -/
def parseVariableDeclarationsLoop (fuel : Nat) (acc : List VariableDeclarator) : PM (List VariableDeclarator) := (parserFns fuel).parseVariableDeclarationsLoop acc

/-- The fuelled entry point for `parseVariableDeclarationF` (projection of `parserFns`). -/
def parseVariableDeclaration (fuel : Nat) : PM VariableDeclarator := (parserFns fuel).parseVariableDeclaration

/-- The fuelled entry point for `parseArrayBindingPatternF` (projection of `parserFns`). -/
def parseArrayBindingPattern (fuel : Nat) : PM ArrayBindingPattern := (parserFns fuel).parseArrayBindingPattern

/-- The fuelled entry point for `parseArrayBindingPatternTailF` (projection of `parserFns`). -/
def parseArrayBindingPatternTail (fuel : Nat) : PM ArrayBindingPattern := (parserFns fuel).parseArrayBindingPatternTail

/-- The fuelled entry point for `parseArrayBindingPatternTailLoopF` (projection of `parserFns`). -/
def parseArrayBindingPatternTailLoop (fuel : Nat) (acc : List BindingElement) : PM ArrayBindingPattern := (parserFns fuel).parseArrayBindingPatternTailLoop acc

/-- The fuelled entry point for `parseObjectBindingPatternF` (projection of `parserFns`). -/
def parseObjectBindingPattern (fuel : Nat) : PM ObjectBindingPattern := (parserFns fuel).parseObjectBindingPattern

/-- The fuelled entry point for `parseObjectBindingPatternTailF` (projection of `parserFns`). -/
def parseObjectBindingPatternTail (fuel : Nat) : PM ObjectBindingPattern := (parserFns fuel).parseObjectBindingPatternTail

/-- The fuelled entry point for `parseObjectBindingPatternTailLoopF` (projection of `parserFns`). -/
def parseObjectBindingPatternTailLoop (fuel : Nat) (acc : List BindingProperty) : PM ObjectBindingPattern := (parserFns fuel).parseObjectBindingPatternTailLoop acc

/-- The fuelled entry point for `parseIfStatementF` (projection of `parserFns`). -/
def parseIfStatement (fuel : Nat) : PM Node := (parserFns fuel).parseIfStatement

/-- The fuelled entry point for `parseDoWhileStatementF` (projection of `parserFns`). -/
def parseDoWhileStatement (fuel : Nat) : PM Node := (parserFns fuel).parseDoWhileStatement

/-- The fuelled entry point for `parseWhileStatementF` (projection of `parserFns`). -/
def parseWhileStatement (fuel : Nat) : PM Node := (parserFns fuel).parseWhileStatement

/-- The fuelled entry point for `parseForStatementF` (projection of `parserFns`). -/
def parseForStatement (fuel : Nat) : PM Node := (parserFns fuel).parseForStatement

/-- The fuelled entry point for `parseForClassicTailF` (projection of `parserFns`). -/
def parseForClassicTail (fuel : Nat) (init : Option Node) : PM Node := (parserFns fuel).parseForClassicTail init

/-- The fuelled entry point for `parseSwitchStatementF` (projection of `parserFns`). -/
def parseSwitchStatement (fuel : Nat) : PM Node := (parserFns fuel).parseSwitchStatement

/-- The fuelled entry point for `parseSwitchLoopF` (projection of `parserFns`). -/
def parseSwitchLoop (fuel : Nat) (acc : List SwitchCase) : PM (List SwitchCase) := (parserFns fuel).parseSwitchLoop acc

/-- The fuelled entry point for `parseSwitchCaseStatementsF` (projection of `parserFns`). -/
def parseSwitchCaseStatements (fuel : Nat) (acc : List (Option Node)) : PM (List (Option Node)) := (parserFns fuel).parseSwitchCaseStatements acc

/-- The fuelled entry point for `parseReturnStatementF` (projection of `parserFns`). -/
def parseReturnStatement (fuel : Nat) : PM Node := (parserFns fuel).parseReturnStatement

/-- The fuelled entry point for `parseThrowStatementF` (projection of `parserFns`). -/
def parseThrowStatement (fuel : Nat) : PM Node := (parserFns fuel).parseThrowStatement

/-- The fuelled entry point for `parseTryStatementF` (projection of `parserFns`). -/
def parseTryStatement (fuel : Nat) : PM Node := (parserFns fuel).parseTryStatement

/-- The fuelled entry point for `parseCatchParameterF` (projection of `parserFns`). -/
def parseCatchParameter (fuel : Nat) : PM BindingPattern := (parserFns fuel).parseCatchParameter

/-- The fuelled entry point for `parseLabelledStatementF` (projection of `parserFns`). -/
def parseLabelledStatement (fuel : Nat) : PM Node := (parserFns fuel).parseLabelledStatement

/-- The fuelled entry point for `parseDeclarationF` (projection of `parserFns`). -/
def parseDeclaration (fuel : Nat) : PM (Option Node) := (parserFns fuel).parseDeclaration

/-- The fuelled entry point for `parseFunctionDeclarationF` (projection of `parserFns`). -/
def parseFunctionDeclaration (fuel : Nat) : PM Node := (parserFns fuel).parseFunctionDeclaration

/-- The fuelled entry point for `parseLexicalDeclarationF` (projection of `parserFns`). -/
def parseLexicalDeclaration (fuel : Nat) : PM Node := (parserFns fuel).parseLexicalDeclaration

/-- The fuelled entry point for `parseLexicalDeclarationNoSemicolonF` (projection of `parserFns`). -/
def parseLexicalDeclarationNoSemicolon (fuel : Nat) : PM Node := (parserFns fuel).parseLexicalDeclarationNoSemicolon

/-- The fuelled entry point for `parseClassDeclarationF` (projection of `parserFns`). -/
def parseClassDeclaration (fuel : Nat) : PM Node := (parserFns fuel).parseClassDeclaration

/-- The fuelled entry point for `parseClassBodyF` (projection of `parserFns`). -/
def parseClassBody (fuel : Nat) : PM (List Node) := (parserFns fuel).parseClassBody

/-- The fuelled entry point for `parseClassBodyLoopF` (projection of `parserFns`). -/
def parseClassBodyLoop (fuel : Nat) (acc : List Node) : PM (List Node) := (parserFns fuel).parseClassBodyLoop acc

/-- The fuelled entry point for `parseScriptLoopF` (projection of `parserFns`). -/
def parseScriptLoop (fuel : Nat) (acc : List Node) : PM (List Node) := (parserFns fuel).parseScriptLoop acc

/-- The fuelled entry point for `parseModuleLoopF` (projection of `parserFns`). -/
def parseModuleLoop (fuel : Nat) (acc : List Node) : PM (List Node) := (parserFns fuel).parseModuleLoop acc

/-- The fuelled entry point for `parseModuleItemF` (projection of `parserFns`). -/
def parseModuleItem (fuel : Nat) : PM (Option Node) := (parserFns fuel).parseModuleItem

/-- `Parser.parseScript`: statement items until end of input. -/
def parseScript : Nat → PM Node
  | 0 => pmFuel
  | fuel+1 => do
    let body ← (parserFns fuel).parseScriptLoop []
    pure (.ScriptNode body)

/-- `Parser.parseModule`: force strict mode, then module items until end of
input. -/
def parseModule : Nat → PM Node
  | 0 => pmFuel
  | fuel+1 => do
    pmSetStrict
    let body ← (parserFns fuel).parseModuleLoop []
    pure (.ModuleNode body)

/-- `parser.ParseMode`. -/
inductive ParseMode where
  | ScriptMode
  | ModuleMode
  | ExpressionMode
deriving DecidableEq, Repr

/-- The observable outcome of `Parser.Parse`: a node, a returned error (the
recover block converts the three `errs` panic kinds into returned errors), or
an escaping panic (any other panic value is re-panicked — via the source's
`panic(err)` slip — so it crashes the caller instead of being returned).
`fuelOut` is the model's fuel exhaustion and occurs in none of the concrete
runs below. -/
inductive ParseOutcome where
  | ok (n : Node)
  | err (e : Fail)
  | panicked (msg : String)
  | fuelOut

/-- Classifier: the run returned a node. -/
def ParseOutcome.isOk : ParseOutcome → Bool
  | .ok _ => true
  | _ => false

/-- Classifier: the returned syntax error's location and message, if any. -/
def ParseOutcome.syntaxError? : ParseOutcome → Option (Location × String)
  | .err (.syntaxErr loc msg) => some (loc, msg)
  | _ => Option.none

/-- Classifier: the escaping panic's message, if any. -/
def ParseOutcome.panicMsg? : ParseOutcome → Option String
  | .panicked msg => some msg
  | _ => Option.none

/-- Classifier: the returned node, if any. -/
def ParseOutcome.node? : ParseOutcome → Option Node
  | .ok n => some n
  | _ => Option.none

/-- `Parser.Parse`: dispatch on the mode, catching the `errs` error kinds. -/
def runParse (fuel : Nat) (mode : ParseMode) (src : String) : ParseOutcome :=
  let m : PM Node :=
    match mode with
    | .ScriptMode => parseScript fuel
    | .ModuleMode => parseModule fuel
    | .ExpressionMode => parseExpression fuel exprOrderComma eflagsNone
  match m (ParserSt.init src.data) with
  | .ok (n, _) => .ok n
  | .error (.syntaxErr loc msg) => .err (.syntaxErr loc msg)
  | .error (.encodingErr loc) => .err (.encodingErr loc)
  | .error (.parserErr loc msg) => .err (.parserErr loc msg)
  | .error (.crash msg) => .panicked msg
  | .error .fuel => .fuelOut

/-- The strict-mode-reserved words of `parser.reservedWords` (the keywords whose
reservation class is `reservedStrict`), as source text. -/
def strictReservedWords : List String :=
  ["implements", "interface", "let", "package", "private", "protected", "public", "static"]

/-- A one-declarator `var` statement using the given word as the binding. -/
def varDeclSrc (w : String) : String := "var " ++ w ++ ";"

/-- A one-declarator `let` declaration using the given word as the binding. -/
def letDeclSrc (w : String) : String := "let " ++ w ++ " = 1;"

/-- A one-declarator `const` declaration using the given word as the binding. -/
def constDeclSrc (w : String) : String := "const " ++ w ++ " = 1;"

/-- A function declaration using the given word as the function name. -/
def funcNameSrc (w : String) : String := "function " ++ w ++ "() \x7b\x7d"

/-- A function declaration using the given word as its one parameter. -/
def funcParamSrc (w : String) : String := "function f(" ++ w ++ ") \x7b\x7d"

/-- A try statement using the given word as the catch-clause binding. -/
def catchBindSrc (w : String) : String := "try \x7b\x7d catch (" ++ w ++ ") \x7b\x7d"

/-- One-step unfolding of the fuelled `consumeNextToken` (definitional, from the
`Nat.rec` tying). -/
theorem consumeNextToken_succ (fuel : Nat) :
    consumeNextToken (fuel+1) = consumeNextTokenStep fuel (consumeNextToken fuel) := rfl

/-- One-step unfolding of the fuelled `pmPeekAt` (definitional, from the
`Nat.rec` tying). -/
theorem pmPeekAt_succ (fuel i : Nat) :
    pmPeekAt (fuel+1) i = pmPeekAtStep fuel (pmPeekAt fuel) i := rfl

/-- C1: the claim says reducing `a | b` yields a BinaryExpression whose operator
is bitwise-or, with ESTree operator string "|".  In fact the bitwise-or branch
of `parseExpression` constructs `BinaryBitXorOp`: parsing `a|b` succeeds with a
`BinaryExpression` node carrying the bitwise-XOR operator, whose ESTree
operator string is "^", not "|". -/
theorem c1_bitwise_or_builds_bitxor :
    (runParse 100 .ExpressionMode "a|b").node? =
      some (.BinaryExpression .BinaryBitXorOp (some (.Identifier "a")) (some (.Identifier "b")))
    ∧ estreeBinaryOpMap .BinaryBitXorOp = "^"
    ∧ estreeBinaryOpMap .BinaryBitOrOp = "|" :=
  ⟨rfl, rfl, rfl⟩

/-- C2: the claim says a covered `( … )` not followed by `=>` either wraps the
expression or raises a syntax error, never an internal crash.  In fact for a
covered object literal with a shorthand property (`({a})`) or a
destructure-default property (`({a = 1})`), `ObjectExpression.ContainsTemporalNodes`
dereferences the property's nil `Value`, and the resulting runtime panic is
re-panicked by `Parse`'s recover block: the run ends in an escaping panic, not
a syntax error or a wrapped node. -/
theorem c2_cover_grammar_shorthand_object_crashes :
    (runParse 100 .ExpressionMode "(\x7ba\x7d)").panicMsg? =
      some "runtime error: invalid memory address or nil pointer dereference"
    ∧ (runParse 100 .ExpressionMode "(\x7ba = 1\x7d)").panicMsg? =
      some "runtime error: invalid memory address or nil pointer dereference" :=
  ⟨rfl, rfl⟩

/-- C3: the claim says the line-terminator flag is set iff a line terminator
occurred anywhere in the whitespace/comment run between two tokens, including
one that terminates a `//` comment.  In fact `consumeSingleLineComment` consumes
the terminating line terminator without touching the `newLine` flag: in
`a//c\nb` the token `b` follows a line terminator yet carries `newLine = false`,
while in `a\nb` (no comment) it carries `newLine = true`. -/
theorem c3_comment_swallows_line_terminator :
    lexAllOf 100 "a//c\nb" = .ok
      [{ type := .TokenIdentifier, literal := "a", newLine := false },
       { type := .TokenIdentifier, literal := "b", newLine := false }]
    ∧ lexAllOf 100 "a\nb" = .ok
      [{ type := .TokenIdentifier, literal := "a", newLine := false },
       { type := .TokenIdentifier, literal := "b", newLine := true }] :=
  ⟨rfl, rfl⟩

/-- C4 (counterexample): two uses the claim quantifies over are not checked at
all.  A module-mode body that assigns to `arguments` parses successfully (there
is no `arguments`-assignment check, in either mode), and a strict-reserved
identifier used as a *catch-clause* binding also parses successfully in module
mode: `parseCatchParameter`'s token switch has no default case, so the keyword
token is silently dropped. -/
theorem c4_counterexample_unchecked_strict_uses :
    (runParse 100 .ModuleMode "arguments = 1;").isOk = true
    ∧ (runParse 100 .ScriptMode "arguments = 1;").isOk = true
    ∧ (runParse 200 .ModuleMode "try \x7b\x7d catch (interface) \x7b\x7d").isOk = true :=
  ⟨rfl, rfl, rfl⟩

/-- C4 (amended): for every strict-mode-reserved word used as a binding in a
`var`, `let` or `const` declaration, as a function declaration's name, or as a
function parameter, parsing fails with a syntax error in module mode (strict)
and succeeds in script mode without a "use strict" directive.  The claim's two
remaining uses do not hold: a catch-clause binding is accepted even in module
mode (last conjunct), and assignments to `arguments` are never checked (see the
counterexample). -/
theorem c4_strict_reserved_binding_module_fails (w : String)
    (hw : w ∈ strictReservedWords) :
    ((runParse 200 .ModuleMode (varDeclSrc w)).syntaxError?.isSome = true
      ∧ (runParse 200 .ScriptMode (varDeclSrc w)).isOk = true)
    ∧ ((runParse 200 .ModuleMode (letDeclSrc w)).syntaxError?.isSome = true
      ∧ (runParse 200 .ScriptMode (letDeclSrc w)).isOk = true)
    ∧ ((runParse 200 .ModuleMode (constDeclSrc w)).syntaxError?.isSome = true
      ∧ (runParse 200 .ScriptMode (constDeclSrc w)).isOk = true)
    ∧ ((runParse 200 .ModuleMode (funcNameSrc w)).syntaxError?.isSome = true
      ∧ (runParse 200 .ScriptMode (funcNameSrc w)).isOk = true)
    ∧ ((runParse 200 .ModuleMode (funcParamSrc w)).syntaxError?.isSome = true
      ∧ (runParse 200 .ScriptMode (funcParamSrc w)).isOk = true)
    ∧ (runParse 200 .ModuleMode (catchBindSrc w)).isOk = true := by
  fin_cases hw <;>
    exact ⟨⟨rfl, rfl⟩, ⟨rfl, rfl⟩, ⟨rfl, rfl⟩, ⟨rfl, rfl⟩, ⟨rfl, rfl⟩, rfl⟩

/-- C4 (witness): the amended theorem applied at the word `interface`. -/
theorem c4_strict_reserved_binding_module_fails_witness :
    "interface" ∈ strictReservedWords
    ∧ (((runParse 200 .ModuleMode (varDeclSrc "interface")).syntaxError?.isSome = true
        ∧ (runParse 200 .ScriptMode (varDeclSrc "interface")).isOk = true)
      ∧ ((runParse 200 .ModuleMode (letDeclSrc "interface")).syntaxError?.isSome = true
        ∧ (runParse 200 .ScriptMode (letDeclSrc "interface")).isOk = true)
      ∧ ((runParse 200 .ModuleMode (constDeclSrc "interface")).syntaxError?.isSome = true
        ∧ (runParse 200 .ScriptMode (constDeclSrc "interface")).isOk = true)
      ∧ ((runParse 200 .ModuleMode (funcNameSrc "interface")).syntaxError?.isSome = true
        ∧ (runParse 200 .ScriptMode (funcNameSrc "interface")).isOk = true)
      ∧ ((runParse 200 .ModuleMode (funcParamSrc "interface")).syntaxError?.isSome = true
        ∧ (runParse 200 .ScriptMode (funcParamSrc "interface")).isOk = true)
      ∧ (runParse 200 .ModuleMode (catchBindSrc "interface")).isOk = true) :=
  ⟨by decide, c4_strict_reserved_binding_module_fails "interface" (by decide)⟩

/-- C5 (counterexample): the claim says a `try` block followed by neither
`catch` nor `finally` fails with a syntax error.  In fact `parseTryStatement`
enforces nothing: `try {}` alone parses successfully. -/
theorem c5_counterexample_bare_try_accepted :
    (runParse 100 .ScriptMode "try \x7b\x7d").isOk = true := rfl

/-- C5 (amended): both the `catch` clause and the `finally` block of a `try`
statement are optional and their joint absence is not enforced: `try {}` alone
parses to a `TryStatement` with no handler and no finalizer, while the
`catch`/`finally` forms also parse. -/
theorem c5_try_catch_finally_optional :
    (runParse 100 .ScriptMode "try \x7b\x7d").node? =
      some (.ScriptNode [.TryStatement (some (.BlockStatement [])) Option.none Option.none])
    ∧ (runParse 100 .ScriptMode "try \x7b\x7d catch (e) \x7b\x7d").isOk = true
    ∧ (runParse 100 .ScriptMode "try \x7b\x7d finally \x7b\x7d").isOk = true :=
  ⟨rfl, rfl, rfl⟩

/-- C6: the claim says a decimal literal with an exponent part keeps its full
source text, including the `e`/`E` indicator and an optional sign.  In fact
`consumeDecimalPart`'s exponent branch never writes the indicator to the
literal and accepts no sign: `1e10` lexes to a single numeric token with raw
literal "110", `1E5` to "15", and `1e+5` falls apart into the three tokens
`1`, `+`, `5`. -/
theorem c6_decimal_exponent_dropped :
    lexAllOf 100 "1e10" = .ok
      [{ type := .TokenLiteralNumber, literal := "110", newLine := false }]
    ∧ lexAllOf 100 "1E5" = .ok
      [{ type := .TokenLiteralNumber, literal := "15", newLine := false }]
    ∧ lexAllOf 100 "1e+5" = .ok
      [{ type := .TokenLiteralNumber, literal := "1", newLine := false },
       { type := .TokenPunctuatorPlus, literal := "", newLine := false },
       { type := .TokenLiteralNumber, literal := "5", newLine := false }] :=
  ⟨rfl, rfl, rfl⟩

/-- C7: `expectSemicolon`, run on any parser state whose token queue starts
with a buffered token `t`: when `t` is `;` it succeeds and consumes it; when
`t` is not `;` but has the line-terminator flag, or is `}` or end-of-input, it
succeeds without consuming anything; in every other case it fails with a syntax
error whose message ends in "did you forget a semicolon?". -/
theorem c7_expect_semicolon_asi (fuel : Nat) (p : ParserSt) (t : Token)
    (rest : List Token) (l : Location) (locs : List Location)
    (hq : p.last = t :: rest) (hl : p.loc = l :: locs) :
    (t.type = .TokenPunctuatorSemicolon →
      expectSemicolon (fuel+1) p = .ok ((), { p with last := rest, loc := locs }))
    ∧ (t.type ≠ .TokenPunctuatorSemicolon →
       (t.newLine = true ∨ t.type = .TokenPunctuatorCloseBrace ∨ t.type = .TokenNone) →
       expectSemicolon (fuel+1) p = .ok ((), p))
    ∧ (t.type ≠ .TokenPunctuatorSemicolon → t.newLine = false →
       t.type ≠ .TokenPunctuatorCloseBrace → t.type ≠ .TokenNone →
       ∃ msg, expectSemicolon (fuel+1) p =
           .error (.syntaxErr ({ p with last := rest, loc := locs } : ParserSt).location msg)
         ∧ ∃ pre, msg = pre ++ "did you forget a semicolon?") := by
  obtain ⟨lx, last, loc, ctx⟩ := p
  simp only at hq hl
  subst hq hl
  refine ⟨fun h1 => ?_, fun h1 h2 => ?_, fun h1 h2 h3 h4 => ?_⟩
  · simp [expectSemicolon, pmPeekAt_succ, pmPeekAtStep, pmScanExpect, pmScan, pmSyntaxError,
      bind, StateT.bind, Except.bind, pure, StateT.pure, Except.pure, h1]
  · rcases h2 with h2 | h2 | h2 <;>
      simp [expectSemicolon, pmPeekAt_succ, pmPeekAtStep, pmScanExpect, pmScan, pmSyntaxError,
        bind, StateT.bind, Except.bind, pure, StateT.pure, Except.pure, h1, h2]
  · refine ⟨"expected " ++ TokenType.TokenPunctuatorSemicolon.goName ++ ", got " ++
        quoteStr t.source ++ ": " ++ "did you forget a semicolon?", ?_,
      "expected " ++ TokenType.TokenPunctuatorSemicolon.goName ++ ", got " ++
        quoteStr t.source ++ ": ", rfl⟩
    simp [expectSemicolon, pmPeekAt_succ, pmPeekAtStep, pmScanExpect, pmScan, pmSyntaxError,
      bind, StateT.bind, Except.bind, pure, StateT.pure, Except.pure, h1, h2, h3, h4]

/-- C7 (witness): the theorem applied at a state whose buffered front token is
a semicolon. -/
theorem c7_expect_semicolon_asi_witness :
    expectSemicolon 1
        { lx := LexerSt.init [],
          last := [{ type := .TokenPunctuatorSemicolon, literal := "", newLine := false }],
          loc := [{ column := 1, row := 1 }], ctx := {} } =
      .ok ((), { lx := LexerSt.init [], last := [], loc := [], ctx := {} }) :=
  (c7_expect_semicolon_asi 0 _ _ [] { column := 1, row := 1 } [] rfl rfl).1 rfl

/-- C8: for every scanner state with nonzero recorded column (zero is never
reached from `NewScanner`, whose column starts at 1), a `Read` that returns an
actual code point followed by `Unread` restores the reported `Location`, for
line-terminator runes (through the column sign-flip) as well as ordinary
runes. -/
theorem c8_read_unread_restores_location (s : ScannerSt) (h0 : s.col ≠ 0)
    (hne : (s.read).1 ≠ EOFRune) :
    ∃ s2, (s.read).2.unread = .ok s2 ∧ s2.location = s.location := by
  cases hsrc : listNth s.src s.pos with
  | none => simp [ScannerSt.read, hsrc, EOFRune] at hne
  | some c =>
    rcases Bool.eq_false_or_eq_true (isLineTerm (rn c)) with hlt | hlt <;>
      rcases Bool.eq_false_or_eq_true s.eof with he | he <;>
      simp [ScannerSt.read, hsrc, hlt, he, ScannerSt.unread, ScannerSt.location,
        bind, Except.bind, pure, Except.pure] <;>
      split_ifs <;>
      simp [ScannerSt.location] <;>
      omega

/-- C8 (witness): the theorem applied to reading (and unreading) a newline from
a fresh scanner. -/
theorem c8_read_unread_restores_location_witness :
    ∃ s2, ((ScannerSt.init ['\n']).read).2.unread = .ok s2 ∧
      s2.location = (ScannerSt.init ['\n']).location :=
  c8_read_unread_restores_location (ScannerSt.init ['\n']) (by decide) (by decide)

/-- C9: after a `Read` that returns the end-of-input sentinel, `Unread`
succeeds — it never surfaces the reader's pushback error, because the `eof`
flag suppresses the underlying `UnreadRune` call, so the cursor also stays
put — while the column (and, under the sign-flip state, the row) bookkeeping is
still adjusted exactly as for a real pushback. -/
theorem c9_unread_after_eof_read (s : ScannerSt) (h : (s.read).1 = EOFRune) :
    ∃ s2, (s.read).2.unread = .ok s2 ∧ s2.pos = s.pos ∧ s2.eof = true ∧
      (if (s.read).2.col < 0 then
        s2.col = -(s.read).2.col ∧ s2.row = (s.read).2.row - 1
       else s2.col = (s.read).2.col - 1 ∧ s2.row = (s.read).2.row) := by
  cases hsrc : listNth s.src s.pos with
  | some c =>
    rcases Bool.eq_false_or_eq_true (isLineTerm (some c)) with hlt | hlt <;>
      simp [ScannerSt.read, hsrc, hlt, EOFRune, rn] at h
  | none =>
    simp [ScannerSt.read, hsrc, ScannerSt.unread, bind, Except.bind, pure, Except.pure]
    split_ifs <;> simp

/-- C9 (witness): the theorem applied to reading past the end of an empty
source. -/
theorem c9_unread_after_eof_read_witness :
    ∃ s2, ((ScannerSt.init []).read).2.unread = .ok s2 ∧
      s2.pos = (ScannerSt.init []).pos ∧ s2.eof = true ∧
      (if ((ScannerSt.init []).read).2.col < 0 then
        s2.col = -((ScannerSt.init []).read).2.col ∧
          s2.row = ((ScannerSt.init []).read).2.row - 1
       else s2.col = ((ScannerSt.init []).read).2.col - 1 ∧
          s2.row = ((ScannerSt.init []).read).2.row) :=
  c9_unread_after_eof_read (ScannerSt.init []) (by decide)

/-- C10: at any input position whose next characters are `<<<`, `Lex` returns
the unsigned-right-shift token (`TokenPunctuatorUnsignedRShift`, the `>>>`
punctuator) — whatever follows, including end of input — and for `<<<=` the
unsigned-right-shift-assign token, rather than `<<` followed by `<` or a syntax
error. -/
theorem c10_triple_lt_unsigned_rshift :
    (∀ rest : List Char,
      (LexerSt.lex 50 (LexerSt.init ('<' :: '<' :: '<' :: '=' :: rest))).toOption.map Prod.fst =
        some { type := .TokenPunctuatorUnsignedRShiftAssign, literal := "", newLine := false })
    ∧ (∀ (c : Char) (cs : List Char), c ≠ '=' →
        (LexerSt.lex 50 (LexerSt.init ('<' :: '<' :: '<' :: c :: cs))).toOption.map Prod.fst =
          some { type := .TokenPunctuatorUnsignedRShift, literal := "", newLine := false })
    ∧ (LexerSt.lex 50 (LexerSt.init ['<', '<', '<'])).toOption.map Prod.fst =
        some { type := .TokenPunctuatorUnsignedRShift, literal := "", newLine := false } := by
  refine ⟨fun rest => rfl, fun c cs h => ?_, by decide⟩
  rcases Bool.eq_false_or_eq_true (isLineTerm (some c)) with hlt | hlt <;>
    simp +decide [LexerSt.lex, LexerSt.init, consumeNextToken_succ, consumeNextTokenStep,
      ScannerSt.init, sRead, sUnread, ScannerSt.read, ScannerSt.unread, listNth, setNewLine,
      rn, EOFRune, bind, StateT.bind, Except.bind, pure, StateT.pure, Except.pure, hlt, h,
      Except.toOption]

/-- C10 (witness): the theorem's non-`=` continuation case applied at the
letter `a`. -/
theorem c10_triple_lt_unsigned_rshift_witness :
    (LexerSt.lex 50 (LexerSt.init ('<' :: '<' :: '<' :: 'a' :: []))).toOption.map Prod.fst =
      some { type := .TokenPunctuatorUnsignedRShift, literal := "", newLine := false } :=
  c10_triple_lt_unsigned_rshift.2.1 'a' [] (by decide)

end Cleansheets
